import Mathlib

/-!
Shallow embedding of the Earley parser from `src/earley_parser.py` and
`src/grammar.py`, together with proofs settling the specification claims.

Conventions of the embedding:
* Python lists become Lean `List`s; Python `for` loops over lists that may
  grow while being iterated (the agenda loop in `parse` and the candidate
  loop in `_complete`) are modelled as index-based loops that re-read the
  list each step, exactly like Python's list iterator; since such loops can
  genuinely diverge, they carry explicit fuel and return `none` when the
  fuel runs out.
* Python `sorted(..., key=...)` is a stable sort; it is modelled by a stable
  insertion sort `sortByStart`.
* `str.join` over a list of strings is `String.join`.
* The `probability` field of `Rule` is inert data: it is never read by the
  algorithm and is ignored by `Rule.__eq__`, so it is omitted from the model.
* Exceptions that the claims talk about are modelled with `Except Unit`:
  `EarleyChart.getItem` implements Python list indexing (negative wrap,
  `IndexError` out of range), and the `[1]` indexing in `parse`'s final list
  comprehension is error-checked.
-/

/-- `Rule` from `src/grammar.py` (equality ignores the inert probability
field, which is therefore omitted). -/
structure SRule where
  lhs : String
  rhs : List String
  preterminal : Bool
deriving DecidableEq, Repr

/-- `Grammar` from `src/grammar.py`: an ordered list of rules and the
distinguished (start) symbol. -/
structure Grammar where
  rules : List SRule
  distinguished_symbol : String

/-- `State` from `src/earley_parser.py`: a dotted rule with its input span
and the backpointer list `previous_states`. -/
inductive State where
  | mk (rule : SRule) (span_start span_stop dot_position : Nat)
       (previous_states : List State)

/- `State.__eq__`: structural equality, recursing into `previous_states`
(list equality in Python compares elementwise with `State.__eq__`). -/
mutual

def State.beq : State → State → Bool
  | .mk r1 a1 b1 d1 p1, .mk r2 a2 b2 d2 p2 =>
    r1 == r2 && a1 == a2 && b1 == b2 && d1 == d2 && State.beqList p1 p2

def State.beqList : List State → List State → Bool
  | [], [] => true
  | x :: xs, y :: ys => State.beq x y && State.beqList xs ys
  | _, _ => false

end

instance : BEq State := ⟨State.beq⟩

mutual

theorem State.beq_iff : ∀ a b : State, State.beq a b = true ↔ a = b
  | .mk r1 a1 b1 d1 p1, .mk r2 a2 b2 d2 p2 => by
    rw [State.beq]
    simp only [Bool.and_eq_true, beq_iff_eq, State.mk.injEq]
    rw [State.beqList_iff p1 p2]
    tauto

theorem State.beqList_iff : ∀ as bs : List State, State.beqList as bs = true ↔ as = bs
  | [], [] => by simp [State.beqList]
  | [], _ :: _ => by simp [State.beqList]
  | _ :: _, [] => by simp [State.beqList]
  | x :: xs, y :: ys => by
    rw [State.beqList]
    simp only [Bool.and_eq_true, List.cons.injEq]
    rw [State.beq_iff x y, State.beqList_iff xs ys]

end

instance : LawfulBEq State where
  eq_of_beq h := (State.beq_iff _ _).mp h
  rfl := (State.beq_iff _ _).mpr rfl

instance : DecidableEq State := fun a b =>
  decidable_of_iff (State.beq a b = true) (State.beq_iff a b)

def State.rule : State → SRule
  | .mk r _ _ _ _ => r

def State.span_start : State → Nat
  | .mk _ a _ _ _ => a

def State.span_stop : State → Nat
  | .mk _ _ b _ _ => b

def State.dot_position : State → Nat
  | .mk _ _ _ d _ => d

def State.previous_states : State → List State
  | .mk _ _ _ _ p => p

/-- `State.incomplete`: has the dot not reached the end of the rule? -/
def State.incomplete (s : State) : Bool :=
  s.dot_position < s.rule.rhs.length

/-- `State.next_category`: the category after the dot, `""` when complete. -/
def State.next_category (s : State) : String :=
  if s.incomplete then s.rule.rhs.getD s.dot_position "" else ""

/-- Parse trees as returned by `_tree_from_parse`: a Python list whose head
is the lhs label and whose tail elements are either bare token strings (for
preterminals) or further trees. -/
inductive PTree where
  | str (s : String)
  | node (label : String) (children : List PTree)

mutual

def PTree.beq : PTree → PTree → Bool
  | .str s1, .str s2 => s1 == s2
  | .node l1 c1, .node l2 c2 => l1 == l2 && PTree.beqList c1 c2
  | _, _ => false

def PTree.beqList : List PTree → List PTree → Bool
  | [], [] => true
  | x :: xs, y :: ys => PTree.beq x y && PTree.beqList xs ys
  | _, _ => false

end

instance : BEq PTree := ⟨PTree.beq⟩

mutual

theorem PTree.tbeq_iff : ∀ a b : PTree, PTree.beq a b = true ↔ a = b
  | .str s1, .str s2 => by simp [PTree.beq]
  | .str _, .node _ _ => by simp [PTree.beq]
  | .node _ _, .str _ => by simp [PTree.beq]
  | .node l1 c1, .node l2 c2 => by
    rw [PTree.beq]
    simp only [Bool.and_eq_true, beq_iff_eq, PTree.node.injEq]
    rw [PTree.tbeqList_iff c1 c2]

theorem PTree.tbeqList_iff : ∀ as bs : List PTree, PTree.beqList as bs = true ↔ as = bs
  | [], [] => by simp [PTree.beqList]
  | [], _ :: _ => by simp [PTree.beqList]
  | _ :: _, [] => by simp [PTree.beqList]
  | x :: xs, y :: ys => by
    rw [PTree.beqList]
    simp only [Bool.and_eq_true, List.cons.injEq]
    rw [PTree.tbeq_iff x y, PTree.tbeqList_iff xs ys]

end

instance : LawfulBEq PTree where
  eq_of_beq h := (PTree.tbeq_iff _ _).mp h
  rfl := (PTree.tbeq_iff _ _).mpr rfl

instance : DecidableEq PTree := fun a b =>
  decidable_of_iff (PTree.beq a b = true) (PTree.tbeq_iff a b)

/- The leaves of a parse tree, concatenated left to right (mutual with its
list version so the recursion is structural and kernel-evaluable). -/
mutual

def PTree.leaves : PTree → List String
  | .str s => [s]
  | .node _ cs => PTree.leavesList cs

def PTree.leavesList : List PTree → List String
  | [] => []
  | t :: ts => t.leaves ++ PTree.leavesList ts

end

theorem PTree.leaves_node (l : String) (cs : List PTree) :
    (PTree.node l cs).leaves = cs.flatMap PTree.leaves := by
  rw [PTree.leaves]
  induction cs with
  | nil => rfl
  | cons t ts ih => rw [PTree.leavesList, ih, List.flatMap_cons]

/-- `EarleyChart` from `src/earley_parser.py`: one agenda per input
position, plus the retained sentence. -/
structure EarleyChart where
  sentence : List String
  agendas : List (List State)

namespace EarleyChart

/-- Chart construction: `len(sentence) + 1` empty agendas. -/
def init (sentence : List String) : EarleyChart :=
  ⟨sentence, List.replicate (sentence.length + 1) []⟩

/-- The agenda at a (natural-number) position, as read by the engine. The
engine only ever reads in-range positions (proved in the invariants below),
so the `[]` default is never hit during a run. -/
def at_ (c : EarleyChart) (i : Nat) : List State :=
  c.agendas.getD i []

/-- `EarleyChart.enqueue`: append the state at the given position iff no
structurally equal state is already there. -/
def enqueue (c : EarleyChart) (s : State) (position : Nat) : EarleyChart :=
  if (c.at_ position).contains s then c
  else ⟨c.sentence, c.agendas.set position ((c.at_ position) ++ [s])⟩

/-- `EarleyChart.__getitem__` with Python list-indexing semantics: a
negative index wraps modulo the length, and only a genuinely out-of-range
index raises (`EarleyChartIndexError`, modelled as `.error ()`). -/
def getItem (c : EarleyChart) (i : Int) : Except Unit (List State) :=
  let L : Int := c.agendas.length
  if 0 ≤ i ∧ i < L then .ok (c.agendas.getD i.toNat [])
  else if -L ≤ i ∧ i < 0 then .ok (c.agendas.getD (i + L).toNat [])
  else .error ()

end EarleyChart

namespace EarleyAlgorithm

/-- The synthetic augmenting rule `_GAMMA -> [start_symbol]`. -/
def gammaRule (g : Grammar) : SRule :=
  ⟨"_GAMMA", [g.distinguished_symbol], false⟩

/-- The seeded augmenting state enqueued at position 0. -/
def seedState (g : Grammar) : State :=
  .mk (gammaRule g) 0 0 0 []

/-- The body of `_predict`'s loop for one grammar rule: if the rule is a
non-preterminal rule whose lhs is the state's next category, enqueue a fresh
dot-0 state at `span_stop`. -/
def predictStep (st : State) (c : EarleyChart) (r : SRule) : EarleyChart :=
  if st.next_category == r.lhs && !r.preterminal then
    c.enqueue (.mk r st.span_stop st.span_stop 0 []) st.span_stop
  else c

/-- `_predict`: the loop over the (static) grammar list is a fold. -/
def predict (g : Grammar) (st : State) (c : EarleyChart) : EarleyChart :=
  g.rules.foldl (predictStep st) c

/-- `_is_applicable_preterminal`. -/
def isApplicablePreterminal (r : SRule) (st : State) (c : EarleyChart) : Bool :=
  if st.span_stop ≥ c.sentence.length then false
  else r.preterminal && r.lhs == st.next_category
         && String.join r.rhs == c.sentence.getD st.span_stop ""

/-- The body of `_scan`'s loop for one grammar rule: for an applicable
preterminal rule, enqueue a dot-1 state covering one token at
`span_stop + 1`. -/
def scanStep (st : State) (c : EarleyChart) (r : SRule) : EarleyChart :=
  if isApplicablePreterminal r st c then
    c.enqueue (.mk r st.span_stop (st.span_stop + 1) 1 []) (st.span_stop + 1)
  else c

/-- `_scan`: the loop over the (static) grammar list is a fold. -/
def scan (g : Grammar) (st : State) (c : EarleyChart) : EarleyChart :=
  g.rules.foldl (scanStep st) c

/-- The state built by one completion step from a waiting candidate. -/
def advance (cand st : State) : State :=
  .mk cand.rule cand.span_start st.span_stop (cand.dot_position + 1)
    (cand.previous_states ++ [st])

/-- `_complete`: iterate the live agenda at `state.span_start` by index
(enqueues may append to this very agenda when the completed state has an
empty span), advancing every candidate waiting for `state.rule.lhs`. -/
def completeLoop (st : State) : Nat → EarleyChart → Nat → Option EarleyChart
  | fuel, c, k =>
    if h : k < (c.at_ st.span_start).length then
      match fuel with
      | 0 => none
      | fuel + 1 =>
        let cand := (c.at_ st.span_start).get ⟨k, h⟩
        let c' :=
          if cand.next_category == st.rule.lhs && cand.span_stop == st.span_start
          then c.enqueue (advance cand st) st.span_stop
          else c
        completeLoop st fuel c' (k + 1)
    else some c

/-- One iteration of the agenda loop body: predict and scan an incomplete
state, complete a complete one. -/
def processState (g : Grammar) (fuel : Nat) (c : EarleyChart) (st : State) :
    Option EarleyChart :=
  if st.incomplete then some (scan g st (predict g st c))
  else completeLoop st fuel c 0

/-- The `for state in chart[i]` loop: index-based over the live agenda. -/
def agendaLoop (g : Grammar) : Nat → EarleyChart → Nat → Nat → Option EarleyChart
  | fuel, c, i, j =>
    if h : j < (c.at_ i).length then
      match fuel with
      | 0 => none
      | fuel + 1 => do
        let c' ← processState g fuel c ((c.at_ i).get ⟨j, h⟩)
        agendaLoop g fuel c' i (j + 1)
    else some c

/-- The `for i in range(len(words)+1)` loop. -/
def posLoop (g : Grammar) (fuel : Nat) : List Nat → EarleyChart → Option EarleyChart
  | [], c => some c
  | i :: rest, c => do
    let c' ← agendaLoop g fuel c i 0
    posLoop g fuel rest c'

/-- Everything of `parse` up to (not including) tree extraction: the final
chart. -/
def parseChart (g : Grammar) (fuel : Nat) (words : List String) :
    Option EarleyChart :=
  posLoop g fuel (List.range (words.length + 1))
    ((EarleyChart.init words).enqueue (seedState g) 0)

/-- `_tree_from_parse`'s stable sort of the backpointers by `span_start`
(Python's `sorted` is stable; insertion keeps earlier elements first on
ties). -/
def insertByStart (s : State) : List State → List State
  | [] => [s]
  | t :: ts =>
    if s.span_start ≤ t.span_start then s :: t :: ts
    else t :: insertByStart s ts

/-- Stable sort by ascending `span_start`, modelling `sorted(previous_states,
key=lambda s: s.span_start)`. -/
def sortByStart : List State → List State
  | [] => []
  | s :: ss => insertByStart s (sortByStart ss)

theorem mem_insertByStart {s t : State} {l : List State}
    (h : t ∈ insertByStart s l) : t = s ∨ t ∈ l := by
  induction l with
  | nil =>
    simp only [insertByStart, List.mem_singleton] at h
    exact Or.inl h
  | cons x xs ih =>
    simp only [insertByStart] at h
    split at h
    · rcases List.mem_cons.mp h with h1 | h1
      · exact Or.inl h1
      · exact Or.inr h1
    · rcases List.mem_cons.mp h with h1 | h1
      · exact Or.inr (List.mem_cons.mpr (Or.inl h1))
      · rcases ih h1 with h2 | h2
        · exact Or.inl h2
        · exact Or.inr (List.mem_cons.mpr (Or.inr h2))

theorem mem_sortByStart {t : State} {l : List State} :
    t ∈ sortByStart l → t ∈ l := by
  induction l with
  | nil => simp [sortByStart]
  | cons x xs ih =>
    intro h
    rcases mem_insertByStart h with h' | h'
    · simp [h']
    · simp [ih h']

/-- The pair-list analogue of `insertByStart`, ordering by the state
component's `span_start`. -/
def insertPairByStart (x : State × PTree) :
    List (State × PTree) → List (State × PTree)
  | [] => [x]
  | y :: ys =>
    if x.1.span_start ≤ y.1.span_start then x :: y :: ys
    else y :: insertPairByStart x ys

/-- The pair-list analogue of `sortByStart`. -/
def sortPairsByStart : List (State × PTree) → List (State × PTree)
  | [] => []
  | x :: xs => insertPairByStart x (sortPairsByStart xs)

/- `_tree_from_parse`. The recursion of the Python function goes through
`sorted(previous_states, key=...)`; to keep the Lean recursion structural
(and hence kernel-evaluable) the child trees are computed alongside their
states (`treePairs`) and the stable sort permutes the pairs.
`treeFromParse_def` below recovers the source's sort-then-recurse form. -/
mutual

def treeFromParse : State → PTree
  | .mk r _ _ _ p =>
    if r.preterminal then .node r.lhs [.str (String.join r.rhs)]
    else .node r.lhs ((sortPairsByStart (treePairs p)).map Prod.snd)

def treePairs : List State → List (State × PTree)
  | [] => []
  | s :: ss => (s, treeFromParse s) :: treePairs ss

end

theorem treePairs_eq (p : List State) :
    treePairs p = p.map (fun s => (s, treeFromParse s)) := by
  induction p with
  | nil => rfl
  | cons s ss ih => rw [treePairs, ih, List.map_cons]

theorem insertPairByStart_comm (f : State → PTree) (s : State) (l : List State) :
    insertPairByStart (s, f s) (l.map (fun c => (c, f c)))
      = (insertByStart s l).map (fun c => (c, f c)) := by
  induction l with
  | nil => rfl
  | cons y ys ih =>
    rw [List.map_cons, insertPairByStart, insertByStart]
    by_cases h : s.span_start ≤ y.span_start
    · rw [if_pos h, if_pos h, List.map_cons, List.map_cons]
    · rw [if_neg h, if_neg h, List.map_cons, ih]

theorem sortPairsByStart_comm (f : State → PTree) (l : List State) :
    sortPairsByStart (l.map (fun c => (c, f c)))
      = (sortByStart l).map (fun c => (c, f c)) := by
  induction l with
  | nil => rfl
  | cons s ss ih => rw [List.map_cons, sortPairsByStart, sortByStart, ih,
      insertPairByStart_comm]

/-- `_tree_from_parse` in the source's shape: a preterminal state yields
`[lhs, ''.join(rhs)]`, any other state yields `[lhs]` followed by the trees
of its `previous_states` sorted by ascending `span_start`. -/
theorem treeFromParse_def (r : SRule) (a b d : Nat) (p : List State) :
    treeFromParse (.mk r a b d p) =
      if r.preterminal then .node r.lhs [.str (String.join r.rhs)]
      else .node r.lhs ((sortByStart p).map treeFromParse) := by
  rw [treeFromParse, treePairs_eq, sortPairsByStart_comm, List.map_map]
  rfl

/-- `_full_parses`: the complete `_GAMMA` states at the final position. -/
def fullParses (c : EarleyChart) : List State :=
  (c.at_ (c.agendas.length - 1)).filter
    (fun s => !s.incomplete && s.rule.lhs == "_GAMMA")

/-- The `[1]` indexing in `parse`'s final list comprehension: the child at
index 1 of the tree list, erroring (Python `IndexError`) when absent. -/
def unwrapGamma (t : PTree) : Except Unit PTree :=
  match t with
  | .node _ (c :: _) => .ok c
  | _ => .error ()

/-- `EarleyAlgorithm.parse` (and the `EarleyParser.parse` facade): `none`
means the fuel ran out (the Python loops have not yet finished);
`some (.error ())` means the Python code raises; `some (.ok ts)` means the
Python code returns the tree list `ts`. -/
def parse (g : Grammar) (fuel : Nat) (words : List String) :
    Option (Except Unit (List PTree)) :=
  (parseChart g fuel words).map fun c =>
    (fullParses c).mapM (fun p => unwrapGamma (treeFromParse p))

/-! Unfolding lemmas for the three loops, used both by the generic
invariant machinery and to evaluate concrete runs step by step. -/

theorem completeLoop_done {st : State} {f : Nat} {c : EarleyChart} {k : Nat}
    (h : ¬ k < (c.at_ st.span_start).length) :
    completeLoop st f c k = some c := by
  rw [completeLoop]; exact dif_neg h

theorem completeLoop_zero {st : State} {c : EarleyChart} {k : Nat}
    (h : k < (c.at_ st.span_start).length) :
    completeLoop st 0 c k = none := by
  rw [completeLoop, dif_pos h]

theorem completeLoop_succ {st : State} {c : EarleyChart} {k : Nat} (f : Nat)
    (h : k < (c.at_ st.span_start).length) :
    completeLoop st (f + 1) c k =
      completeLoop st f
        (if ((c.at_ st.span_start).get ⟨k, h⟩).next_category == st.rule.lhs
            && ((c.at_ st.span_start).get ⟨k, h⟩).span_stop == st.span_start
         then c.enqueue (advance ((c.at_ st.span_start).get ⟨k, h⟩) st) st.span_stop
         else c) (k + 1) := by
  rw [completeLoop, dif_pos h]

theorem completeLoop_succ_eq {st : State} {c : EarleyChart} {k : Nat} (f : Nat)
    {c' : EarleyChart} (h : k < (c.at_ st.span_start).length)
    (hstep : (if ((c.at_ st.span_start).get ⟨k, h⟩).next_category == st.rule.lhs
            && ((c.at_ st.span_start).get ⟨k, h⟩).span_stop == st.span_start
         then c.enqueue (advance ((c.at_ st.span_start).get ⟨k, h⟩) st) st.span_stop
         else c) = c') :
    completeLoop st (f + 1) c k = completeLoop st f c' (k + 1) := by
  rw [completeLoop_succ f h, hstep]

theorem agendaLoop_done {g : Grammar} {f : Nat} {c : EarleyChart} {i j : Nat}
    (h : ¬ j < (c.at_ i).length) :
    agendaLoop g f c i j = some c := by
  rw [agendaLoop]; exact dif_neg h

theorem agendaLoop_zero {g : Grammar} {c : EarleyChart} {i j : Nat}
    (h : j < (c.at_ i).length) :
    agendaLoop g 0 c i j = none := by
  rw [agendaLoop, dif_pos h]

theorem agendaLoop_succ {g : Grammar} {c : EarleyChart} {i j : Nat} (f : Nat)
    (h : j < (c.at_ i).length) :
    agendaLoop g (f + 1) c i j =
      (processState g f c ((c.at_ i).get ⟨j, h⟩)).bind
        (fun c' => agendaLoop g f c' i (j + 1)) := by
  rw [agendaLoop, dif_pos h]
  rfl

theorem agendaLoop_succ_eq {g : Grammar} {c : EarleyChart} {i j : Nat} (f : Nat)
    {r : EarleyChart} (h : j < (c.at_ i).length)
    (hstep : processState g f c ((c.at_ i).get ⟨j, h⟩) = some r) :
    agendaLoop g (f + 1) c i j = agendaLoop g f r i (j + 1) := by
  rw [agendaLoop_succ f h, hstep, Option.some_bind]

theorem posLoop_nil {g : Grammar} {f : Nat} {c : EarleyChart} :
    posLoop g f [] c = some c := rfl

theorem posLoop_cons_eq {g : Grammar} {f : Nat} {c : EarleyChart} {i : Nat}
    {rest : List Nat} {c' : EarleyChart} {r : Option EarleyChart}
    (h1 : agendaLoop g f c i 0 = some c') (h2 : posLoop g f rest c' = r) :
    posLoop g f (i :: rest) c = r := by
  rw [posLoop, h1, ← h2]
  rfl

/-! Fuel monotonicity: a run that finishes with some fuel finishes with the
same result on any larger fuel. -/

theorem completeLoop_mono {st : State} {f : Nat} {c : EarleyChart} {k : Nat}
    {r : EarleyChart} (h : completeLoop st f c k = some r) :
    completeLoop st (f + 1) c k = some r := by
  induction f generalizing c k with
  | zero =>
    by_cases hk : k < (c.at_ st.span_start).length
    · rw [completeLoop_zero hk] at h; exact absurd h (by simp)
    · rw [completeLoop_done hk] at h ⊢; exact h
  | succ f ih =>
    by_cases hk : k < (c.at_ st.span_start).length
    · rw [completeLoop_succ f hk] at h
      rw [completeLoop_succ (f + 1) hk]
      exact ih h
    · rw [completeLoop_done hk] at h ⊢; exact h

theorem processState_mono {g : Grammar} {f : Nat} {c : EarleyChart} {st : State}
    {r : EarleyChart} (h : processState g f c st = some r) :
    processState g (f + 1) c st = some r := by
  rw [processState] at h ⊢
  by_cases hi : st.incomplete = true
  · rw [if_pos hi] at h ⊢; exact h
  · rw [if_neg hi] at h ⊢; exact completeLoop_mono h

theorem agendaLoop_mono {g : Grammar} {f : Nat} {c : EarleyChart} {i j : Nat}
    {r : EarleyChart} (h : agendaLoop g f c i j = some r) :
    agendaLoop g (f + 1) c i j = some r := by
  induction f generalizing c j with
  | zero =>
    by_cases hk : j < (c.at_ i).length
    · rw [agendaLoop_zero hk] at h; exact absurd h (by simp)
    · rw [agendaLoop_done hk] at h ⊢; exact h
  | succ f ih =>
    by_cases hk : j < (c.at_ i).length
    · rw [agendaLoop_succ f hk] at h
      rw [agendaLoop_succ (f + 1) hk]
      rcases Option.bind_eq_some.mp h with ⟨c', hc', hrest⟩
      rw [processState_mono hc', Option.some_bind]
      exact ih hrest
    · rw [agendaLoop_done hk] at h ⊢; exact h

theorem posLoop_mono {g : Grammar} {f : Nat} {l : List Nat} {c : EarleyChart}
    {r : EarleyChart} (h : posLoop g f l c = some r) :
    posLoop g (f + 1) l c = some r := by
  induction l generalizing c with
  | nil => exact h
  | cons i rest ih =>
    rw [posLoop] at h
    rcases Option.bind_eq_some.mp h with ⟨c', hc', hrest⟩
    exact posLoop_cons_eq (agendaLoop_mono hc') (ih hrest)

theorem parseChart_mono {g : Grammar} {f : Nat} {ws : List String}
    {r : EarleyChart} (h : parseChart g f ws = some r) :
    parseChart g (f + 1) ws = some r :=
  posLoop_mono h

theorem parse_mono {g : Grammar} {f : Nat} {ws : List String}
    {r : Except Unit (List PTree)} (h : parse g f ws = some r) :
    parse g (f + 1) ws = some r := by
  rw [parse] at h ⊢
  rcases Option.map_eq_some'.mp h with ⟨c, hc, hr⟩
  rw [parseChart_mono hc, Option.map_some', hr]

theorem parse_mono_add {g : Grammar} {f : Nat} {ws : List String}
    {r : Except Unit (List PTree)} (h : parse g f ws = some r) :
    ∀ d : Nat, parse g (f + d) ws = some r := by
  intro d
  induction d with
  | zero => exact h
  | succ d ih => exact parse_mono ih

end EarleyAlgorithm

/-! Concrete grammars used by the claims. -/

open EarleyAlgorithm

/-- Scenario A grammar (spec §8, the module docstring example). -/
def ruleA0 : SRule := ⟨"S", ["VP"], false⟩
def ruleA1 : SRule := ⟨"VP", ["V", "NP"], false⟩
def ruleA2 : SRule := ⟨"NP", ["Det", "Nominal"], false⟩
def ruleA3 : SRule := ⟨"Det", ["that"], true⟩
def ruleA4 : SRule := ⟨"Nominal", ["flight"], true⟩
def ruleA5 : SRule := ⟨"V", ["Book"], true⟩

def grammarA : Grammar := ⟨[ruleA0, ruleA1, ruleA2, ruleA3, ruleA4, ruleA5], "S"⟩

/-- A grammar with a two-symbol preterminal rule: `Det -> 'th' 'at'` is
matched (joined) against the token `"that"` but scanned with dot 1, leaving
it incomplete and expandable through the rule `at -> 'x'`. -/
def ruleM0 : SRule := ⟨"S", ["Det"], false⟩
def ruleM1 : SRule := ⟨"Det", ["th", "at"], true⟩
def ruleM2 : SRule := ⟨"at", ["x"], true⟩

def grammarMulti : Grammar := ⟨[ruleM0, ruleM1, ruleM2], "S"⟩

/-- A grammar whose single rule has an empty right-hand side (a null
production). -/
def ruleN0 : SRule := ⟨"S", [], false⟩

def grammarNull : Grammar := ⟨[ruleN0], "S"⟩

/-- A grammar with a user rule whose lhs is the reserved `_GAMMA` label and
whose rhs is empty. -/
def ruleG0 : SRule := ⟨"S", ["A", "_GAMMA"], false⟩
def ruleG1 : SRule := ⟨"A", ["a"], true⟩
def ruleG2 : SRule := ⟨"_GAMMA", [], false⟩

def grammarGammaNull : Grammar := ⟨[ruleG0, ruleG1, ruleG2], "S"⟩

/-- A grammar with a user rule whose lhs is the reserved `_GAMMA` label and
a nonempty rhs. -/
def ruleR0 : SRule := ⟨"S", ["A", "_GAMMA"], false⟩
def ruleR1 : SRule := ⟨"A", ["a"], true⟩
def ruleR2 : SRule := ⟨"_GAMMA", ["X"], false⟩
def ruleR3 : SRule := ⟨"X", ["x"], true⟩

def grammarGammaRule : Grammar := ⟨[ruleR0, ruleR1, ruleR2, ruleR3], "S"⟩

/-- A grammar with a rule whose lhs is the empty string: a completed
`'' -> B` state advances even already-complete candidates (their
`next_category` is `''`), pushing a dot past the end of a rule. -/
def ruleD0 : SRule := ⟨"S", ["A", ""], false⟩
def ruleD1 : SRule := ⟨"A", ["a"], true⟩
def ruleD2 : SRule := ⟨"", ["B"], false⟩
def ruleD3 : SRule := ⟨"B", ["b"], true⟩

def grammarEmptyLhs : Grammar := ⟨[ruleD0, ruleD1, ruleD2, ruleD3], "S"⟩

/-- The one-preterminal grammar of the repository's no-parse tests. -/
def ruleE0 : SRule := ⟨"N", ["Nothing"], true⟩

def grammarNothing : Grammar := ⟨[ruleE0], "S"⟩

/-- The cyclic null grammar `S -> '' , '' -> []` on which the chart grows
forever: states are distinguished by ever longer `previous_states` chains,
so deduplication never fires. -/
def ruleL0 : SRule := ⟨"S", [""], false⟩
def ruleL1 : SRule := ⟨"", [], false⟩

def grammarLoop : Grammar := ⟨[ruleL0, ruleL1], "S"⟩

/-! Concrete runs of the engine, evaluated step by step: each `calc` step
advances one loop iteration of `parse` on literal charts (`posXN` walks the
agenda at position `N`, with one `have` per predict/scan fold and per
`_complete` candidate loop), `chartX` assembles the full chart, and
`parseRunX` applies tree extraction to it. -/

def wsA : List String := ["Book", "that", "flight"]
def Aq0 : State := .mk ⟨"_GAMMA", ["S"], false⟩ 0 0 0 []
def Aq1 : State := .mk ⟨"S", ["VP"], false⟩ 0 0 0 []
def Aq2 : State := .mk ⟨"VP", ["V", "NP"], false⟩ 0 0 0 []
def Aq3 : State := .mk ⟨"V", ["Book"], true⟩ 0 1 1 []
def Aq4 : State := .mk ⟨"VP", ["V", "NP"], false⟩ 0 1 1 [Aq3]
def Aq5 : State := .mk ⟨"NP", ["Det", "Nominal"], false⟩ 1 1 0 []
def Aq6 : State := .mk ⟨"Det", ["that"], true⟩ 1 2 1 []
def Aq7 : State := .mk ⟨"NP", ["Det", "Nominal"], false⟩ 1 2 1 [Aq6]
def Aq8 : State := .mk ⟨"Nominal", ["flight"], true⟩ 2 3 1 []
def Aq9 : State := .mk ⟨"NP", ["Det", "Nominal"], false⟩ 1 3 2 [Aq6, Aq8]
def Aq10 : State := .mk ⟨"VP", ["V", "NP"], false⟩ 0 3 2 [Aq3, Aq9]
def Aq11 : State := .mk ⟨"S", ["VP"], false⟩ 0 3 1 [Aq10]
def Aq12 : State := .mk ⟨"_GAMMA", ["S"], false⟩ 0 3 1 [Aq11]
set_option maxHeartbeats 4000000 in
theorem posA0 : agendaLoop grammarA 200 ⟨wsA, [[Aq0], [], [], []]⟩ 0 0 = some ⟨wsA, [[Aq0, Aq1, Aq2], [Aq3], [], []]⟩ := by
  have posA0p0 : EarleyAlgorithm.predict grammarA Aq0 ⟨wsA, [[Aq0], [], [], []]⟩ = ⟨wsA, [[Aq0, Aq1], [], [], []]⟩ := by
    show List.foldl (predictStep Aq0) ⟨wsA, [[Aq0], [], [], []]⟩ [ruleA0, ruleA1, ruleA2, ruleA3, ruleA4, ruleA5] = ⟨wsA, [[Aq0, Aq1], [], [], []]⟩
    calc List.foldl (predictStep Aq0) ⟨wsA, [[Aq0], [], [], []]⟩ [ruleA0, ruleA1, ruleA2, ruleA3, ruleA4, ruleA5] = List.foldl (predictStep Aq0) ⟨wsA, [[Aq0, Aq1], [], [], []]⟩ [ruleA1, ruleA2, ruleA3, ruleA4, ruleA5] := rfl
      _ = List.foldl (predictStep Aq0) ⟨wsA, [[Aq0, Aq1], [], [], []]⟩ [ruleA2, ruleA3, ruleA4, ruleA5] := rfl
      _ = List.foldl (predictStep Aq0) ⟨wsA, [[Aq0, Aq1], [], [], []]⟩ [ruleA3, ruleA4, ruleA5] := rfl
      _ = List.foldl (predictStep Aq0) ⟨wsA, [[Aq0, Aq1], [], [], []]⟩ [ruleA4, ruleA5] := rfl
      _ = List.foldl (predictStep Aq0) ⟨wsA, [[Aq0, Aq1], [], [], []]⟩ [ruleA5] := rfl
      _ = ⟨wsA, [[Aq0, Aq1], [], [], []]⟩ := rfl
  have posA0s0 : EarleyAlgorithm.scan grammarA Aq0 ⟨wsA, [[Aq0, Aq1], [], [], []]⟩ = ⟨wsA, [[Aq0, Aq1], [], [], []]⟩ := by
    show List.foldl (scanStep Aq0) ⟨wsA, [[Aq0, Aq1], [], [], []]⟩ [ruleA0, ruleA1, ruleA2, ruleA3, ruleA4, ruleA5] = ⟨wsA, [[Aq0, Aq1], [], [], []]⟩
    calc List.foldl (scanStep Aq0) ⟨wsA, [[Aq0, Aq1], [], [], []]⟩ [ruleA0, ruleA1, ruleA2, ruleA3, ruleA4, ruleA5] = List.foldl (scanStep Aq0) ⟨wsA, [[Aq0, Aq1], [], [], []]⟩ [ruleA1, ruleA2, ruleA3, ruleA4, ruleA5] := rfl
      _ = List.foldl (scanStep Aq0) ⟨wsA, [[Aq0, Aq1], [], [], []]⟩ [ruleA2, ruleA3, ruleA4, ruleA5] := rfl
      _ = List.foldl (scanStep Aq0) ⟨wsA, [[Aq0, Aq1], [], [], []]⟩ [ruleA3, ruleA4, ruleA5] := rfl
      _ = List.foldl (scanStep Aq0) ⟨wsA, [[Aq0, Aq1], [], [], []]⟩ [ruleA4, ruleA5] := rfl
      _ = List.foldl (scanStep Aq0) ⟨wsA, [[Aq0, Aq1], [], [], []]⟩ [ruleA5] := rfl
      _ = ⟨wsA, [[Aq0, Aq1], [], [], []]⟩ := rfl
  have posA0h0 : processState grammarA 199 ⟨wsA, [[Aq0], [], [], []]⟩ Aq0 = some ⟨wsA, [[Aq0, Aq1], [], [], []]⟩ := by
    show some (EarleyAlgorithm.scan grammarA Aq0 (EarleyAlgorithm.predict grammarA Aq0 ⟨wsA, [[Aq0], [], [], []]⟩)) = some ⟨wsA, [[Aq0, Aq1], [], [], []]⟩
    rw [posA0p0, posA0s0]
  have posA0p1 : EarleyAlgorithm.predict grammarA Aq1 ⟨wsA, [[Aq0, Aq1], [], [], []]⟩ = ⟨wsA, [[Aq0, Aq1, Aq2], [], [], []]⟩ := by
    show List.foldl (predictStep Aq1) ⟨wsA, [[Aq0, Aq1], [], [], []]⟩ [ruleA0, ruleA1, ruleA2, ruleA3, ruleA4, ruleA5] = ⟨wsA, [[Aq0, Aq1, Aq2], [], [], []]⟩
    calc List.foldl (predictStep Aq1) ⟨wsA, [[Aq0, Aq1], [], [], []]⟩ [ruleA0, ruleA1, ruleA2, ruleA3, ruleA4, ruleA5] = List.foldl (predictStep Aq1) ⟨wsA, [[Aq0, Aq1], [], [], []]⟩ [ruleA1, ruleA2, ruleA3, ruleA4, ruleA5] := rfl
      _ = List.foldl (predictStep Aq1) ⟨wsA, [[Aq0, Aq1, Aq2], [], [], []]⟩ [ruleA2, ruleA3, ruleA4, ruleA5] := rfl
      _ = List.foldl (predictStep Aq1) ⟨wsA, [[Aq0, Aq1, Aq2], [], [], []]⟩ [ruleA3, ruleA4, ruleA5] := rfl
      _ = List.foldl (predictStep Aq1) ⟨wsA, [[Aq0, Aq1, Aq2], [], [], []]⟩ [ruleA4, ruleA5] := rfl
      _ = List.foldl (predictStep Aq1) ⟨wsA, [[Aq0, Aq1, Aq2], [], [], []]⟩ [ruleA5] := rfl
      _ = ⟨wsA, [[Aq0, Aq1, Aq2], [], [], []]⟩ := rfl
  have posA0s1 : EarleyAlgorithm.scan grammarA Aq1 ⟨wsA, [[Aq0, Aq1, Aq2], [], [], []]⟩ = ⟨wsA, [[Aq0, Aq1, Aq2], [], [], []]⟩ := by
    show List.foldl (scanStep Aq1) ⟨wsA, [[Aq0, Aq1, Aq2], [], [], []]⟩ [ruleA0, ruleA1, ruleA2, ruleA3, ruleA4, ruleA5] = ⟨wsA, [[Aq0, Aq1, Aq2], [], [], []]⟩
    calc List.foldl (scanStep Aq1) ⟨wsA, [[Aq0, Aq1, Aq2], [], [], []]⟩ [ruleA0, ruleA1, ruleA2, ruleA3, ruleA4, ruleA5] = List.foldl (scanStep Aq1) ⟨wsA, [[Aq0, Aq1, Aq2], [], [], []]⟩ [ruleA1, ruleA2, ruleA3, ruleA4, ruleA5] := rfl
      _ = List.foldl (scanStep Aq1) ⟨wsA, [[Aq0, Aq1, Aq2], [], [], []]⟩ [ruleA2, ruleA3, ruleA4, ruleA5] := rfl
      _ = List.foldl (scanStep Aq1) ⟨wsA, [[Aq0, Aq1, Aq2], [], [], []]⟩ [ruleA3, ruleA4, ruleA5] := rfl
      _ = List.foldl (scanStep Aq1) ⟨wsA, [[Aq0, Aq1, Aq2], [], [], []]⟩ [ruleA4, ruleA5] := rfl
      _ = List.foldl (scanStep Aq1) ⟨wsA, [[Aq0, Aq1, Aq2], [], [], []]⟩ [ruleA5] := rfl
      _ = ⟨wsA, [[Aq0, Aq1, Aq2], [], [], []]⟩ := rfl
  have posA0h1 : processState grammarA 198 ⟨wsA, [[Aq0, Aq1], [], [], []]⟩ Aq1 = some ⟨wsA, [[Aq0, Aq1, Aq2], [], [], []]⟩ := by
    show some (EarleyAlgorithm.scan grammarA Aq1 (EarleyAlgorithm.predict grammarA Aq1 ⟨wsA, [[Aq0, Aq1], [], [], []]⟩)) = some ⟨wsA, [[Aq0, Aq1, Aq2], [], [], []]⟩
    rw [posA0p1, posA0s1]
  have posA0p2 : EarleyAlgorithm.predict grammarA Aq2 ⟨wsA, [[Aq0, Aq1, Aq2], [], [], []]⟩ = ⟨wsA, [[Aq0, Aq1, Aq2], [], [], []]⟩ := by
    show List.foldl (predictStep Aq2) ⟨wsA, [[Aq0, Aq1, Aq2], [], [], []]⟩ [ruleA0, ruleA1, ruleA2, ruleA3, ruleA4, ruleA5] = ⟨wsA, [[Aq0, Aq1, Aq2], [], [], []]⟩
    calc List.foldl (predictStep Aq2) ⟨wsA, [[Aq0, Aq1, Aq2], [], [], []]⟩ [ruleA0, ruleA1, ruleA2, ruleA3, ruleA4, ruleA5] = List.foldl (predictStep Aq2) ⟨wsA, [[Aq0, Aq1, Aq2], [], [], []]⟩ [ruleA1, ruleA2, ruleA3, ruleA4, ruleA5] := rfl
      _ = List.foldl (predictStep Aq2) ⟨wsA, [[Aq0, Aq1, Aq2], [], [], []]⟩ [ruleA2, ruleA3, ruleA4, ruleA5] := rfl
      _ = List.foldl (predictStep Aq2) ⟨wsA, [[Aq0, Aq1, Aq2], [], [], []]⟩ [ruleA3, ruleA4, ruleA5] := rfl
      _ = List.foldl (predictStep Aq2) ⟨wsA, [[Aq0, Aq1, Aq2], [], [], []]⟩ [ruleA4, ruleA5] := rfl
      _ = List.foldl (predictStep Aq2) ⟨wsA, [[Aq0, Aq1, Aq2], [], [], []]⟩ [ruleA5] := rfl
      _ = ⟨wsA, [[Aq0, Aq1, Aq2], [], [], []]⟩ := rfl
  have posA0s2 : EarleyAlgorithm.scan grammarA Aq2 ⟨wsA, [[Aq0, Aq1, Aq2], [], [], []]⟩ = ⟨wsA, [[Aq0, Aq1, Aq2], [Aq3], [], []]⟩ := by
    show List.foldl (scanStep Aq2) ⟨wsA, [[Aq0, Aq1, Aq2], [], [], []]⟩ [ruleA0, ruleA1, ruleA2, ruleA3, ruleA4, ruleA5] = ⟨wsA, [[Aq0, Aq1, Aq2], [Aq3], [], []]⟩
    calc List.foldl (scanStep Aq2) ⟨wsA, [[Aq0, Aq1, Aq2], [], [], []]⟩ [ruleA0, ruleA1, ruleA2, ruleA3, ruleA4, ruleA5] = List.foldl (scanStep Aq2) ⟨wsA, [[Aq0, Aq1, Aq2], [], [], []]⟩ [ruleA1, ruleA2, ruleA3, ruleA4, ruleA5] := rfl
      _ = List.foldl (scanStep Aq2) ⟨wsA, [[Aq0, Aq1, Aq2], [], [], []]⟩ [ruleA2, ruleA3, ruleA4, ruleA5] := rfl
      _ = List.foldl (scanStep Aq2) ⟨wsA, [[Aq0, Aq1, Aq2], [], [], []]⟩ [ruleA3, ruleA4, ruleA5] := rfl
      _ = List.foldl (scanStep Aq2) ⟨wsA, [[Aq0, Aq1, Aq2], [], [], []]⟩ [ruleA4, ruleA5] := rfl
      _ = List.foldl (scanStep Aq2) ⟨wsA, [[Aq0, Aq1, Aq2], [], [], []]⟩ [ruleA5] := rfl
      _ = ⟨wsA, [[Aq0, Aq1, Aq2], [Aq3], [], []]⟩ := rfl
  have posA0h2 : processState grammarA 197 ⟨wsA, [[Aq0, Aq1, Aq2], [], [], []]⟩ Aq2 = some ⟨wsA, [[Aq0, Aq1, Aq2], [Aq3], [], []]⟩ := by
    show some (EarleyAlgorithm.scan grammarA Aq2 (EarleyAlgorithm.predict grammarA Aq2 ⟨wsA, [[Aq0, Aq1, Aq2], [], [], []]⟩)) = some ⟨wsA, [[Aq0, Aq1, Aq2], [Aq3], [], []]⟩
    rw [posA0p2, posA0s2]
  calc agendaLoop grammarA (199 + 1) ⟨wsA, [[Aq0], [], [], []]⟩ 0 0 = agendaLoop grammarA 199 ⟨wsA, [[Aq0, Aq1], [], [], []]⟩ 0 1 := agendaLoop_succ_eq 199 (by decide) posA0h0
    _ = agendaLoop grammarA 198 ⟨wsA, [[Aq0, Aq1, Aq2], [], [], []]⟩ 0 2 := agendaLoop_succ_eq 198 (by decide) posA0h1
    _ = agendaLoop grammarA 197 ⟨wsA, [[Aq0, Aq1, Aq2], [Aq3], [], []]⟩ 0 3 := agendaLoop_succ_eq 197 (by decide) posA0h2
    _ = some ⟨wsA, [[Aq0, Aq1, Aq2], [Aq3], [], []]⟩ := agendaLoop_done (by decide)

set_option maxHeartbeats 4000000 in
theorem posA1 : agendaLoop grammarA 200 ⟨wsA, [[Aq0, Aq1, Aq2], [Aq3], [], []]⟩ 1 0 = some ⟨wsA, [[Aq0, Aq1, Aq2], [Aq3, Aq4, Aq5], [Aq6], []]⟩ := by
  have posA1h0 : processState grammarA 199 ⟨wsA, [[Aq0, Aq1, Aq2], [Aq3], [], []]⟩ Aq3 = some ⟨wsA, [[Aq0, Aq1, Aq2], [Aq3, Aq4], [], []]⟩ := by
    show completeLoop Aq3 199 ⟨wsA, [[Aq0, Aq1, Aq2], [Aq3], [], []]⟩ 0 = some ⟨wsA, [[Aq0, Aq1, Aq2], [Aq3, Aq4], [], []]⟩
    calc completeLoop Aq3 (198 + 1) ⟨wsA, [[Aq0, Aq1, Aq2], [Aq3], [], []]⟩ 0 = completeLoop Aq3 198 ⟨wsA, [[Aq0, Aq1, Aq2], [Aq3], [], []]⟩ 1 := completeLoop_succ_eq 198 (by decide) rfl
      _ = completeLoop Aq3 197 ⟨wsA, [[Aq0, Aq1, Aq2], [Aq3], [], []]⟩ 2 := completeLoop_succ_eq 197 (by decide) rfl
      _ = completeLoop Aq3 196 ⟨wsA, [[Aq0, Aq1, Aq2], [Aq3, Aq4], [], []]⟩ 3 := completeLoop_succ_eq 196 (by decide) rfl
      _ = some ⟨wsA, [[Aq0, Aq1, Aq2], [Aq3, Aq4], [], []]⟩ := completeLoop_done (by decide)
  have posA1p1 : EarleyAlgorithm.predict grammarA Aq4 ⟨wsA, [[Aq0, Aq1, Aq2], [Aq3, Aq4], [], []]⟩ = ⟨wsA, [[Aq0, Aq1, Aq2], [Aq3, Aq4, Aq5], [], []]⟩ := by
    show List.foldl (predictStep Aq4) ⟨wsA, [[Aq0, Aq1, Aq2], [Aq3, Aq4], [], []]⟩ [ruleA0, ruleA1, ruleA2, ruleA3, ruleA4, ruleA5] = ⟨wsA, [[Aq0, Aq1, Aq2], [Aq3, Aq4, Aq5], [], []]⟩
    calc List.foldl (predictStep Aq4) ⟨wsA, [[Aq0, Aq1, Aq2], [Aq3, Aq4], [], []]⟩ [ruleA0, ruleA1, ruleA2, ruleA3, ruleA4, ruleA5] = List.foldl (predictStep Aq4) ⟨wsA, [[Aq0, Aq1, Aq2], [Aq3, Aq4], [], []]⟩ [ruleA1, ruleA2, ruleA3, ruleA4, ruleA5] := rfl
      _ = List.foldl (predictStep Aq4) ⟨wsA, [[Aq0, Aq1, Aq2], [Aq3, Aq4], [], []]⟩ [ruleA2, ruleA3, ruleA4, ruleA5] := rfl
      _ = List.foldl (predictStep Aq4) ⟨wsA, [[Aq0, Aq1, Aq2], [Aq3, Aq4, Aq5], [], []]⟩ [ruleA3, ruleA4, ruleA5] := rfl
      _ = List.foldl (predictStep Aq4) ⟨wsA, [[Aq0, Aq1, Aq2], [Aq3, Aq4, Aq5], [], []]⟩ [ruleA4, ruleA5] := rfl
      _ = List.foldl (predictStep Aq4) ⟨wsA, [[Aq0, Aq1, Aq2], [Aq3, Aq4, Aq5], [], []]⟩ [ruleA5] := rfl
      _ = ⟨wsA, [[Aq0, Aq1, Aq2], [Aq3, Aq4, Aq5], [], []]⟩ := rfl
  have posA1s1 : EarleyAlgorithm.scan grammarA Aq4 ⟨wsA, [[Aq0, Aq1, Aq2], [Aq3, Aq4, Aq5], [], []]⟩ = ⟨wsA, [[Aq0, Aq1, Aq2], [Aq3, Aq4, Aq5], [], []]⟩ := by
    show List.foldl (scanStep Aq4) ⟨wsA, [[Aq0, Aq1, Aq2], [Aq3, Aq4, Aq5], [], []]⟩ [ruleA0, ruleA1, ruleA2, ruleA3, ruleA4, ruleA5] = ⟨wsA, [[Aq0, Aq1, Aq2], [Aq3, Aq4, Aq5], [], []]⟩
    calc List.foldl (scanStep Aq4) ⟨wsA, [[Aq0, Aq1, Aq2], [Aq3, Aq4, Aq5], [], []]⟩ [ruleA0, ruleA1, ruleA2, ruleA3, ruleA4, ruleA5] = List.foldl (scanStep Aq4) ⟨wsA, [[Aq0, Aq1, Aq2], [Aq3, Aq4, Aq5], [], []]⟩ [ruleA1, ruleA2, ruleA3, ruleA4, ruleA5] := rfl
      _ = List.foldl (scanStep Aq4) ⟨wsA, [[Aq0, Aq1, Aq2], [Aq3, Aq4, Aq5], [], []]⟩ [ruleA2, ruleA3, ruleA4, ruleA5] := rfl
      _ = List.foldl (scanStep Aq4) ⟨wsA, [[Aq0, Aq1, Aq2], [Aq3, Aq4, Aq5], [], []]⟩ [ruleA3, ruleA4, ruleA5] := rfl
      _ = List.foldl (scanStep Aq4) ⟨wsA, [[Aq0, Aq1, Aq2], [Aq3, Aq4, Aq5], [], []]⟩ [ruleA4, ruleA5] := rfl
      _ = List.foldl (scanStep Aq4) ⟨wsA, [[Aq0, Aq1, Aq2], [Aq3, Aq4, Aq5], [], []]⟩ [ruleA5] := rfl
      _ = ⟨wsA, [[Aq0, Aq1, Aq2], [Aq3, Aq4, Aq5], [], []]⟩ := rfl
  have posA1h1 : processState grammarA 198 ⟨wsA, [[Aq0, Aq1, Aq2], [Aq3, Aq4], [], []]⟩ Aq4 = some ⟨wsA, [[Aq0, Aq1, Aq2], [Aq3, Aq4, Aq5], [], []]⟩ := by
    show some (EarleyAlgorithm.scan grammarA Aq4 (EarleyAlgorithm.predict grammarA Aq4 ⟨wsA, [[Aq0, Aq1, Aq2], [Aq3, Aq4], [], []]⟩)) = some ⟨wsA, [[Aq0, Aq1, Aq2], [Aq3, Aq4, Aq5], [], []]⟩
    rw [posA1p1, posA1s1]
  have posA1p2 : EarleyAlgorithm.predict grammarA Aq5 ⟨wsA, [[Aq0, Aq1, Aq2], [Aq3, Aq4, Aq5], [], []]⟩ = ⟨wsA, [[Aq0, Aq1, Aq2], [Aq3, Aq4, Aq5], [], []]⟩ := by
    show List.foldl (predictStep Aq5) ⟨wsA, [[Aq0, Aq1, Aq2], [Aq3, Aq4, Aq5], [], []]⟩ [ruleA0, ruleA1, ruleA2, ruleA3, ruleA4, ruleA5] = ⟨wsA, [[Aq0, Aq1, Aq2], [Aq3, Aq4, Aq5], [], []]⟩
    calc List.foldl (predictStep Aq5) ⟨wsA, [[Aq0, Aq1, Aq2], [Aq3, Aq4, Aq5], [], []]⟩ [ruleA0, ruleA1, ruleA2, ruleA3, ruleA4, ruleA5] = List.foldl (predictStep Aq5) ⟨wsA, [[Aq0, Aq1, Aq2], [Aq3, Aq4, Aq5], [], []]⟩ [ruleA1, ruleA2, ruleA3, ruleA4, ruleA5] := rfl
      _ = List.foldl (predictStep Aq5) ⟨wsA, [[Aq0, Aq1, Aq2], [Aq3, Aq4, Aq5], [], []]⟩ [ruleA2, ruleA3, ruleA4, ruleA5] := rfl
      _ = List.foldl (predictStep Aq5) ⟨wsA, [[Aq0, Aq1, Aq2], [Aq3, Aq4, Aq5], [], []]⟩ [ruleA3, ruleA4, ruleA5] := rfl
      _ = List.foldl (predictStep Aq5) ⟨wsA, [[Aq0, Aq1, Aq2], [Aq3, Aq4, Aq5], [], []]⟩ [ruleA4, ruleA5] := rfl
      _ = List.foldl (predictStep Aq5) ⟨wsA, [[Aq0, Aq1, Aq2], [Aq3, Aq4, Aq5], [], []]⟩ [ruleA5] := rfl
      _ = ⟨wsA, [[Aq0, Aq1, Aq2], [Aq3, Aq4, Aq5], [], []]⟩ := rfl
  have posA1s2 : EarleyAlgorithm.scan grammarA Aq5 ⟨wsA, [[Aq0, Aq1, Aq2], [Aq3, Aq4, Aq5], [], []]⟩ = ⟨wsA, [[Aq0, Aq1, Aq2], [Aq3, Aq4, Aq5], [Aq6], []]⟩ := by
    show List.foldl (scanStep Aq5) ⟨wsA, [[Aq0, Aq1, Aq2], [Aq3, Aq4, Aq5], [], []]⟩ [ruleA0, ruleA1, ruleA2, ruleA3, ruleA4, ruleA5] = ⟨wsA, [[Aq0, Aq1, Aq2], [Aq3, Aq4, Aq5], [Aq6], []]⟩
    calc List.foldl (scanStep Aq5) ⟨wsA, [[Aq0, Aq1, Aq2], [Aq3, Aq4, Aq5], [], []]⟩ [ruleA0, ruleA1, ruleA2, ruleA3, ruleA4, ruleA5] = List.foldl (scanStep Aq5) ⟨wsA, [[Aq0, Aq1, Aq2], [Aq3, Aq4, Aq5], [], []]⟩ [ruleA1, ruleA2, ruleA3, ruleA4, ruleA5] := rfl
      _ = List.foldl (scanStep Aq5) ⟨wsA, [[Aq0, Aq1, Aq2], [Aq3, Aq4, Aq5], [], []]⟩ [ruleA2, ruleA3, ruleA4, ruleA5] := rfl
      _ = List.foldl (scanStep Aq5) ⟨wsA, [[Aq0, Aq1, Aq2], [Aq3, Aq4, Aq5], [], []]⟩ [ruleA3, ruleA4, ruleA5] := rfl
      _ = List.foldl (scanStep Aq5) ⟨wsA, [[Aq0, Aq1, Aq2], [Aq3, Aq4, Aq5], [Aq6], []]⟩ [ruleA4, ruleA5] := rfl
      _ = List.foldl (scanStep Aq5) ⟨wsA, [[Aq0, Aq1, Aq2], [Aq3, Aq4, Aq5], [Aq6], []]⟩ [ruleA5] := rfl
      _ = ⟨wsA, [[Aq0, Aq1, Aq2], [Aq3, Aq4, Aq5], [Aq6], []]⟩ := rfl
  have posA1h2 : processState grammarA 197 ⟨wsA, [[Aq0, Aq1, Aq2], [Aq3, Aq4, Aq5], [], []]⟩ Aq5 = some ⟨wsA, [[Aq0, Aq1, Aq2], [Aq3, Aq4, Aq5], [Aq6], []]⟩ := by
    show some (EarleyAlgorithm.scan grammarA Aq5 (EarleyAlgorithm.predict grammarA Aq5 ⟨wsA, [[Aq0, Aq1, Aq2], [Aq3, Aq4, Aq5], [], []]⟩)) = some ⟨wsA, [[Aq0, Aq1, Aq2], [Aq3, Aq4, Aq5], [Aq6], []]⟩
    rw [posA1p2, posA1s2]
  calc agendaLoop grammarA (199 + 1) ⟨wsA, [[Aq0, Aq1, Aq2], [Aq3], [], []]⟩ 1 0 = agendaLoop grammarA 199 ⟨wsA, [[Aq0, Aq1, Aq2], [Aq3, Aq4], [], []]⟩ 1 1 := agendaLoop_succ_eq 199 (by decide) posA1h0
    _ = agendaLoop grammarA 198 ⟨wsA, [[Aq0, Aq1, Aq2], [Aq3, Aq4, Aq5], [], []]⟩ 1 2 := agendaLoop_succ_eq 198 (by decide) posA1h1
    _ = agendaLoop grammarA 197 ⟨wsA, [[Aq0, Aq1, Aq2], [Aq3, Aq4, Aq5], [Aq6], []]⟩ 1 3 := agendaLoop_succ_eq 197 (by decide) posA1h2
    _ = some ⟨wsA, [[Aq0, Aq1, Aq2], [Aq3, Aq4, Aq5], [Aq6], []]⟩ := agendaLoop_done (by decide)

set_option maxHeartbeats 4000000 in
theorem posA2 : agendaLoop grammarA 200 ⟨wsA, [[Aq0, Aq1, Aq2], [Aq3, Aq4, Aq5], [Aq6], []]⟩ 2 0 = some ⟨wsA, [[Aq0, Aq1, Aq2], [Aq3, Aq4, Aq5], [Aq6, Aq7], [Aq8]]⟩ := by
  have posA2h0 : processState grammarA 199 ⟨wsA, [[Aq0, Aq1, Aq2], [Aq3, Aq4, Aq5], [Aq6], []]⟩ Aq6 = some ⟨wsA, [[Aq0, Aq1, Aq2], [Aq3, Aq4, Aq5], [Aq6, Aq7], []]⟩ := by
    show completeLoop Aq6 199 ⟨wsA, [[Aq0, Aq1, Aq2], [Aq3, Aq4, Aq5], [Aq6], []]⟩ 0 = some ⟨wsA, [[Aq0, Aq1, Aq2], [Aq3, Aq4, Aq5], [Aq6, Aq7], []]⟩
    calc completeLoop Aq6 (198 + 1) ⟨wsA, [[Aq0, Aq1, Aq2], [Aq3, Aq4, Aq5], [Aq6], []]⟩ 0 = completeLoop Aq6 198 ⟨wsA, [[Aq0, Aq1, Aq2], [Aq3, Aq4, Aq5], [Aq6], []]⟩ 1 := completeLoop_succ_eq 198 (by decide) rfl
      _ = completeLoop Aq6 197 ⟨wsA, [[Aq0, Aq1, Aq2], [Aq3, Aq4, Aq5], [Aq6], []]⟩ 2 := completeLoop_succ_eq 197 (by decide) rfl
      _ = completeLoop Aq6 196 ⟨wsA, [[Aq0, Aq1, Aq2], [Aq3, Aq4, Aq5], [Aq6, Aq7], []]⟩ 3 := completeLoop_succ_eq 196 (by decide) rfl
      _ = some ⟨wsA, [[Aq0, Aq1, Aq2], [Aq3, Aq4, Aq5], [Aq6, Aq7], []]⟩ := completeLoop_done (by decide)
  have posA2p1 : EarleyAlgorithm.predict grammarA Aq7 ⟨wsA, [[Aq0, Aq1, Aq2], [Aq3, Aq4, Aq5], [Aq6, Aq7], []]⟩ = ⟨wsA, [[Aq0, Aq1, Aq2], [Aq3, Aq4, Aq5], [Aq6, Aq7], []]⟩ := by
    show List.foldl (predictStep Aq7) ⟨wsA, [[Aq0, Aq1, Aq2], [Aq3, Aq4, Aq5], [Aq6, Aq7], []]⟩ [ruleA0, ruleA1, ruleA2, ruleA3, ruleA4, ruleA5] = ⟨wsA, [[Aq0, Aq1, Aq2], [Aq3, Aq4, Aq5], [Aq6, Aq7], []]⟩
    calc List.foldl (predictStep Aq7) ⟨wsA, [[Aq0, Aq1, Aq2], [Aq3, Aq4, Aq5], [Aq6, Aq7], []]⟩ [ruleA0, ruleA1, ruleA2, ruleA3, ruleA4, ruleA5] = List.foldl (predictStep Aq7) ⟨wsA, [[Aq0, Aq1, Aq2], [Aq3, Aq4, Aq5], [Aq6, Aq7], []]⟩ [ruleA1, ruleA2, ruleA3, ruleA4, ruleA5] := rfl
      _ = List.foldl (predictStep Aq7) ⟨wsA, [[Aq0, Aq1, Aq2], [Aq3, Aq4, Aq5], [Aq6, Aq7], []]⟩ [ruleA2, ruleA3, ruleA4, ruleA5] := rfl
      _ = List.foldl (predictStep Aq7) ⟨wsA, [[Aq0, Aq1, Aq2], [Aq3, Aq4, Aq5], [Aq6, Aq7], []]⟩ [ruleA3, ruleA4, ruleA5] := rfl
      _ = List.foldl (predictStep Aq7) ⟨wsA, [[Aq0, Aq1, Aq2], [Aq3, Aq4, Aq5], [Aq6, Aq7], []]⟩ [ruleA4, ruleA5] := rfl
      _ = List.foldl (predictStep Aq7) ⟨wsA, [[Aq0, Aq1, Aq2], [Aq3, Aq4, Aq5], [Aq6, Aq7], []]⟩ [ruleA5] := rfl
      _ = ⟨wsA, [[Aq0, Aq1, Aq2], [Aq3, Aq4, Aq5], [Aq6, Aq7], []]⟩ := rfl
  have posA2s1 : EarleyAlgorithm.scan grammarA Aq7 ⟨wsA, [[Aq0, Aq1, Aq2], [Aq3, Aq4, Aq5], [Aq6, Aq7], []]⟩ = ⟨wsA, [[Aq0, Aq1, Aq2], [Aq3, Aq4, Aq5], [Aq6, Aq7], [Aq8]]⟩ := by
    show List.foldl (scanStep Aq7) ⟨wsA, [[Aq0, Aq1, Aq2], [Aq3, Aq4, Aq5], [Aq6, Aq7], []]⟩ [ruleA0, ruleA1, ruleA2, ruleA3, ruleA4, ruleA5] = ⟨wsA, [[Aq0, Aq1, Aq2], [Aq3, Aq4, Aq5], [Aq6, Aq7], [Aq8]]⟩
    calc List.foldl (scanStep Aq7) ⟨wsA, [[Aq0, Aq1, Aq2], [Aq3, Aq4, Aq5], [Aq6, Aq7], []]⟩ [ruleA0, ruleA1, ruleA2, ruleA3, ruleA4, ruleA5] = List.foldl (scanStep Aq7) ⟨wsA, [[Aq0, Aq1, Aq2], [Aq3, Aq4, Aq5], [Aq6, Aq7], []]⟩ [ruleA1, ruleA2, ruleA3, ruleA4, ruleA5] := rfl
      _ = List.foldl (scanStep Aq7) ⟨wsA, [[Aq0, Aq1, Aq2], [Aq3, Aq4, Aq5], [Aq6, Aq7], []]⟩ [ruleA2, ruleA3, ruleA4, ruleA5] := rfl
      _ = List.foldl (scanStep Aq7) ⟨wsA, [[Aq0, Aq1, Aq2], [Aq3, Aq4, Aq5], [Aq6, Aq7], []]⟩ [ruleA3, ruleA4, ruleA5] := rfl
      _ = List.foldl (scanStep Aq7) ⟨wsA, [[Aq0, Aq1, Aq2], [Aq3, Aq4, Aq5], [Aq6, Aq7], []]⟩ [ruleA4, ruleA5] := rfl
      _ = List.foldl (scanStep Aq7) ⟨wsA, [[Aq0, Aq1, Aq2], [Aq3, Aq4, Aq5], [Aq6, Aq7], [Aq8]]⟩ [ruleA5] := rfl
      _ = ⟨wsA, [[Aq0, Aq1, Aq2], [Aq3, Aq4, Aq5], [Aq6, Aq7], [Aq8]]⟩ := rfl
  have posA2h1 : processState grammarA 198 ⟨wsA, [[Aq0, Aq1, Aq2], [Aq3, Aq4, Aq5], [Aq6, Aq7], []]⟩ Aq7 = some ⟨wsA, [[Aq0, Aq1, Aq2], [Aq3, Aq4, Aq5], [Aq6, Aq7], [Aq8]]⟩ := by
    show some (EarleyAlgorithm.scan grammarA Aq7 (EarleyAlgorithm.predict grammarA Aq7 ⟨wsA, [[Aq0, Aq1, Aq2], [Aq3, Aq4, Aq5], [Aq6, Aq7], []]⟩)) = some ⟨wsA, [[Aq0, Aq1, Aq2], [Aq3, Aq4, Aq5], [Aq6, Aq7], [Aq8]]⟩
    rw [posA2p1, posA2s1]
  calc agendaLoop grammarA (199 + 1) ⟨wsA, [[Aq0, Aq1, Aq2], [Aq3, Aq4, Aq5], [Aq6], []]⟩ 2 0 = agendaLoop grammarA 199 ⟨wsA, [[Aq0, Aq1, Aq2], [Aq3, Aq4, Aq5], [Aq6, Aq7], []]⟩ 2 1 := agendaLoop_succ_eq 199 (by decide) posA2h0
    _ = agendaLoop grammarA 198 ⟨wsA, [[Aq0, Aq1, Aq2], [Aq3, Aq4, Aq5], [Aq6, Aq7], [Aq8]]⟩ 2 2 := agendaLoop_succ_eq 198 (by decide) posA2h1
    _ = some ⟨wsA, [[Aq0, Aq1, Aq2], [Aq3, Aq4, Aq5], [Aq6, Aq7], [Aq8]]⟩ := agendaLoop_done (by decide)

set_option maxHeartbeats 4000000 in
theorem posA3 : agendaLoop grammarA 200 ⟨wsA, [[Aq0, Aq1, Aq2], [Aq3, Aq4, Aq5], [Aq6, Aq7], [Aq8]]⟩ 3 0 = some ⟨wsA, [[Aq0, Aq1, Aq2], [Aq3, Aq4, Aq5], [Aq6, Aq7], [Aq8, Aq9, Aq10, Aq11, Aq12]]⟩ := by
  have posA3h0 : processState grammarA 199 ⟨wsA, [[Aq0, Aq1, Aq2], [Aq3, Aq4, Aq5], [Aq6, Aq7], [Aq8]]⟩ Aq8 = some ⟨wsA, [[Aq0, Aq1, Aq2], [Aq3, Aq4, Aq5], [Aq6, Aq7], [Aq8, Aq9]]⟩ := by
    show completeLoop Aq8 199 ⟨wsA, [[Aq0, Aq1, Aq2], [Aq3, Aq4, Aq5], [Aq6, Aq7], [Aq8]]⟩ 0 = some ⟨wsA, [[Aq0, Aq1, Aq2], [Aq3, Aq4, Aq5], [Aq6, Aq7], [Aq8, Aq9]]⟩
    calc completeLoop Aq8 (198 + 1) ⟨wsA, [[Aq0, Aq1, Aq2], [Aq3, Aq4, Aq5], [Aq6, Aq7], [Aq8]]⟩ 0 = completeLoop Aq8 198 ⟨wsA, [[Aq0, Aq1, Aq2], [Aq3, Aq4, Aq5], [Aq6, Aq7], [Aq8]]⟩ 1 := completeLoop_succ_eq 198 (by decide) rfl
      _ = completeLoop Aq8 197 ⟨wsA, [[Aq0, Aq1, Aq2], [Aq3, Aq4, Aq5], [Aq6, Aq7], [Aq8, Aq9]]⟩ 2 := completeLoop_succ_eq 197 (by decide) rfl
      _ = some ⟨wsA, [[Aq0, Aq1, Aq2], [Aq3, Aq4, Aq5], [Aq6, Aq7], [Aq8, Aq9]]⟩ := completeLoop_done (by decide)
  have posA3h1 : processState grammarA 198 ⟨wsA, [[Aq0, Aq1, Aq2], [Aq3, Aq4, Aq5], [Aq6, Aq7], [Aq8, Aq9]]⟩ Aq9 = some ⟨wsA, [[Aq0, Aq1, Aq2], [Aq3, Aq4, Aq5], [Aq6, Aq7], [Aq8, Aq9, Aq10]]⟩ := by
    show completeLoop Aq9 198 ⟨wsA, [[Aq0, Aq1, Aq2], [Aq3, Aq4, Aq5], [Aq6, Aq7], [Aq8, Aq9]]⟩ 0 = some ⟨wsA, [[Aq0, Aq1, Aq2], [Aq3, Aq4, Aq5], [Aq6, Aq7], [Aq8, Aq9, Aq10]]⟩
    calc completeLoop Aq9 (197 + 1) ⟨wsA, [[Aq0, Aq1, Aq2], [Aq3, Aq4, Aq5], [Aq6, Aq7], [Aq8, Aq9]]⟩ 0 = completeLoop Aq9 197 ⟨wsA, [[Aq0, Aq1, Aq2], [Aq3, Aq4, Aq5], [Aq6, Aq7], [Aq8, Aq9]]⟩ 1 := completeLoop_succ_eq 197 (by decide) rfl
      _ = completeLoop Aq9 196 ⟨wsA, [[Aq0, Aq1, Aq2], [Aq3, Aq4, Aq5], [Aq6, Aq7], [Aq8, Aq9, Aq10]]⟩ 2 := completeLoop_succ_eq 196 (by decide) rfl
      _ = completeLoop Aq9 195 ⟨wsA, [[Aq0, Aq1, Aq2], [Aq3, Aq4, Aq5], [Aq6, Aq7], [Aq8, Aq9, Aq10]]⟩ 3 := completeLoop_succ_eq 195 (by decide) rfl
      _ = some ⟨wsA, [[Aq0, Aq1, Aq2], [Aq3, Aq4, Aq5], [Aq6, Aq7], [Aq8, Aq9, Aq10]]⟩ := completeLoop_done (by decide)
  have posA3h2 : processState grammarA 197 ⟨wsA, [[Aq0, Aq1, Aq2], [Aq3, Aq4, Aq5], [Aq6, Aq7], [Aq8, Aq9, Aq10]]⟩ Aq10 = some ⟨wsA, [[Aq0, Aq1, Aq2], [Aq3, Aq4, Aq5], [Aq6, Aq7], [Aq8, Aq9, Aq10, Aq11]]⟩ := by
    show completeLoop Aq10 197 ⟨wsA, [[Aq0, Aq1, Aq2], [Aq3, Aq4, Aq5], [Aq6, Aq7], [Aq8, Aq9, Aq10]]⟩ 0 = some ⟨wsA, [[Aq0, Aq1, Aq2], [Aq3, Aq4, Aq5], [Aq6, Aq7], [Aq8, Aq9, Aq10, Aq11]]⟩
    calc completeLoop Aq10 (196 + 1) ⟨wsA, [[Aq0, Aq1, Aq2], [Aq3, Aq4, Aq5], [Aq6, Aq7], [Aq8, Aq9, Aq10]]⟩ 0 = completeLoop Aq10 196 ⟨wsA, [[Aq0, Aq1, Aq2], [Aq3, Aq4, Aq5], [Aq6, Aq7], [Aq8, Aq9, Aq10]]⟩ 1 := completeLoop_succ_eq 196 (by decide) rfl
      _ = completeLoop Aq10 195 ⟨wsA, [[Aq0, Aq1, Aq2], [Aq3, Aq4, Aq5], [Aq6, Aq7], [Aq8, Aq9, Aq10, Aq11]]⟩ 2 := completeLoop_succ_eq 195 (by decide) rfl
      _ = completeLoop Aq10 194 ⟨wsA, [[Aq0, Aq1, Aq2], [Aq3, Aq4, Aq5], [Aq6, Aq7], [Aq8, Aq9, Aq10, Aq11]]⟩ 3 := completeLoop_succ_eq 194 (by decide) rfl
      _ = some ⟨wsA, [[Aq0, Aq1, Aq2], [Aq3, Aq4, Aq5], [Aq6, Aq7], [Aq8, Aq9, Aq10, Aq11]]⟩ := completeLoop_done (by decide)
  have posA3h3 : processState grammarA 196 ⟨wsA, [[Aq0, Aq1, Aq2], [Aq3, Aq4, Aq5], [Aq6, Aq7], [Aq8, Aq9, Aq10, Aq11]]⟩ Aq11 = some ⟨wsA, [[Aq0, Aq1, Aq2], [Aq3, Aq4, Aq5], [Aq6, Aq7], [Aq8, Aq9, Aq10, Aq11, Aq12]]⟩ := by
    show completeLoop Aq11 196 ⟨wsA, [[Aq0, Aq1, Aq2], [Aq3, Aq4, Aq5], [Aq6, Aq7], [Aq8, Aq9, Aq10, Aq11]]⟩ 0 = some ⟨wsA, [[Aq0, Aq1, Aq2], [Aq3, Aq4, Aq5], [Aq6, Aq7], [Aq8, Aq9, Aq10, Aq11, Aq12]]⟩
    calc completeLoop Aq11 (195 + 1) ⟨wsA, [[Aq0, Aq1, Aq2], [Aq3, Aq4, Aq5], [Aq6, Aq7], [Aq8, Aq9, Aq10, Aq11]]⟩ 0 = completeLoop Aq11 195 ⟨wsA, [[Aq0, Aq1, Aq2], [Aq3, Aq4, Aq5], [Aq6, Aq7], [Aq8, Aq9, Aq10, Aq11, Aq12]]⟩ 1 := completeLoop_succ_eq 195 (by decide) rfl
      _ = completeLoop Aq11 194 ⟨wsA, [[Aq0, Aq1, Aq2], [Aq3, Aq4, Aq5], [Aq6, Aq7], [Aq8, Aq9, Aq10, Aq11, Aq12]]⟩ 2 := completeLoop_succ_eq 194 (by decide) rfl
      _ = completeLoop Aq11 193 ⟨wsA, [[Aq0, Aq1, Aq2], [Aq3, Aq4, Aq5], [Aq6, Aq7], [Aq8, Aq9, Aq10, Aq11, Aq12]]⟩ 3 := completeLoop_succ_eq 193 (by decide) rfl
      _ = some ⟨wsA, [[Aq0, Aq1, Aq2], [Aq3, Aq4, Aq5], [Aq6, Aq7], [Aq8, Aq9, Aq10, Aq11, Aq12]]⟩ := completeLoop_done (by decide)
  have posA3h4 : processState grammarA 195 ⟨wsA, [[Aq0, Aq1, Aq2], [Aq3, Aq4, Aq5], [Aq6, Aq7], [Aq8, Aq9, Aq10, Aq11, Aq12]]⟩ Aq12 = some ⟨wsA, [[Aq0, Aq1, Aq2], [Aq3, Aq4, Aq5], [Aq6, Aq7], [Aq8, Aq9, Aq10, Aq11, Aq12]]⟩ := by
    show completeLoop Aq12 195 ⟨wsA, [[Aq0, Aq1, Aq2], [Aq3, Aq4, Aq5], [Aq6, Aq7], [Aq8, Aq9, Aq10, Aq11, Aq12]]⟩ 0 = some ⟨wsA, [[Aq0, Aq1, Aq2], [Aq3, Aq4, Aq5], [Aq6, Aq7], [Aq8, Aq9, Aq10, Aq11, Aq12]]⟩
    calc completeLoop Aq12 (194 + 1) ⟨wsA, [[Aq0, Aq1, Aq2], [Aq3, Aq4, Aq5], [Aq6, Aq7], [Aq8, Aq9, Aq10, Aq11, Aq12]]⟩ 0 = completeLoop Aq12 194 ⟨wsA, [[Aq0, Aq1, Aq2], [Aq3, Aq4, Aq5], [Aq6, Aq7], [Aq8, Aq9, Aq10, Aq11, Aq12]]⟩ 1 := completeLoop_succ_eq 194 (by decide) rfl
      _ = completeLoop Aq12 193 ⟨wsA, [[Aq0, Aq1, Aq2], [Aq3, Aq4, Aq5], [Aq6, Aq7], [Aq8, Aq9, Aq10, Aq11, Aq12]]⟩ 2 := completeLoop_succ_eq 193 (by decide) rfl
      _ = completeLoop Aq12 192 ⟨wsA, [[Aq0, Aq1, Aq2], [Aq3, Aq4, Aq5], [Aq6, Aq7], [Aq8, Aq9, Aq10, Aq11, Aq12]]⟩ 3 := completeLoop_succ_eq 192 (by decide) rfl
      _ = some ⟨wsA, [[Aq0, Aq1, Aq2], [Aq3, Aq4, Aq5], [Aq6, Aq7], [Aq8, Aq9, Aq10, Aq11, Aq12]]⟩ := completeLoop_done (by decide)
  calc agendaLoop grammarA (199 + 1) ⟨wsA, [[Aq0, Aq1, Aq2], [Aq3, Aq4, Aq5], [Aq6, Aq7], [Aq8]]⟩ 3 0 = agendaLoop grammarA 199 ⟨wsA, [[Aq0, Aq1, Aq2], [Aq3, Aq4, Aq5], [Aq6, Aq7], [Aq8, Aq9]]⟩ 3 1 := agendaLoop_succ_eq 199 (by decide) posA3h0
    _ = agendaLoop grammarA 198 ⟨wsA, [[Aq0, Aq1, Aq2], [Aq3, Aq4, Aq5], [Aq6, Aq7], [Aq8, Aq9, Aq10]]⟩ 3 2 := agendaLoop_succ_eq 198 (by decide) posA3h1
    _ = agendaLoop grammarA 197 ⟨wsA, [[Aq0, Aq1, Aq2], [Aq3, Aq4, Aq5], [Aq6, Aq7], [Aq8, Aq9, Aq10, Aq11]]⟩ 3 3 := agendaLoop_succ_eq 197 (by decide) posA3h2
    _ = agendaLoop grammarA 196 ⟨wsA, [[Aq0, Aq1, Aq2], [Aq3, Aq4, Aq5], [Aq6, Aq7], [Aq8, Aq9, Aq10, Aq11, Aq12]]⟩ 3 4 := agendaLoop_succ_eq 196 (by decide) posA3h3
    _ = agendaLoop grammarA 195 ⟨wsA, [[Aq0, Aq1, Aq2], [Aq3, Aq4, Aq5], [Aq6, Aq7], [Aq8, Aq9, Aq10, Aq11, Aq12]]⟩ 3 5 := agendaLoop_succ_eq 195 (by decide) posA3h4
    _ = some ⟨wsA, [[Aq0, Aq1, Aq2], [Aq3, Aq4, Aq5], [Aq6, Aq7], [Aq8, Aq9, Aq10, Aq11, Aq12]]⟩ := agendaLoop_done (by decide)

set_option maxHeartbeats 4000000 in
theorem chartA : parseChart grammarA 200 wsA = some ⟨wsA, [[Aq0, Aq1, Aq2], [Aq3, Aq4, Aq5], [Aq6, Aq7], [Aq8, Aq9, Aq10, Aq11, Aq12]]⟩ := by
  show posLoop grammarA 200 [0, 1, 2, 3] ⟨wsA, [[Aq0], [], [], []]⟩ = some ⟨wsA, [[Aq0, Aq1, Aq2], [Aq3, Aq4, Aq5], [Aq6, Aq7], [Aq8, Aq9, Aq10, Aq11, Aq12]]⟩
  exact posLoop_cons_eq posA0 (posLoop_cons_eq posA1 (posLoop_cons_eq posA2 (posLoop_cons_eq posA3 (posLoop_nil))))

set_option maxHeartbeats 4000000 in
theorem parseRunA : parse grammarA 200 wsA = some (.ok [.node "S" [.node "VP" [.node "V" [.str "Book"], .node "NP" [.node "Det" [.str "that"], .node "Nominal" [.str "flight"]]]]]) := by
  rw [EarleyAlgorithm.parse, chartA]
  rfl
def wsM : List String := ["that", "x"]
def Mq0 : State := .mk ⟨"_GAMMA", ["S"], false⟩ 0 0 0 []
def Mq1 : State := .mk ⟨"S", ["Det"], false⟩ 0 0 0 []
def Mq2 : State := .mk ⟨"Det", ["th", "at"], true⟩ 0 1 1 []
def Mq3 : State := .mk ⟨"at", ["x"], true⟩ 1 2 1 []
def Mq4 : State := .mk ⟨"Det", ["th", "at"], true⟩ 0 2 2 [Mq3]
def Mq5 : State := .mk ⟨"S", ["Det"], false⟩ 0 2 1 [Mq4]
def Mq6 : State := .mk ⟨"_GAMMA", ["S"], false⟩ 0 2 1 [Mq5]
set_option maxHeartbeats 4000000 in
theorem posM0 : agendaLoop grammarMulti 200 ⟨wsM, [[Mq0], [], []]⟩ 0 0 = some ⟨wsM, [[Mq0, Mq1], [Mq2], []]⟩ := by
  have posM0p0 : EarleyAlgorithm.predict grammarMulti Mq0 ⟨wsM, [[Mq0], [], []]⟩ = ⟨wsM, [[Mq0, Mq1], [], []]⟩ := by
    show List.foldl (predictStep Mq0) ⟨wsM, [[Mq0], [], []]⟩ [ruleM0, ruleM1, ruleM2] = ⟨wsM, [[Mq0, Mq1], [], []]⟩
    calc List.foldl (predictStep Mq0) ⟨wsM, [[Mq0], [], []]⟩ [ruleM0, ruleM1, ruleM2] = List.foldl (predictStep Mq0) ⟨wsM, [[Mq0, Mq1], [], []]⟩ [ruleM1, ruleM2] := rfl
      _ = List.foldl (predictStep Mq0) ⟨wsM, [[Mq0, Mq1], [], []]⟩ [ruleM2] := rfl
      _ = ⟨wsM, [[Mq0, Mq1], [], []]⟩ := rfl
  have posM0s0 : EarleyAlgorithm.scan grammarMulti Mq0 ⟨wsM, [[Mq0, Mq1], [], []]⟩ = ⟨wsM, [[Mq0, Mq1], [], []]⟩ := by
    show List.foldl (scanStep Mq0) ⟨wsM, [[Mq0, Mq1], [], []]⟩ [ruleM0, ruleM1, ruleM2] = ⟨wsM, [[Mq0, Mq1], [], []]⟩
    calc List.foldl (scanStep Mq0) ⟨wsM, [[Mq0, Mq1], [], []]⟩ [ruleM0, ruleM1, ruleM2] = List.foldl (scanStep Mq0) ⟨wsM, [[Mq0, Mq1], [], []]⟩ [ruleM1, ruleM2] := rfl
      _ = List.foldl (scanStep Mq0) ⟨wsM, [[Mq0, Mq1], [], []]⟩ [ruleM2] := rfl
      _ = ⟨wsM, [[Mq0, Mq1], [], []]⟩ := rfl
  have posM0h0 : processState grammarMulti 199 ⟨wsM, [[Mq0], [], []]⟩ Mq0 = some ⟨wsM, [[Mq0, Mq1], [], []]⟩ := by
    show some (EarleyAlgorithm.scan grammarMulti Mq0 (EarleyAlgorithm.predict grammarMulti Mq0 ⟨wsM, [[Mq0], [], []]⟩)) = some ⟨wsM, [[Mq0, Mq1], [], []]⟩
    rw [posM0p0, posM0s0]
  have posM0p1 : EarleyAlgorithm.predict grammarMulti Mq1 ⟨wsM, [[Mq0, Mq1], [], []]⟩ = ⟨wsM, [[Mq0, Mq1], [], []]⟩ := by
    show List.foldl (predictStep Mq1) ⟨wsM, [[Mq0, Mq1], [], []]⟩ [ruleM0, ruleM1, ruleM2] = ⟨wsM, [[Mq0, Mq1], [], []]⟩
    calc List.foldl (predictStep Mq1) ⟨wsM, [[Mq0, Mq1], [], []]⟩ [ruleM0, ruleM1, ruleM2] = List.foldl (predictStep Mq1) ⟨wsM, [[Mq0, Mq1], [], []]⟩ [ruleM1, ruleM2] := rfl
      _ = List.foldl (predictStep Mq1) ⟨wsM, [[Mq0, Mq1], [], []]⟩ [ruleM2] := rfl
      _ = ⟨wsM, [[Mq0, Mq1], [], []]⟩ := rfl
  have posM0s1 : EarleyAlgorithm.scan grammarMulti Mq1 ⟨wsM, [[Mq0, Mq1], [], []]⟩ = ⟨wsM, [[Mq0, Mq1], [Mq2], []]⟩ := by
    show List.foldl (scanStep Mq1) ⟨wsM, [[Mq0, Mq1], [], []]⟩ [ruleM0, ruleM1, ruleM2] = ⟨wsM, [[Mq0, Mq1], [Mq2], []]⟩
    calc List.foldl (scanStep Mq1) ⟨wsM, [[Mq0, Mq1], [], []]⟩ [ruleM0, ruleM1, ruleM2] = List.foldl (scanStep Mq1) ⟨wsM, [[Mq0, Mq1], [], []]⟩ [ruleM1, ruleM2] := rfl
      _ = List.foldl (scanStep Mq1) ⟨wsM, [[Mq0, Mq1], [Mq2], []]⟩ [ruleM2] := rfl
      _ = ⟨wsM, [[Mq0, Mq1], [Mq2], []]⟩ := rfl
  have posM0h1 : processState grammarMulti 198 ⟨wsM, [[Mq0, Mq1], [], []]⟩ Mq1 = some ⟨wsM, [[Mq0, Mq1], [Mq2], []]⟩ := by
    show some (EarleyAlgorithm.scan grammarMulti Mq1 (EarleyAlgorithm.predict grammarMulti Mq1 ⟨wsM, [[Mq0, Mq1], [], []]⟩)) = some ⟨wsM, [[Mq0, Mq1], [Mq2], []]⟩
    rw [posM0p1, posM0s1]
  calc agendaLoop grammarMulti (199 + 1) ⟨wsM, [[Mq0], [], []]⟩ 0 0 = agendaLoop grammarMulti 199 ⟨wsM, [[Mq0, Mq1], [], []]⟩ 0 1 := agendaLoop_succ_eq 199 (by decide) posM0h0
    _ = agendaLoop grammarMulti 198 ⟨wsM, [[Mq0, Mq1], [Mq2], []]⟩ 0 2 := agendaLoop_succ_eq 198 (by decide) posM0h1
    _ = some ⟨wsM, [[Mq0, Mq1], [Mq2], []]⟩ := agendaLoop_done (by decide)

set_option maxHeartbeats 4000000 in
theorem posM1 : agendaLoop grammarMulti 200 ⟨wsM, [[Mq0, Mq1], [Mq2], []]⟩ 1 0 = some ⟨wsM, [[Mq0, Mq1], [Mq2], [Mq3]]⟩ := by
  have posM1p0 : EarleyAlgorithm.predict grammarMulti Mq2 ⟨wsM, [[Mq0, Mq1], [Mq2], []]⟩ = ⟨wsM, [[Mq0, Mq1], [Mq2], []]⟩ := by
    show List.foldl (predictStep Mq2) ⟨wsM, [[Mq0, Mq1], [Mq2], []]⟩ [ruleM0, ruleM1, ruleM2] = ⟨wsM, [[Mq0, Mq1], [Mq2], []]⟩
    calc List.foldl (predictStep Mq2) ⟨wsM, [[Mq0, Mq1], [Mq2], []]⟩ [ruleM0, ruleM1, ruleM2] = List.foldl (predictStep Mq2) ⟨wsM, [[Mq0, Mq1], [Mq2], []]⟩ [ruleM1, ruleM2] := rfl
      _ = List.foldl (predictStep Mq2) ⟨wsM, [[Mq0, Mq1], [Mq2], []]⟩ [ruleM2] := rfl
      _ = ⟨wsM, [[Mq0, Mq1], [Mq2], []]⟩ := rfl
  have posM1s0 : EarleyAlgorithm.scan grammarMulti Mq2 ⟨wsM, [[Mq0, Mq1], [Mq2], []]⟩ = ⟨wsM, [[Mq0, Mq1], [Mq2], [Mq3]]⟩ := by
    show List.foldl (scanStep Mq2) ⟨wsM, [[Mq0, Mq1], [Mq2], []]⟩ [ruleM0, ruleM1, ruleM2] = ⟨wsM, [[Mq0, Mq1], [Mq2], [Mq3]]⟩
    calc List.foldl (scanStep Mq2) ⟨wsM, [[Mq0, Mq1], [Mq2], []]⟩ [ruleM0, ruleM1, ruleM2] = List.foldl (scanStep Mq2) ⟨wsM, [[Mq0, Mq1], [Mq2], []]⟩ [ruleM1, ruleM2] := rfl
      _ = List.foldl (scanStep Mq2) ⟨wsM, [[Mq0, Mq1], [Mq2], []]⟩ [ruleM2] := rfl
      _ = ⟨wsM, [[Mq0, Mq1], [Mq2], [Mq3]]⟩ := rfl
  have posM1h0 : processState grammarMulti 199 ⟨wsM, [[Mq0, Mq1], [Mq2], []]⟩ Mq2 = some ⟨wsM, [[Mq0, Mq1], [Mq2], [Mq3]]⟩ := by
    show some (EarleyAlgorithm.scan grammarMulti Mq2 (EarleyAlgorithm.predict grammarMulti Mq2 ⟨wsM, [[Mq0, Mq1], [Mq2], []]⟩)) = some ⟨wsM, [[Mq0, Mq1], [Mq2], [Mq3]]⟩
    rw [posM1p0, posM1s0]
  calc agendaLoop grammarMulti (199 + 1) ⟨wsM, [[Mq0, Mq1], [Mq2], []]⟩ 1 0 = agendaLoop grammarMulti 199 ⟨wsM, [[Mq0, Mq1], [Mq2], [Mq3]]⟩ 1 1 := agendaLoop_succ_eq 199 (by decide) posM1h0
    _ = some ⟨wsM, [[Mq0, Mq1], [Mq2], [Mq3]]⟩ := agendaLoop_done (by decide)

set_option maxHeartbeats 4000000 in
theorem posM2 : agendaLoop grammarMulti 200 ⟨wsM, [[Mq0, Mq1], [Mq2], [Mq3]]⟩ 2 0 = some ⟨wsM, [[Mq0, Mq1], [Mq2], [Mq3, Mq4, Mq5, Mq6]]⟩ := by
  have posM2h0 : processState grammarMulti 199 ⟨wsM, [[Mq0, Mq1], [Mq2], [Mq3]]⟩ Mq3 = some ⟨wsM, [[Mq0, Mq1], [Mq2], [Mq3, Mq4]]⟩ := by
    show completeLoop Mq3 199 ⟨wsM, [[Mq0, Mq1], [Mq2], [Mq3]]⟩ 0 = some ⟨wsM, [[Mq0, Mq1], [Mq2], [Mq3, Mq4]]⟩
    calc completeLoop Mq3 (198 + 1) ⟨wsM, [[Mq0, Mq1], [Mq2], [Mq3]]⟩ 0 = completeLoop Mq3 198 ⟨wsM, [[Mq0, Mq1], [Mq2], [Mq3, Mq4]]⟩ 1 := completeLoop_succ_eq 198 (by decide) rfl
      _ = some ⟨wsM, [[Mq0, Mq1], [Mq2], [Mq3, Mq4]]⟩ := completeLoop_done (by decide)
  have posM2h1 : processState grammarMulti 198 ⟨wsM, [[Mq0, Mq1], [Mq2], [Mq3, Mq4]]⟩ Mq4 = some ⟨wsM, [[Mq0, Mq1], [Mq2], [Mq3, Mq4, Mq5]]⟩ := by
    show completeLoop Mq4 198 ⟨wsM, [[Mq0, Mq1], [Mq2], [Mq3, Mq4]]⟩ 0 = some ⟨wsM, [[Mq0, Mq1], [Mq2], [Mq3, Mq4, Mq5]]⟩
    calc completeLoop Mq4 (197 + 1) ⟨wsM, [[Mq0, Mq1], [Mq2], [Mq3, Mq4]]⟩ 0 = completeLoop Mq4 197 ⟨wsM, [[Mq0, Mq1], [Mq2], [Mq3, Mq4]]⟩ 1 := completeLoop_succ_eq 197 (by decide) rfl
      _ = completeLoop Mq4 196 ⟨wsM, [[Mq0, Mq1], [Mq2], [Mq3, Mq4, Mq5]]⟩ 2 := completeLoop_succ_eq 196 (by decide) rfl
      _ = some ⟨wsM, [[Mq0, Mq1], [Mq2], [Mq3, Mq4, Mq5]]⟩ := completeLoop_done (by decide)
  have posM2h2 : processState grammarMulti 197 ⟨wsM, [[Mq0, Mq1], [Mq2], [Mq3, Mq4, Mq5]]⟩ Mq5 = some ⟨wsM, [[Mq0, Mq1], [Mq2], [Mq3, Mq4, Mq5, Mq6]]⟩ := by
    show completeLoop Mq5 197 ⟨wsM, [[Mq0, Mq1], [Mq2], [Mq3, Mq4, Mq5]]⟩ 0 = some ⟨wsM, [[Mq0, Mq1], [Mq2], [Mq3, Mq4, Mq5, Mq6]]⟩
    calc completeLoop Mq5 (196 + 1) ⟨wsM, [[Mq0, Mq1], [Mq2], [Mq3, Mq4, Mq5]]⟩ 0 = completeLoop Mq5 196 ⟨wsM, [[Mq0, Mq1], [Mq2], [Mq3, Mq4, Mq5, Mq6]]⟩ 1 := completeLoop_succ_eq 196 (by decide) rfl
      _ = completeLoop Mq5 195 ⟨wsM, [[Mq0, Mq1], [Mq2], [Mq3, Mq4, Mq5, Mq6]]⟩ 2 := completeLoop_succ_eq 195 (by decide) rfl
      _ = some ⟨wsM, [[Mq0, Mq1], [Mq2], [Mq3, Mq4, Mq5, Mq6]]⟩ := completeLoop_done (by decide)
  have posM2h3 : processState grammarMulti 196 ⟨wsM, [[Mq0, Mq1], [Mq2], [Mq3, Mq4, Mq5, Mq6]]⟩ Mq6 = some ⟨wsM, [[Mq0, Mq1], [Mq2], [Mq3, Mq4, Mq5, Mq6]]⟩ := by
    show completeLoop Mq6 196 ⟨wsM, [[Mq0, Mq1], [Mq2], [Mq3, Mq4, Mq5, Mq6]]⟩ 0 = some ⟨wsM, [[Mq0, Mq1], [Mq2], [Mq3, Mq4, Mq5, Mq6]]⟩
    calc completeLoop Mq6 (195 + 1) ⟨wsM, [[Mq0, Mq1], [Mq2], [Mq3, Mq4, Mq5, Mq6]]⟩ 0 = completeLoop Mq6 195 ⟨wsM, [[Mq0, Mq1], [Mq2], [Mq3, Mq4, Mq5, Mq6]]⟩ 1 := completeLoop_succ_eq 195 (by decide) rfl
      _ = completeLoop Mq6 194 ⟨wsM, [[Mq0, Mq1], [Mq2], [Mq3, Mq4, Mq5, Mq6]]⟩ 2 := completeLoop_succ_eq 194 (by decide) rfl
      _ = some ⟨wsM, [[Mq0, Mq1], [Mq2], [Mq3, Mq4, Mq5, Mq6]]⟩ := completeLoop_done (by decide)
  calc agendaLoop grammarMulti (199 + 1) ⟨wsM, [[Mq0, Mq1], [Mq2], [Mq3]]⟩ 2 0 = agendaLoop grammarMulti 199 ⟨wsM, [[Mq0, Mq1], [Mq2], [Mq3, Mq4]]⟩ 2 1 := agendaLoop_succ_eq 199 (by decide) posM2h0
    _ = agendaLoop grammarMulti 198 ⟨wsM, [[Mq0, Mq1], [Mq2], [Mq3, Mq4, Mq5]]⟩ 2 2 := agendaLoop_succ_eq 198 (by decide) posM2h1
    _ = agendaLoop grammarMulti 197 ⟨wsM, [[Mq0, Mq1], [Mq2], [Mq3, Mq4, Mq5, Mq6]]⟩ 2 3 := agendaLoop_succ_eq 197 (by decide) posM2h2
    _ = agendaLoop grammarMulti 196 ⟨wsM, [[Mq0, Mq1], [Mq2], [Mq3, Mq4, Mq5, Mq6]]⟩ 2 4 := agendaLoop_succ_eq 196 (by decide) posM2h3
    _ = some ⟨wsM, [[Mq0, Mq1], [Mq2], [Mq3, Mq4, Mq5, Mq6]]⟩ := agendaLoop_done (by decide)

set_option maxHeartbeats 4000000 in
theorem chartM : parseChart grammarMulti 200 wsM = some ⟨wsM, [[Mq0, Mq1], [Mq2], [Mq3, Mq4, Mq5, Mq6]]⟩ := by
  show posLoop grammarMulti 200 [0, 1, 2] ⟨wsM, [[Mq0], [], []]⟩ = some ⟨wsM, [[Mq0, Mq1], [Mq2], [Mq3, Mq4, Mq5, Mq6]]⟩
  exact posLoop_cons_eq posM0 (posLoop_cons_eq posM1 (posLoop_cons_eq posM2 (posLoop_nil)))

set_option maxHeartbeats 4000000 in
theorem parseRunM : parse grammarMulti 200 wsM = some (.ok [.node "S" [.node "Det" [.str "that"]]]) := by
  rw [EarleyAlgorithm.parse, chartM]
  rfl
def wsN : List String := []
def Nq0 : State := .mk ⟨"_GAMMA", ["S"], false⟩ 0 0 0 []
def Nq1 : State := .mk ⟨"S", [], false⟩ 0 0 0 []
def Nq2 : State := .mk ⟨"_GAMMA", ["S"], false⟩ 0 0 1 [Nq1]
set_option maxHeartbeats 4000000 in
theorem posN0 : agendaLoop grammarNull 200 ⟨wsN, [[Nq0]]⟩ 0 0 = some ⟨wsN, [[Nq0, Nq1, Nq2]]⟩ := by
  have posN0p0 : EarleyAlgorithm.predict grammarNull Nq0 ⟨wsN, [[Nq0]]⟩ = ⟨wsN, [[Nq0, Nq1]]⟩ := by
    show List.foldl (predictStep Nq0) ⟨wsN, [[Nq0]]⟩ [ruleN0] = ⟨wsN, [[Nq0, Nq1]]⟩
    exact rfl
  have posN0s0 : EarleyAlgorithm.scan grammarNull Nq0 ⟨wsN, [[Nq0, Nq1]]⟩ = ⟨wsN, [[Nq0, Nq1]]⟩ := by
    show List.foldl (scanStep Nq0) ⟨wsN, [[Nq0, Nq1]]⟩ [ruleN0] = ⟨wsN, [[Nq0, Nq1]]⟩
    exact rfl
  have posN0h0 : processState grammarNull 199 ⟨wsN, [[Nq0]]⟩ Nq0 = some ⟨wsN, [[Nq0, Nq1]]⟩ := by
    show some (EarleyAlgorithm.scan grammarNull Nq0 (EarleyAlgorithm.predict grammarNull Nq0 ⟨wsN, [[Nq0]]⟩)) = some ⟨wsN, [[Nq0, Nq1]]⟩
    rw [posN0p0, posN0s0]
  have posN0h1 : processState grammarNull 198 ⟨wsN, [[Nq0, Nq1]]⟩ Nq1 = some ⟨wsN, [[Nq0, Nq1, Nq2]]⟩ := by
    show completeLoop Nq1 198 ⟨wsN, [[Nq0, Nq1]]⟩ 0 = some ⟨wsN, [[Nq0, Nq1, Nq2]]⟩
    calc completeLoop Nq1 (197 + 1) ⟨wsN, [[Nq0, Nq1]]⟩ 0 = completeLoop Nq1 197 ⟨wsN, [[Nq0, Nq1, Nq2]]⟩ 1 := completeLoop_succ_eq 197 (by decide) rfl
      _ = completeLoop Nq1 196 ⟨wsN, [[Nq0, Nq1, Nq2]]⟩ 2 := completeLoop_succ_eq 196 (by decide) rfl
      _ = completeLoop Nq1 195 ⟨wsN, [[Nq0, Nq1, Nq2]]⟩ 3 := completeLoop_succ_eq 195 (by decide) rfl
      _ = some ⟨wsN, [[Nq0, Nq1, Nq2]]⟩ := completeLoop_done (by decide)
  have posN0h2 : processState grammarNull 197 ⟨wsN, [[Nq0, Nq1, Nq2]]⟩ Nq2 = some ⟨wsN, [[Nq0, Nq1, Nq2]]⟩ := by
    show completeLoop Nq2 197 ⟨wsN, [[Nq0, Nq1, Nq2]]⟩ 0 = some ⟨wsN, [[Nq0, Nq1, Nq2]]⟩
    calc completeLoop Nq2 (196 + 1) ⟨wsN, [[Nq0, Nq1, Nq2]]⟩ 0 = completeLoop Nq2 196 ⟨wsN, [[Nq0, Nq1, Nq2]]⟩ 1 := completeLoop_succ_eq 196 (by decide) rfl
      _ = completeLoop Nq2 195 ⟨wsN, [[Nq0, Nq1, Nq2]]⟩ 2 := completeLoop_succ_eq 195 (by decide) rfl
      _ = completeLoop Nq2 194 ⟨wsN, [[Nq0, Nq1, Nq2]]⟩ 3 := completeLoop_succ_eq 194 (by decide) rfl
      _ = some ⟨wsN, [[Nq0, Nq1, Nq2]]⟩ := completeLoop_done (by decide)
  calc agendaLoop grammarNull (199 + 1) ⟨wsN, [[Nq0]]⟩ 0 0 = agendaLoop grammarNull 199 ⟨wsN, [[Nq0, Nq1]]⟩ 0 1 := agendaLoop_succ_eq 199 (by decide) posN0h0
    _ = agendaLoop grammarNull 198 ⟨wsN, [[Nq0, Nq1, Nq2]]⟩ 0 2 := agendaLoop_succ_eq 198 (by decide) posN0h1
    _ = agendaLoop grammarNull 197 ⟨wsN, [[Nq0, Nq1, Nq2]]⟩ 0 3 := agendaLoop_succ_eq 197 (by decide) posN0h2
    _ = some ⟨wsN, [[Nq0, Nq1, Nq2]]⟩ := agendaLoop_done (by decide)

set_option maxHeartbeats 4000000 in
theorem chartN : parseChart grammarNull 200 wsN = some ⟨wsN, [[Nq0, Nq1, Nq2]]⟩ := by
  show posLoop grammarNull 200 [0] ⟨wsN, [[Nq0]]⟩ = some ⟨wsN, [[Nq0, Nq1, Nq2]]⟩
  exact posLoop_cons_eq posN0 (posLoop_nil)

set_option maxHeartbeats 4000000 in
theorem parseRunN : parse grammarNull 200 wsN = some (.ok [.node "S" []]) := by
  rw [EarleyAlgorithm.parse, chartN]
  rfl
def wsG : List String := ["a"]
def Gq0 : State := .mk ⟨"_GAMMA", ["S"], false⟩ 0 0 0 []
def Gq1 : State := .mk ⟨"S", ["A", "_GAMMA"], false⟩ 0 0 0 []
def Gq2 : State := .mk ⟨"A", ["a"], true⟩ 0 1 1 []
def Gq3 : State := .mk ⟨"S", ["A", "_GAMMA"], false⟩ 0 1 1 [Gq2]
def Gq4 : State := .mk ⟨"_GAMMA", [], false⟩ 1 1 0 []
def Gq5 : State := .mk ⟨"S", ["A", "_GAMMA"], false⟩ 0 1 2 [Gq2, Gq4]
def Gq6 : State := .mk ⟨"_GAMMA", ["S"], false⟩ 0 1 1 [Gq5]
set_option maxHeartbeats 4000000 in
theorem posG0 : agendaLoop grammarGammaNull 200 ⟨wsG, [[Gq0], []]⟩ 0 0 = some ⟨wsG, [[Gq0, Gq1], [Gq2]]⟩ := by
  have posG0p0 : EarleyAlgorithm.predict grammarGammaNull Gq0 ⟨wsG, [[Gq0], []]⟩ = ⟨wsG, [[Gq0, Gq1], []]⟩ := by
    show List.foldl (predictStep Gq0) ⟨wsG, [[Gq0], []]⟩ [ruleG0, ruleG1, ruleG2] = ⟨wsG, [[Gq0, Gq1], []]⟩
    calc List.foldl (predictStep Gq0) ⟨wsG, [[Gq0], []]⟩ [ruleG0, ruleG1, ruleG2] = List.foldl (predictStep Gq0) ⟨wsG, [[Gq0, Gq1], []]⟩ [ruleG1, ruleG2] := rfl
      _ = List.foldl (predictStep Gq0) ⟨wsG, [[Gq0, Gq1], []]⟩ [ruleG2] := rfl
      _ = ⟨wsG, [[Gq0, Gq1], []]⟩ := rfl
  have posG0s0 : EarleyAlgorithm.scan grammarGammaNull Gq0 ⟨wsG, [[Gq0, Gq1], []]⟩ = ⟨wsG, [[Gq0, Gq1], []]⟩ := by
    show List.foldl (scanStep Gq0) ⟨wsG, [[Gq0, Gq1], []]⟩ [ruleG0, ruleG1, ruleG2] = ⟨wsG, [[Gq0, Gq1], []]⟩
    calc List.foldl (scanStep Gq0) ⟨wsG, [[Gq0, Gq1], []]⟩ [ruleG0, ruleG1, ruleG2] = List.foldl (scanStep Gq0) ⟨wsG, [[Gq0, Gq1], []]⟩ [ruleG1, ruleG2] := rfl
      _ = List.foldl (scanStep Gq0) ⟨wsG, [[Gq0, Gq1], []]⟩ [ruleG2] := rfl
      _ = ⟨wsG, [[Gq0, Gq1], []]⟩ := rfl
  have posG0h0 : processState grammarGammaNull 199 ⟨wsG, [[Gq0], []]⟩ Gq0 = some ⟨wsG, [[Gq0, Gq1], []]⟩ := by
    show some (EarleyAlgorithm.scan grammarGammaNull Gq0 (EarleyAlgorithm.predict grammarGammaNull Gq0 ⟨wsG, [[Gq0], []]⟩)) = some ⟨wsG, [[Gq0, Gq1], []]⟩
    rw [posG0p0, posG0s0]
  have posG0p1 : EarleyAlgorithm.predict grammarGammaNull Gq1 ⟨wsG, [[Gq0, Gq1], []]⟩ = ⟨wsG, [[Gq0, Gq1], []]⟩ := by
    show List.foldl (predictStep Gq1) ⟨wsG, [[Gq0, Gq1], []]⟩ [ruleG0, ruleG1, ruleG2] = ⟨wsG, [[Gq0, Gq1], []]⟩
    calc List.foldl (predictStep Gq1) ⟨wsG, [[Gq0, Gq1], []]⟩ [ruleG0, ruleG1, ruleG2] = List.foldl (predictStep Gq1) ⟨wsG, [[Gq0, Gq1], []]⟩ [ruleG1, ruleG2] := rfl
      _ = List.foldl (predictStep Gq1) ⟨wsG, [[Gq0, Gq1], []]⟩ [ruleG2] := rfl
      _ = ⟨wsG, [[Gq0, Gq1], []]⟩ := rfl
  have posG0s1 : EarleyAlgorithm.scan grammarGammaNull Gq1 ⟨wsG, [[Gq0, Gq1], []]⟩ = ⟨wsG, [[Gq0, Gq1], [Gq2]]⟩ := by
    show List.foldl (scanStep Gq1) ⟨wsG, [[Gq0, Gq1], []]⟩ [ruleG0, ruleG1, ruleG2] = ⟨wsG, [[Gq0, Gq1], [Gq2]]⟩
    calc List.foldl (scanStep Gq1) ⟨wsG, [[Gq0, Gq1], []]⟩ [ruleG0, ruleG1, ruleG2] = List.foldl (scanStep Gq1) ⟨wsG, [[Gq0, Gq1], []]⟩ [ruleG1, ruleG2] := rfl
      _ = List.foldl (scanStep Gq1) ⟨wsG, [[Gq0, Gq1], [Gq2]]⟩ [ruleG2] := rfl
      _ = ⟨wsG, [[Gq0, Gq1], [Gq2]]⟩ := rfl
  have posG0h1 : processState grammarGammaNull 198 ⟨wsG, [[Gq0, Gq1], []]⟩ Gq1 = some ⟨wsG, [[Gq0, Gq1], [Gq2]]⟩ := by
    show some (EarleyAlgorithm.scan grammarGammaNull Gq1 (EarleyAlgorithm.predict grammarGammaNull Gq1 ⟨wsG, [[Gq0, Gq1], []]⟩)) = some ⟨wsG, [[Gq0, Gq1], [Gq2]]⟩
    rw [posG0p1, posG0s1]
  calc agendaLoop grammarGammaNull (199 + 1) ⟨wsG, [[Gq0], []]⟩ 0 0 = agendaLoop grammarGammaNull 199 ⟨wsG, [[Gq0, Gq1], []]⟩ 0 1 := agendaLoop_succ_eq 199 (by decide) posG0h0
    _ = agendaLoop grammarGammaNull 198 ⟨wsG, [[Gq0, Gq1], [Gq2]]⟩ 0 2 := agendaLoop_succ_eq 198 (by decide) posG0h1
    _ = some ⟨wsG, [[Gq0, Gq1], [Gq2]]⟩ := agendaLoop_done (by decide)

set_option maxHeartbeats 4000000 in
theorem posG1 : agendaLoop grammarGammaNull 200 ⟨wsG, [[Gq0, Gq1], [Gq2]]⟩ 1 0 = some ⟨wsG, [[Gq0, Gq1], [Gq2, Gq3, Gq4, Gq5, Gq6]]⟩ := by
  have posG1h0 : processState grammarGammaNull 199 ⟨wsG, [[Gq0, Gq1], [Gq2]]⟩ Gq2 = some ⟨wsG, [[Gq0, Gq1], [Gq2, Gq3]]⟩ := by
    show completeLoop Gq2 199 ⟨wsG, [[Gq0, Gq1], [Gq2]]⟩ 0 = some ⟨wsG, [[Gq0, Gq1], [Gq2, Gq3]]⟩
    calc completeLoop Gq2 (198 + 1) ⟨wsG, [[Gq0, Gq1], [Gq2]]⟩ 0 = completeLoop Gq2 198 ⟨wsG, [[Gq0, Gq1], [Gq2]]⟩ 1 := completeLoop_succ_eq 198 (by decide) rfl
      _ = completeLoop Gq2 197 ⟨wsG, [[Gq0, Gq1], [Gq2, Gq3]]⟩ 2 := completeLoop_succ_eq 197 (by decide) rfl
      _ = some ⟨wsG, [[Gq0, Gq1], [Gq2, Gq3]]⟩ := completeLoop_done (by decide)
  have posG1p1 : EarleyAlgorithm.predict grammarGammaNull Gq3 ⟨wsG, [[Gq0, Gq1], [Gq2, Gq3]]⟩ = ⟨wsG, [[Gq0, Gq1], [Gq2, Gq3, Gq4]]⟩ := by
    show List.foldl (predictStep Gq3) ⟨wsG, [[Gq0, Gq1], [Gq2, Gq3]]⟩ [ruleG0, ruleG1, ruleG2] = ⟨wsG, [[Gq0, Gq1], [Gq2, Gq3, Gq4]]⟩
    calc List.foldl (predictStep Gq3) ⟨wsG, [[Gq0, Gq1], [Gq2, Gq3]]⟩ [ruleG0, ruleG1, ruleG2] = List.foldl (predictStep Gq3) ⟨wsG, [[Gq0, Gq1], [Gq2, Gq3]]⟩ [ruleG1, ruleG2] := rfl
      _ = List.foldl (predictStep Gq3) ⟨wsG, [[Gq0, Gq1], [Gq2, Gq3]]⟩ [ruleG2] := rfl
      _ = ⟨wsG, [[Gq0, Gq1], [Gq2, Gq3, Gq4]]⟩ := rfl
  have posG1s1 : EarleyAlgorithm.scan grammarGammaNull Gq3 ⟨wsG, [[Gq0, Gq1], [Gq2, Gq3, Gq4]]⟩ = ⟨wsG, [[Gq0, Gq1], [Gq2, Gq3, Gq4]]⟩ := by
    show List.foldl (scanStep Gq3) ⟨wsG, [[Gq0, Gq1], [Gq2, Gq3, Gq4]]⟩ [ruleG0, ruleG1, ruleG2] = ⟨wsG, [[Gq0, Gq1], [Gq2, Gq3, Gq4]]⟩
    calc List.foldl (scanStep Gq3) ⟨wsG, [[Gq0, Gq1], [Gq2, Gq3, Gq4]]⟩ [ruleG0, ruleG1, ruleG2] = List.foldl (scanStep Gq3) ⟨wsG, [[Gq0, Gq1], [Gq2, Gq3, Gq4]]⟩ [ruleG1, ruleG2] := rfl
      _ = List.foldl (scanStep Gq3) ⟨wsG, [[Gq0, Gq1], [Gq2, Gq3, Gq4]]⟩ [ruleG2] := rfl
      _ = ⟨wsG, [[Gq0, Gq1], [Gq2, Gq3, Gq4]]⟩ := rfl
  have posG1h1 : processState grammarGammaNull 198 ⟨wsG, [[Gq0, Gq1], [Gq2, Gq3]]⟩ Gq3 = some ⟨wsG, [[Gq0, Gq1], [Gq2, Gq3, Gq4]]⟩ := by
    show some (EarleyAlgorithm.scan grammarGammaNull Gq3 (EarleyAlgorithm.predict grammarGammaNull Gq3 ⟨wsG, [[Gq0, Gq1], [Gq2, Gq3]]⟩)) = some ⟨wsG, [[Gq0, Gq1], [Gq2, Gq3, Gq4]]⟩
    rw [posG1p1, posG1s1]
  have posG1h2 : processState grammarGammaNull 197 ⟨wsG, [[Gq0, Gq1], [Gq2, Gq3, Gq4]]⟩ Gq4 = some ⟨wsG, [[Gq0, Gq1], [Gq2, Gq3, Gq4, Gq5]]⟩ := by
    show completeLoop Gq4 197 ⟨wsG, [[Gq0, Gq1], [Gq2, Gq3, Gq4]]⟩ 0 = some ⟨wsG, [[Gq0, Gq1], [Gq2, Gq3, Gq4, Gq5]]⟩
    calc completeLoop Gq4 (196 + 1) ⟨wsG, [[Gq0, Gq1], [Gq2, Gq3, Gq4]]⟩ 0 = completeLoop Gq4 196 ⟨wsG, [[Gq0, Gq1], [Gq2, Gq3, Gq4]]⟩ 1 := completeLoop_succ_eq 196 (by decide) rfl
      _ = completeLoop Gq4 195 ⟨wsG, [[Gq0, Gq1], [Gq2, Gq3, Gq4, Gq5]]⟩ 2 := completeLoop_succ_eq 195 (by decide) rfl
      _ = completeLoop Gq4 194 ⟨wsG, [[Gq0, Gq1], [Gq2, Gq3, Gq4, Gq5]]⟩ 3 := completeLoop_succ_eq 194 (by decide) rfl
      _ = completeLoop Gq4 193 ⟨wsG, [[Gq0, Gq1], [Gq2, Gq3, Gq4, Gq5]]⟩ 4 := completeLoop_succ_eq 193 (by decide) rfl
      _ = some ⟨wsG, [[Gq0, Gq1], [Gq2, Gq3, Gq4, Gq5]]⟩ := completeLoop_done (by decide)
  have posG1h3 : processState grammarGammaNull 196 ⟨wsG, [[Gq0, Gq1], [Gq2, Gq3, Gq4, Gq5]]⟩ Gq5 = some ⟨wsG, [[Gq0, Gq1], [Gq2, Gq3, Gq4, Gq5, Gq6]]⟩ := by
    show completeLoop Gq5 196 ⟨wsG, [[Gq0, Gq1], [Gq2, Gq3, Gq4, Gq5]]⟩ 0 = some ⟨wsG, [[Gq0, Gq1], [Gq2, Gq3, Gq4, Gq5, Gq6]]⟩
    calc completeLoop Gq5 (195 + 1) ⟨wsG, [[Gq0, Gq1], [Gq2, Gq3, Gq4, Gq5]]⟩ 0 = completeLoop Gq5 195 ⟨wsG, [[Gq0, Gq1], [Gq2, Gq3, Gq4, Gq5, Gq6]]⟩ 1 := completeLoop_succ_eq 195 (by decide) rfl
      _ = completeLoop Gq5 194 ⟨wsG, [[Gq0, Gq1], [Gq2, Gq3, Gq4, Gq5, Gq6]]⟩ 2 := completeLoop_succ_eq 194 (by decide) rfl
      _ = some ⟨wsG, [[Gq0, Gq1], [Gq2, Gq3, Gq4, Gq5, Gq6]]⟩ := completeLoop_done (by decide)
  have posG1h4 : processState grammarGammaNull 195 ⟨wsG, [[Gq0, Gq1], [Gq2, Gq3, Gq4, Gq5, Gq6]]⟩ Gq6 = some ⟨wsG, [[Gq0, Gq1], [Gq2, Gq3, Gq4, Gq5, Gq6]]⟩ := by
    show completeLoop Gq6 195 ⟨wsG, [[Gq0, Gq1], [Gq2, Gq3, Gq4, Gq5, Gq6]]⟩ 0 = some ⟨wsG, [[Gq0, Gq1], [Gq2, Gq3, Gq4, Gq5, Gq6]]⟩
    calc completeLoop Gq6 (194 + 1) ⟨wsG, [[Gq0, Gq1], [Gq2, Gq3, Gq4, Gq5, Gq6]]⟩ 0 = completeLoop Gq6 194 ⟨wsG, [[Gq0, Gq1], [Gq2, Gq3, Gq4, Gq5, Gq6]]⟩ 1 := completeLoop_succ_eq 194 (by decide) rfl
      _ = completeLoop Gq6 193 ⟨wsG, [[Gq0, Gq1], [Gq2, Gq3, Gq4, Gq5, Gq6]]⟩ 2 := completeLoop_succ_eq 193 (by decide) rfl
      _ = some ⟨wsG, [[Gq0, Gq1], [Gq2, Gq3, Gq4, Gq5, Gq6]]⟩ := completeLoop_done (by decide)
  calc agendaLoop grammarGammaNull (199 + 1) ⟨wsG, [[Gq0, Gq1], [Gq2]]⟩ 1 0 = agendaLoop grammarGammaNull 199 ⟨wsG, [[Gq0, Gq1], [Gq2, Gq3]]⟩ 1 1 := agendaLoop_succ_eq 199 (by decide) posG1h0
    _ = agendaLoop grammarGammaNull 198 ⟨wsG, [[Gq0, Gq1], [Gq2, Gq3, Gq4]]⟩ 1 2 := agendaLoop_succ_eq 198 (by decide) posG1h1
    _ = agendaLoop grammarGammaNull 197 ⟨wsG, [[Gq0, Gq1], [Gq2, Gq3, Gq4, Gq5]]⟩ 1 3 := agendaLoop_succ_eq 197 (by decide) posG1h2
    _ = agendaLoop grammarGammaNull 196 ⟨wsG, [[Gq0, Gq1], [Gq2, Gq3, Gq4, Gq5, Gq6]]⟩ 1 4 := agendaLoop_succ_eq 196 (by decide) posG1h3
    _ = agendaLoop grammarGammaNull 195 ⟨wsG, [[Gq0, Gq1], [Gq2, Gq3, Gq4, Gq5, Gq6]]⟩ 1 5 := agendaLoop_succ_eq 195 (by decide) posG1h4
    _ = some ⟨wsG, [[Gq0, Gq1], [Gq2, Gq3, Gq4, Gq5, Gq6]]⟩ := agendaLoop_done (by decide)

set_option maxHeartbeats 4000000 in
theorem chartG : parseChart grammarGammaNull 200 wsG = some ⟨wsG, [[Gq0, Gq1], [Gq2, Gq3, Gq4, Gq5, Gq6]]⟩ := by
  show posLoop grammarGammaNull 200 [0, 1] ⟨wsG, [[Gq0], []]⟩ = some ⟨wsG, [[Gq0, Gq1], [Gq2, Gq3, Gq4, Gq5, Gq6]]⟩
  exact posLoop_cons_eq posG0 (posLoop_cons_eq posG1 (posLoop_nil))

set_option maxHeartbeats 4000000 in
theorem parseRunG : parse grammarGammaNull 200 wsG = some (.error ()) := by
  rw [EarleyAlgorithm.parse, chartG]
  rfl
def wsR : List String := ["a", "x"]
def Rq0 : State := .mk ⟨"_GAMMA", ["S"], false⟩ 0 0 0 []
def Rq1 : State := .mk ⟨"S", ["A", "_GAMMA"], false⟩ 0 0 0 []
def Rq2 : State := .mk ⟨"A", ["a"], true⟩ 0 1 1 []
def Rq3 : State := .mk ⟨"S", ["A", "_GAMMA"], false⟩ 0 1 1 [Rq2]
def Rq4 : State := .mk ⟨"_GAMMA", ["X"], false⟩ 1 1 0 []
def Rq5 : State := .mk ⟨"X", ["x"], true⟩ 1 2 1 []
def Rq6 : State := .mk ⟨"_GAMMA", ["X"], false⟩ 1 2 1 [Rq5]
def Rq7 : State := .mk ⟨"S", ["A", "_GAMMA"], false⟩ 0 2 2 [Rq2, Rq6]
def Rq8 : State := .mk ⟨"_GAMMA", ["S"], false⟩ 0 2 1 [Rq7]
set_option maxHeartbeats 4000000 in
theorem posR0 : agendaLoop grammarGammaRule 200 ⟨wsR, [[Rq0], [], []]⟩ 0 0 = some ⟨wsR, [[Rq0, Rq1], [Rq2], []]⟩ := by
  have posR0p0 : EarleyAlgorithm.predict grammarGammaRule Rq0 ⟨wsR, [[Rq0], [], []]⟩ = ⟨wsR, [[Rq0, Rq1], [], []]⟩ := by
    show List.foldl (predictStep Rq0) ⟨wsR, [[Rq0], [], []]⟩ [ruleR0, ruleR1, ruleR2, ruleR3] = ⟨wsR, [[Rq0, Rq1], [], []]⟩
    calc List.foldl (predictStep Rq0) ⟨wsR, [[Rq0], [], []]⟩ [ruleR0, ruleR1, ruleR2, ruleR3] = List.foldl (predictStep Rq0) ⟨wsR, [[Rq0, Rq1], [], []]⟩ [ruleR1, ruleR2, ruleR3] := rfl
      _ = List.foldl (predictStep Rq0) ⟨wsR, [[Rq0, Rq1], [], []]⟩ [ruleR2, ruleR3] := rfl
      _ = List.foldl (predictStep Rq0) ⟨wsR, [[Rq0, Rq1], [], []]⟩ [ruleR3] := rfl
      _ = ⟨wsR, [[Rq0, Rq1], [], []]⟩ := rfl
  have posR0s0 : EarleyAlgorithm.scan grammarGammaRule Rq0 ⟨wsR, [[Rq0, Rq1], [], []]⟩ = ⟨wsR, [[Rq0, Rq1], [], []]⟩ := by
    show List.foldl (scanStep Rq0) ⟨wsR, [[Rq0, Rq1], [], []]⟩ [ruleR0, ruleR1, ruleR2, ruleR3] = ⟨wsR, [[Rq0, Rq1], [], []]⟩
    calc List.foldl (scanStep Rq0) ⟨wsR, [[Rq0, Rq1], [], []]⟩ [ruleR0, ruleR1, ruleR2, ruleR3] = List.foldl (scanStep Rq0) ⟨wsR, [[Rq0, Rq1], [], []]⟩ [ruleR1, ruleR2, ruleR3] := rfl
      _ = List.foldl (scanStep Rq0) ⟨wsR, [[Rq0, Rq1], [], []]⟩ [ruleR2, ruleR3] := rfl
      _ = List.foldl (scanStep Rq0) ⟨wsR, [[Rq0, Rq1], [], []]⟩ [ruleR3] := rfl
      _ = ⟨wsR, [[Rq0, Rq1], [], []]⟩ := rfl
  have posR0h0 : processState grammarGammaRule 199 ⟨wsR, [[Rq0], [], []]⟩ Rq0 = some ⟨wsR, [[Rq0, Rq1], [], []]⟩ := by
    show some (EarleyAlgorithm.scan grammarGammaRule Rq0 (EarleyAlgorithm.predict grammarGammaRule Rq0 ⟨wsR, [[Rq0], [], []]⟩)) = some ⟨wsR, [[Rq0, Rq1], [], []]⟩
    rw [posR0p0, posR0s0]
  have posR0p1 : EarleyAlgorithm.predict grammarGammaRule Rq1 ⟨wsR, [[Rq0, Rq1], [], []]⟩ = ⟨wsR, [[Rq0, Rq1], [], []]⟩ := by
    show List.foldl (predictStep Rq1) ⟨wsR, [[Rq0, Rq1], [], []]⟩ [ruleR0, ruleR1, ruleR2, ruleR3] = ⟨wsR, [[Rq0, Rq1], [], []]⟩
    calc List.foldl (predictStep Rq1) ⟨wsR, [[Rq0, Rq1], [], []]⟩ [ruleR0, ruleR1, ruleR2, ruleR3] = List.foldl (predictStep Rq1) ⟨wsR, [[Rq0, Rq1], [], []]⟩ [ruleR1, ruleR2, ruleR3] := rfl
      _ = List.foldl (predictStep Rq1) ⟨wsR, [[Rq0, Rq1], [], []]⟩ [ruleR2, ruleR3] := rfl
      _ = List.foldl (predictStep Rq1) ⟨wsR, [[Rq0, Rq1], [], []]⟩ [ruleR3] := rfl
      _ = ⟨wsR, [[Rq0, Rq1], [], []]⟩ := rfl
  have posR0s1 : EarleyAlgorithm.scan grammarGammaRule Rq1 ⟨wsR, [[Rq0, Rq1], [], []]⟩ = ⟨wsR, [[Rq0, Rq1], [Rq2], []]⟩ := by
    show List.foldl (scanStep Rq1) ⟨wsR, [[Rq0, Rq1], [], []]⟩ [ruleR0, ruleR1, ruleR2, ruleR3] = ⟨wsR, [[Rq0, Rq1], [Rq2], []]⟩
    calc List.foldl (scanStep Rq1) ⟨wsR, [[Rq0, Rq1], [], []]⟩ [ruleR0, ruleR1, ruleR2, ruleR3] = List.foldl (scanStep Rq1) ⟨wsR, [[Rq0, Rq1], [], []]⟩ [ruleR1, ruleR2, ruleR3] := rfl
      _ = List.foldl (scanStep Rq1) ⟨wsR, [[Rq0, Rq1], [Rq2], []]⟩ [ruleR2, ruleR3] := rfl
      _ = List.foldl (scanStep Rq1) ⟨wsR, [[Rq0, Rq1], [Rq2], []]⟩ [ruleR3] := rfl
      _ = ⟨wsR, [[Rq0, Rq1], [Rq2], []]⟩ := rfl
  have posR0h1 : processState grammarGammaRule 198 ⟨wsR, [[Rq0, Rq1], [], []]⟩ Rq1 = some ⟨wsR, [[Rq0, Rq1], [Rq2], []]⟩ := by
    show some (EarleyAlgorithm.scan grammarGammaRule Rq1 (EarleyAlgorithm.predict grammarGammaRule Rq1 ⟨wsR, [[Rq0, Rq1], [], []]⟩)) = some ⟨wsR, [[Rq0, Rq1], [Rq2], []]⟩
    rw [posR0p1, posR0s1]
  calc agendaLoop grammarGammaRule (199 + 1) ⟨wsR, [[Rq0], [], []]⟩ 0 0 = agendaLoop grammarGammaRule 199 ⟨wsR, [[Rq0, Rq1], [], []]⟩ 0 1 := agendaLoop_succ_eq 199 (by decide) posR0h0
    _ = agendaLoop grammarGammaRule 198 ⟨wsR, [[Rq0, Rq1], [Rq2], []]⟩ 0 2 := agendaLoop_succ_eq 198 (by decide) posR0h1
    _ = some ⟨wsR, [[Rq0, Rq1], [Rq2], []]⟩ := agendaLoop_done (by decide)

set_option maxHeartbeats 4000000 in
theorem posR1 : agendaLoop grammarGammaRule 200 ⟨wsR, [[Rq0, Rq1], [Rq2], []]⟩ 1 0 = some ⟨wsR, [[Rq0, Rq1], [Rq2, Rq3, Rq4], [Rq5]]⟩ := by
  have posR1h0 : processState grammarGammaRule 199 ⟨wsR, [[Rq0, Rq1], [Rq2], []]⟩ Rq2 = some ⟨wsR, [[Rq0, Rq1], [Rq2, Rq3], []]⟩ := by
    show completeLoop Rq2 199 ⟨wsR, [[Rq0, Rq1], [Rq2], []]⟩ 0 = some ⟨wsR, [[Rq0, Rq1], [Rq2, Rq3], []]⟩
    calc completeLoop Rq2 (198 + 1) ⟨wsR, [[Rq0, Rq1], [Rq2], []]⟩ 0 = completeLoop Rq2 198 ⟨wsR, [[Rq0, Rq1], [Rq2], []]⟩ 1 := completeLoop_succ_eq 198 (by decide) rfl
      _ = completeLoop Rq2 197 ⟨wsR, [[Rq0, Rq1], [Rq2, Rq3], []]⟩ 2 := completeLoop_succ_eq 197 (by decide) rfl
      _ = some ⟨wsR, [[Rq0, Rq1], [Rq2, Rq3], []]⟩ := completeLoop_done (by decide)
  have posR1p1 : EarleyAlgorithm.predict grammarGammaRule Rq3 ⟨wsR, [[Rq0, Rq1], [Rq2, Rq3], []]⟩ = ⟨wsR, [[Rq0, Rq1], [Rq2, Rq3, Rq4], []]⟩ := by
    show List.foldl (predictStep Rq3) ⟨wsR, [[Rq0, Rq1], [Rq2, Rq3], []]⟩ [ruleR0, ruleR1, ruleR2, ruleR3] = ⟨wsR, [[Rq0, Rq1], [Rq2, Rq3, Rq4], []]⟩
    calc List.foldl (predictStep Rq3) ⟨wsR, [[Rq0, Rq1], [Rq2, Rq3], []]⟩ [ruleR0, ruleR1, ruleR2, ruleR3] = List.foldl (predictStep Rq3) ⟨wsR, [[Rq0, Rq1], [Rq2, Rq3], []]⟩ [ruleR1, ruleR2, ruleR3] := rfl
      _ = List.foldl (predictStep Rq3) ⟨wsR, [[Rq0, Rq1], [Rq2, Rq3], []]⟩ [ruleR2, ruleR3] := rfl
      _ = List.foldl (predictStep Rq3) ⟨wsR, [[Rq0, Rq1], [Rq2, Rq3, Rq4], []]⟩ [ruleR3] := rfl
      _ = ⟨wsR, [[Rq0, Rq1], [Rq2, Rq3, Rq4], []]⟩ := rfl
  have posR1s1 : EarleyAlgorithm.scan grammarGammaRule Rq3 ⟨wsR, [[Rq0, Rq1], [Rq2, Rq3, Rq4], []]⟩ = ⟨wsR, [[Rq0, Rq1], [Rq2, Rq3, Rq4], []]⟩ := by
    show List.foldl (scanStep Rq3) ⟨wsR, [[Rq0, Rq1], [Rq2, Rq3, Rq4], []]⟩ [ruleR0, ruleR1, ruleR2, ruleR3] = ⟨wsR, [[Rq0, Rq1], [Rq2, Rq3, Rq4], []]⟩
    calc List.foldl (scanStep Rq3) ⟨wsR, [[Rq0, Rq1], [Rq2, Rq3, Rq4], []]⟩ [ruleR0, ruleR1, ruleR2, ruleR3] = List.foldl (scanStep Rq3) ⟨wsR, [[Rq0, Rq1], [Rq2, Rq3, Rq4], []]⟩ [ruleR1, ruleR2, ruleR3] := rfl
      _ = List.foldl (scanStep Rq3) ⟨wsR, [[Rq0, Rq1], [Rq2, Rq3, Rq4], []]⟩ [ruleR2, ruleR3] := rfl
      _ = List.foldl (scanStep Rq3) ⟨wsR, [[Rq0, Rq1], [Rq2, Rq3, Rq4], []]⟩ [ruleR3] := rfl
      _ = ⟨wsR, [[Rq0, Rq1], [Rq2, Rq3, Rq4], []]⟩ := rfl
  have posR1h1 : processState grammarGammaRule 198 ⟨wsR, [[Rq0, Rq1], [Rq2, Rq3], []]⟩ Rq3 = some ⟨wsR, [[Rq0, Rq1], [Rq2, Rq3, Rq4], []]⟩ := by
    show some (EarleyAlgorithm.scan grammarGammaRule Rq3 (EarleyAlgorithm.predict grammarGammaRule Rq3 ⟨wsR, [[Rq0, Rq1], [Rq2, Rq3], []]⟩)) = some ⟨wsR, [[Rq0, Rq1], [Rq2, Rq3, Rq4], []]⟩
    rw [posR1p1, posR1s1]
  have posR1p2 : EarleyAlgorithm.predict grammarGammaRule Rq4 ⟨wsR, [[Rq0, Rq1], [Rq2, Rq3, Rq4], []]⟩ = ⟨wsR, [[Rq0, Rq1], [Rq2, Rq3, Rq4], []]⟩ := by
    show List.foldl (predictStep Rq4) ⟨wsR, [[Rq0, Rq1], [Rq2, Rq3, Rq4], []]⟩ [ruleR0, ruleR1, ruleR2, ruleR3] = ⟨wsR, [[Rq0, Rq1], [Rq2, Rq3, Rq4], []]⟩
    calc List.foldl (predictStep Rq4) ⟨wsR, [[Rq0, Rq1], [Rq2, Rq3, Rq4], []]⟩ [ruleR0, ruleR1, ruleR2, ruleR3] = List.foldl (predictStep Rq4) ⟨wsR, [[Rq0, Rq1], [Rq2, Rq3, Rq4], []]⟩ [ruleR1, ruleR2, ruleR3] := rfl
      _ = List.foldl (predictStep Rq4) ⟨wsR, [[Rq0, Rq1], [Rq2, Rq3, Rq4], []]⟩ [ruleR2, ruleR3] := rfl
      _ = List.foldl (predictStep Rq4) ⟨wsR, [[Rq0, Rq1], [Rq2, Rq3, Rq4], []]⟩ [ruleR3] := rfl
      _ = ⟨wsR, [[Rq0, Rq1], [Rq2, Rq3, Rq4], []]⟩ := rfl
  have posR1s2 : EarleyAlgorithm.scan grammarGammaRule Rq4 ⟨wsR, [[Rq0, Rq1], [Rq2, Rq3, Rq4], []]⟩ = ⟨wsR, [[Rq0, Rq1], [Rq2, Rq3, Rq4], [Rq5]]⟩ := by
    show List.foldl (scanStep Rq4) ⟨wsR, [[Rq0, Rq1], [Rq2, Rq3, Rq4], []]⟩ [ruleR0, ruleR1, ruleR2, ruleR3] = ⟨wsR, [[Rq0, Rq1], [Rq2, Rq3, Rq4], [Rq5]]⟩
    calc List.foldl (scanStep Rq4) ⟨wsR, [[Rq0, Rq1], [Rq2, Rq3, Rq4], []]⟩ [ruleR0, ruleR1, ruleR2, ruleR3] = List.foldl (scanStep Rq4) ⟨wsR, [[Rq0, Rq1], [Rq2, Rq3, Rq4], []]⟩ [ruleR1, ruleR2, ruleR3] := rfl
      _ = List.foldl (scanStep Rq4) ⟨wsR, [[Rq0, Rq1], [Rq2, Rq3, Rq4], []]⟩ [ruleR2, ruleR3] := rfl
      _ = List.foldl (scanStep Rq4) ⟨wsR, [[Rq0, Rq1], [Rq2, Rq3, Rq4], []]⟩ [ruleR3] := rfl
      _ = ⟨wsR, [[Rq0, Rq1], [Rq2, Rq3, Rq4], [Rq5]]⟩ := rfl
  have posR1h2 : processState grammarGammaRule 197 ⟨wsR, [[Rq0, Rq1], [Rq2, Rq3, Rq4], []]⟩ Rq4 = some ⟨wsR, [[Rq0, Rq1], [Rq2, Rq3, Rq4], [Rq5]]⟩ := by
    show some (EarleyAlgorithm.scan grammarGammaRule Rq4 (EarleyAlgorithm.predict grammarGammaRule Rq4 ⟨wsR, [[Rq0, Rq1], [Rq2, Rq3, Rq4], []]⟩)) = some ⟨wsR, [[Rq0, Rq1], [Rq2, Rq3, Rq4], [Rq5]]⟩
    rw [posR1p2, posR1s2]
  calc agendaLoop grammarGammaRule (199 + 1) ⟨wsR, [[Rq0, Rq1], [Rq2], []]⟩ 1 0 = agendaLoop grammarGammaRule 199 ⟨wsR, [[Rq0, Rq1], [Rq2, Rq3], []]⟩ 1 1 := agendaLoop_succ_eq 199 (by decide) posR1h0
    _ = agendaLoop grammarGammaRule 198 ⟨wsR, [[Rq0, Rq1], [Rq2, Rq3, Rq4], []]⟩ 1 2 := agendaLoop_succ_eq 198 (by decide) posR1h1
    _ = agendaLoop grammarGammaRule 197 ⟨wsR, [[Rq0, Rq1], [Rq2, Rq3, Rq4], [Rq5]]⟩ 1 3 := agendaLoop_succ_eq 197 (by decide) posR1h2
    _ = some ⟨wsR, [[Rq0, Rq1], [Rq2, Rq3, Rq4], [Rq5]]⟩ := agendaLoop_done (by decide)

set_option maxHeartbeats 4000000 in
theorem posR2 : agendaLoop grammarGammaRule 200 ⟨wsR, [[Rq0, Rq1], [Rq2, Rq3, Rq4], [Rq5]]⟩ 2 0 = some ⟨wsR, [[Rq0, Rq1], [Rq2, Rq3, Rq4], [Rq5, Rq6, Rq7, Rq8]]⟩ := by
  have posR2h0 : processState grammarGammaRule 199 ⟨wsR, [[Rq0, Rq1], [Rq2, Rq3, Rq4], [Rq5]]⟩ Rq5 = some ⟨wsR, [[Rq0, Rq1], [Rq2, Rq3, Rq4], [Rq5, Rq6]]⟩ := by
    show completeLoop Rq5 199 ⟨wsR, [[Rq0, Rq1], [Rq2, Rq3, Rq4], [Rq5]]⟩ 0 = some ⟨wsR, [[Rq0, Rq1], [Rq2, Rq3, Rq4], [Rq5, Rq6]]⟩
    calc completeLoop Rq5 (198 + 1) ⟨wsR, [[Rq0, Rq1], [Rq2, Rq3, Rq4], [Rq5]]⟩ 0 = completeLoop Rq5 198 ⟨wsR, [[Rq0, Rq1], [Rq2, Rq3, Rq4], [Rq5]]⟩ 1 := completeLoop_succ_eq 198 (by decide) rfl
      _ = completeLoop Rq5 197 ⟨wsR, [[Rq0, Rq1], [Rq2, Rq3, Rq4], [Rq5]]⟩ 2 := completeLoop_succ_eq 197 (by decide) rfl
      _ = completeLoop Rq5 196 ⟨wsR, [[Rq0, Rq1], [Rq2, Rq3, Rq4], [Rq5, Rq6]]⟩ 3 := completeLoop_succ_eq 196 (by decide) rfl
      _ = some ⟨wsR, [[Rq0, Rq1], [Rq2, Rq3, Rq4], [Rq5, Rq6]]⟩ := completeLoop_done (by decide)
  have posR2h1 : processState grammarGammaRule 198 ⟨wsR, [[Rq0, Rq1], [Rq2, Rq3, Rq4], [Rq5, Rq6]]⟩ Rq6 = some ⟨wsR, [[Rq0, Rq1], [Rq2, Rq3, Rq4], [Rq5, Rq6, Rq7]]⟩ := by
    show completeLoop Rq6 198 ⟨wsR, [[Rq0, Rq1], [Rq2, Rq3, Rq4], [Rq5, Rq6]]⟩ 0 = some ⟨wsR, [[Rq0, Rq1], [Rq2, Rq3, Rq4], [Rq5, Rq6, Rq7]]⟩
    calc completeLoop Rq6 (197 + 1) ⟨wsR, [[Rq0, Rq1], [Rq2, Rq3, Rq4], [Rq5, Rq6]]⟩ 0 = completeLoop Rq6 197 ⟨wsR, [[Rq0, Rq1], [Rq2, Rq3, Rq4], [Rq5, Rq6]]⟩ 1 := completeLoop_succ_eq 197 (by decide) rfl
      _ = completeLoop Rq6 196 ⟨wsR, [[Rq0, Rq1], [Rq2, Rq3, Rq4], [Rq5, Rq6, Rq7]]⟩ 2 := completeLoop_succ_eq 196 (by decide) rfl
      _ = completeLoop Rq6 195 ⟨wsR, [[Rq0, Rq1], [Rq2, Rq3, Rq4], [Rq5, Rq6, Rq7]]⟩ 3 := completeLoop_succ_eq 195 (by decide) rfl
      _ = some ⟨wsR, [[Rq0, Rq1], [Rq2, Rq3, Rq4], [Rq5, Rq6, Rq7]]⟩ := completeLoop_done (by decide)
  have posR2h2 : processState grammarGammaRule 197 ⟨wsR, [[Rq0, Rq1], [Rq2, Rq3, Rq4], [Rq5, Rq6, Rq7]]⟩ Rq7 = some ⟨wsR, [[Rq0, Rq1], [Rq2, Rq3, Rq4], [Rq5, Rq6, Rq7, Rq8]]⟩ := by
    show completeLoop Rq7 197 ⟨wsR, [[Rq0, Rq1], [Rq2, Rq3, Rq4], [Rq5, Rq6, Rq7]]⟩ 0 = some ⟨wsR, [[Rq0, Rq1], [Rq2, Rq3, Rq4], [Rq5, Rq6, Rq7, Rq8]]⟩
    calc completeLoop Rq7 (196 + 1) ⟨wsR, [[Rq0, Rq1], [Rq2, Rq3, Rq4], [Rq5, Rq6, Rq7]]⟩ 0 = completeLoop Rq7 196 ⟨wsR, [[Rq0, Rq1], [Rq2, Rq3, Rq4], [Rq5, Rq6, Rq7, Rq8]]⟩ 1 := completeLoop_succ_eq 196 (by decide) rfl
      _ = completeLoop Rq7 195 ⟨wsR, [[Rq0, Rq1], [Rq2, Rq3, Rq4], [Rq5, Rq6, Rq7, Rq8]]⟩ 2 := completeLoop_succ_eq 195 (by decide) rfl
      _ = some ⟨wsR, [[Rq0, Rq1], [Rq2, Rq3, Rq4], [Rq5, Rq6, Rq7, Rq8]]⟩ := completeLoop_done (by decide)
  have posR2h3 : processState grammarGammaRule 196 ⟨wsR, [[Rq0, Rq1], [Rq2, Rq3, Rq4], [Rq5, Rq6, Rq7, Rq8]]⟩ Rq8 = some ⟨wsR, [[Rq0, Rq1], [Rq2, Rq3, Rq4], [Rq5, Rq6, Rq7, Rq8]]⟩ := by
    show completeLoop Rq8 196 ⟨wsR, [[Rq0, Rq1], [Rq2, Rq3, Rq4], [Rq5, Rq6, Rq7, Rq8]]⟩ 0 = some ⟨wsR, [[Rq0, Rq1], [Rq2, Rq3, Rq4], [Rq5, Rq6, Rq7, Rq8]]⟩
    calc completeLoop Rq8 (195 + 1) ⟨wsR, [[Rq0, Rq1], [Rq2, Rq3, Rq4], [Rq5, Rq6, Rq7, Rq8]]⟩ 0 = completeLoop Rq8 195 ⟨wsR, [[Rq0, Rq1], [Rq2, Rq3, Rq4], [Rq5, Rq6, Rq7, Rq8]]⟩ 1 := completeLoop_succ_eq 195 (by decide) rfl
      _ = completeLoop Rq8 194 ⟨wsR, [[Rq0, Rq1], [Rq2, Rq3, Rq4], [Rq5, Rq6, Rq7, Rq8]]⟩ 2 := completeLoop_succ_eq 194 (by decide) rfl
      _ = some ⟨wsR, [[Rq0, Rq1], [Rq2, Rq3, Rq4], [Rq5, Rq6, Rq7, Rq8]]⟩ := completeLoop_done (by decide)
  calc agendaLoop grammarGammaRule (199 + 1) ⟨wsR, [[Rq0, Rq1], [Rq2, Rq3, Rq4], [Rq5]]⟩ 2 0 = agendaLoop grammarGammaRule 199 ⟨wsR, [[Rq0, Rq1], [Rq2, Rq3, Rq4], [Rq5, Rq6]]⟩ 2 1 := agendaLoop_succ_eq 199 (by decide) posR2h0
    _ = agendaLoop grammarGammaRule 198 ⟨wsR, [[Rq0, Rq1], [Rq2, Rq3, Rq4], [Rq5, Rq6, Rq7]]⟩ 2 2 := agendaLoop_succ_eq 198 (by decide) posR2h1
    _ = agendaLoop grammarGammaRule 197 ⟨wsR, [[Rq0, Rq1], [Rq2, Rq3, Rq4], [Rq5, Rq6, Rq7, Rq8]]⟩ 2 3 := agendaLoop_succ_eq 197 (by decide) posR2h2
    _ = agendaLoop grammarGammaRule 196 ⟨wsR, [[Rq0, Rq1], [Rq2, Rq3, Rq4], [Rq5, Rq6, Rq7, Rq8]]⟩ 2 4 := agendaLoop_succ_eq 196 (by decide) posR2h3
    _ = some ⟨wsR, [[Rq0, Rq1], [Rq2, Rq3, Rq4], [Rq5, Rq6, Rq7, Rq8]]⟩ := agendaLoop_done (by decide)

set_option maxHeartbeats 4000000 in
theorem chartR : parseChart grammarGammaRule 200 wsR = some ⟨wsR, [[Rq0, Rq1], [Rq2, Rq3, Rq4], [Rq5, Rq6, Rq7, Rq8]]⟩ := by
  show posLoop grammarGammaRule 200 [0, 1, 2] ⟨wsR, [[Rq0], [], []]⟩ = some ⟨wsR, [[Rq0, Rq1], [Rq2, Rq3, Rq4], [Rq5, Rq6, Rq7, Rq8]]⟩
  exact posLoop_cons_eq posR0 (posLoop_cons_eq posR1 (posLoop_cons_eq posR2 (posLoop_nil)))

set_option maxHeartbeats 4000000 in
theorem parseRunR : parse grammarGammaRule 200 wsR = some (.ok [.node "X" [.str "x"], .node "S" [.node "A" [.str "a"], .node "_GAMMA" [.node "X" [.str "x"]]]]) := by
  rw [EarleyAlgorithm.parse, chartR]
  rfl
def wsD : List String := ["a", "b"]
def Dq0 : State := .mk ⟨"_GAMMA", ["S"], false⟩ 0 0 0 []
def Dq1 : State := .mk ⟨"S", ["A", ""], false⟩ 0 0 0 []
def Dq2 : State := .mk ⟨"A", ["a"], true⟩ 0 1 1 []
def Dq3 : State := .mk ⟨"S", ["A", ""], false⟩ 0 1 1 [Dq2]
def Dq4 : State := .mk ⟨"", ["B"], false⟩ 1 1 0 []
def Dq5 : State := .mk ⟨"B", ["b"], true⟩ 1 2 1 []
def Dq6 : State := .mk ⟨"", ["B"], false⟩ 1 2 1 [Dq5]
def Dq7 : State := .mk ⟨"A", ["a"], true⟩ 0 2 2 [Dq6]
def Dq8 : State := .mk ⟨"S", ["A", ""], false⟩ 0 2 2 [Dq2, Dq6]
def Dq9 : State := .mk ⟨"S", ["A", ""], false⟩ 0 2 1 [Dq7]
def Dq10 : State := .mk ⟨"_GAMMA", ["S"], false⟩ 0 2 1 [Dq8]
def Dq11 : State := .mk ⟨"", ["B"], false⟩ 2 2 0 []
set_option maxHeartbeats 4000000 in
theorem posD0 : agendaLoop grammarEmptyLhs 200 ⟨wsD, [[Dq0], [], []]⟩ 0 0 = some ⟨wsD, [[Dq0, Dq1], [Dq2], []]⟩ := by
  have posD0p0 : EarleyAlgorithm.predict grammarEmptyLhs Dq0 ⟨wsD, [[Dq0], [], []]⟩ = ⟨wsD, [[Dq0, Dq1], [], []]⟩ := by
    show List.foldl (predictStep Dq0) ⟨wsD, [[Dq0], [], []]⟩ [ruleD0, ruleD1, ruleD2, ruleD3] = ⟨wsD, [[Dq0, Dq1], [], []]⟩
    calc List.foldl (predictStep Dq0) ⟨wsD, [[Dq0], [], []]⟩ [ruleD0, ruleD1, ruleD2, ruleD3] = List.foldl (predictStep Dq0) ⟨wsD, [[Dq0, Dq1], [], []]⟩ [ruleD1, ruleD2, ruleD3] := rfl
      _ = List.foldl (predictStep Dq0) ⟨wsD, [[Dq0, Dq1], [], []]⟩ [ruleD2, ruleD3] := rfl
      _ = List.foldl (predictStep Dq0) ⟨wsD, [[Dq0, Dq1], [], []]⟩ [ruleD3] := rfl
      _ = ⟨wsD, [[Dq0, Dq1], [], []]⟩ := rfl
  have posD0s0 : EarleyAlgorithm.scan grammarEmptyLhs Dq0 ⟨wsD, [[Dq0, Dq1], [], []]⟩ = ⟨wsD, [[Dq0, Dq1], [], []]⟩ := by
    show List.foldl (scanStep Dq0) ⟨wsD, [[Dq0, Dq1], [], []]⟩ [ruleD0, ruleD1, ruleD2, ruleD3] = ⟨wsD, [[Dq0, Dq1], [], []]⟩
    calc List.foldl (scanStep Dq0) ⟨wsD, [[Dq0, Dq1], [], []]⟩ [ruleD0, ruleD1, ruleD2, ruleD3] = List.foldl (scanStep Dq0) ⟨wsD, [[Dq0, Dq1], [], []]⟩ [ruleD1, ruleD2, ruleD3] := rfl
      _ = List.foldl (scanStep Dq0) ⟨wsD, [[Dq0, Dq1], [], []]⟩ [ruleD2, ruleD3] := rfl
      _ = List.foldl (scanStep Dq0) ⟨wsD, [[Dq0, Dq1], [], []]⟩ [ruleD3] := rfl
      _ = ⟨wsD, [[Dq0, Dq1], [], []]⟩ := rfl
  have posD0h0 : processState grammarEmptyLhs 199 ⟨wsD, [[Dq0], [], []]⟩ Dq0 = some ⟨wsD, [[Dq0, Dq1], [], []]⟩ := by
    show some (EarleyAlgorithm.scan grammarEmptyLhs Dq0 (EarleyAlgorithm.predict grammarEmptyLhs Dq0 ⟨wsD, [[Dq0], [], []]⟩)) = some ⟨wsD, [[Dq0, Dq1], [], []]⟩
    rw [posD0p0, posD0s0]
  have posD0p1 : EarleyAlgorithm.predict grammarEmptyLhs Dq1 ⟨wsD, [[Dq0, Dq1], [], []]⟩ = ⟨wsD, [[Dq0, Dq1], [], []]⟩ := by
    show List.foldl (predictStep Dq1) ⟨wsD, [[Dq0, Dq1], [], []]⟩ [ruleD0, ruleD1, ruleD2, ruleD3] = ⟨wsD, [[Dq0, Dq1], [], []]⟩
    calc List.foldl (predictStep Dq1) ⟨wsD, [[Dq0, Dq1], [], []]⟩ [ruleD0, ruleD1, ruleD2, ruleD3] = List.foldl (predictStep Dq1) ⟨wsD, [[Dq0, Dq1], [], []]⟩ [ruleD1, ruleD2, ruleD3] := rfl
      _ = List.foldl (predictStep Dq1) ⟨wsD, [[Dq0, Dq1], [], []]⟩ [ruleD2, ruleD3] := rfl
      _ = List.foldl (predictStep Dq1) ⟨wsD, [[Dq0, Dq1], [], []]⟩ [ruleD3] := rfl
      _ = ⟨wsD, [[Dq0, Dq1], [], []]⟩ := rfl
  have posD0s1 : EarleyAlgorithm.scan grammarEmptyLhs Dq1 ⟨wsD, [[Dq0, Dq1], [], []]⟩ = ⟨wsD, [[Dq0, Dq1], [Dq2], []]⟩ := by
    show List.foldl (scanStep Dq1) ⟨wsD, [[Dq0, Dq1], [], []]⟩ [ruleD0, ruleD1, ruleD2, ruleD3] = ⟨wsD, [[Dq0, Dq1], [Dq2], []]⟩
    calc List.foldl (scanStep Dq1) ⟨wsD, [[Dq0, Dq1], [], []]⟩ [ruleD0, ruleD1, ruleD2, ruleD3] = List.foldl (scanStep Dq1) ⟨wsD, [[Dq0, Dq1], [], []]⟩ [ruleD1, ruleD2, ruleD3] := rfl
      _ = List.foldl (scanStep Dq1) ⟨wsD, [[Dq0, Dq1], [Dq2], []]⟩ [ruleD2, ruleD3] := rfl
      _ = List.foldl (scanStep Dq1) ⟨wsD, [[Dq0, Dq1], [Dq2], []]⟩ [ruleD3] := rfl
      _ = ⟨wsD, [[Dq0, Dq1], [Dq2], []]⟩ := rfl
  have posD0h1 : processState grammarEmptyLhs 198 ⟨wsD, [[Dq0, Dq1], [], []]⟩ Dq1 = some ⟨wsD, [[Dq0, Dq1], [Dq2], []]⟩ := by
    show some (EarleyAlgorithm.scan grammarEmptyLhs Dq1 (EarleyAlgorithm.predict grammarEmptyLhs Dq1 ⟨wsD, [[Dq0, Dq1], [], []]⟩)) = some ⟨wsD, [[Dq0, Dq1], [Dq2], []]⟩
    rw [posD0p1, posD0s1]
  calc agendaLoop grammarEmptyLhs (199 + 1) ⟨wsD, [[Dq0], [], []]⟩ 0 0 = agendaLoop grammarEmptyLhs 199 ⟨wsD, [[Dq0, Dq1], [], []]⟩ 0 1 := agendaLoop_succ_eq 199 (by decide) posD0h0
    _ = agendaLoop grammarEmptyLhs 198 ⟨wsD, [[Dq0, Dq1], [Dq2], []]⟩ 0 2 := agendaLoop_succ_eq 198 (by decide) posD0h1
    _ = some ⟨wsD, [[Dq0, Dq1], [Dq2], []]⟩ := agendaLoop_done (by decide)

set_option maxHeartbeats 4000000 in
theorem posD1 : agendaLoop grammarEmptyLhs 200 ⟨wsD, [[Dq0, Dq1], [Dq2], []]⟩ 1 0 = some ⟨wsD, [[Dq0, Dq1], [Dq2, Dq3, Dq4], [Dq5]]⟩ := by
  have posD1h0 : processState grammarEmptyLhs 199 ⟨wsD, [[Dq0, Dq1], [Dq2], []]⟩ Dq2 = some ⟨wsD, [[Dq0, Dq1], [Dq2, Dq3], []]⟩ := by
    show completeLoop Dq2 199 ⟨wsD, [[Dq0, Dq1], [Dq2], []]⟩ 0 = some ⟨wsD, [[Dq0, Dq1], [Dq2, Dq3], []]⟩
    calc completeLoop Dq2 (198 + 1) ⟨wsD, [[Dq0, Dq1], [Dq2], []]⟩ 0 = completeLoop Dq2 198 ⟨wsD, [[Dq0, Dq1], [Dq2], []]⟩ 1 := completeLoop_succ_eq 198 (by decide) rfl
      _ = completeLoop Dq2 197 ⟨wsD, [[Dq0, Dq1], [Dq2, Dq3], []]⟩ 2 := completeLoop_succ_eq 197 (by decide) rfl
      _ = some ⟨wsD, [[Dq0, Dq1], [Dq2, Dq3], []]⟩ := completeLoop_done (by decide)
  have posD1p1 : EarleyAlgorithm.predict grammarEmptyLhs Dq3 ⟨wsD, [[Dq0, Dq1], [Dq2, Dq3], []]⟩ = ⟨wsD, [[Dq0, Dq1], [Dq2, Dq3, Dq4], []]⟩ := by
    show List.foldl (predictStep Dq3) ⟨wsD, [[Dq0, Dq1], [Dq2, Dq3], []]⟩ [ruleD0, ruleD1, ruleD2, ruleD3] = ⟨wsD, [[Dq0, Dq1], [Dq2, Dq3, Dq4], []]⟩
    calc List.foldl (predictStep Dq3) ⟨wsD, [[Dq0, Dq1], [Dq2, Dq3], []]⟩ [ruleD0, ruleD1, ruleD2, ruleD3] = List.foldl (predictStep Dq3) ⟨wsD, [[Dq0, Dq1], [Dq2, Dq3], []]⟩ [ruleD1, ruleD2, ruleD3] := rfl
      _ = List.foldl (predictStep Dq3) ⟨wsD, [[Dq0, Dq1], [Dq2, Dq3], []]⟩ [ruleD2, ruleD3] := rfl
      _ = List.foldl (predictStep Dq3) ⟨wsD, [[Dq0, Dq1], [Dq2, Dq3, Dq4], []]⟩ [ruleD3] := rfl
      _ = ⟨wsD, [[Dq0, Dq1], [Dq2, Dq3, Dq4], []]⟩ := rfl
  have posD1s1 : EarleyAlgorithm.scan grammarEmptyLhs Dq3 ⟨wsD, [[Dq0, Dq1], [Dq2, Dq3, Dq4], []]⟩ = ⟨wsD, [[Dq0, Dq1], [Dq2, Dq3, Dq4], []]⟩ := by
    show List.foldl (scanStep Dq3) ⟨wsD, [[Dq0, Dq1], [Dq2, Dq3, Dq4], []]⟩ [ruleD0, ruleD1, ruleD2, ruleD3] = ⟨wsD, [[Dq0, Dq1], [Dq2, Dq3, Dq4], []]⟩
    calc List.foldl (scanStep Dq3) ⟨wsD, [[Dq0, Dq1], [Dq2, Dq3, Dq4], []]⟩ [ruleD0, ruleD1, ruleD2, ruleD3] = List.foldl (scanStep Dq3) ⟨wsD, [[Dq0, Dq1], [Dq2, Dq3, Dq4], []]⟩ [ruleD1, ruleD2, ruleD3] := rfl
      _ = List.foldl (scanStep Dq3) ⟨wsD, [[Dq0, Dq1], [Dq2, Dq3, Dq4], []]⟩ [ruleD2, ruleD3] := rfl
      _ = List.foldl (scanStep Dq3) ⟨wsD, [[Dq0, Dq1], [Dq2, Dq3, Dq4], []]⟩ [ruleD3] := rfl
      _ = ⟨wsD, [[Dq0, Dq1], [Dq2, Dq3, Dq4], []]⟩ := rfl
  have posD1h1 : processState grammarEmptyLhs 198 ⟨wsD, [[Dq0, Dq1], [Dq2, Dq3], []]⟩ Dq3 = some ⟨wsD, [[Dq0, Dq1], [Dq2, Dq3, Dq4], []]⟩ := by
    show some (EarleyAlgorithm.scan grammarEmptyLhs Dq3 (EarleyAlgorithm.predict grammarEmptyLhs Dq3 ⟨wsD, [[Dq0, Dq1], [Dq2, Dq3], []]⟩)) = some ⟨wsD, [[Dq0, Dq1], [Dq2, Dq3, Dq4], []]⟩
    rw [posD1p1, posD1s1]
  have posD1p2 : EarleyAlgorithm.predict grammarEmptyLhs Dq4 ⟨wsD, [[Dq0, Dq1], [Dq2, Dq3, Dq4], []]⟩ = ⟨wsD, [[Dq0, Dq1], [Dq2, Dq3, Dq4], []]⟩ := by
    show List.foldl (predictStep Dq4) ⟨wsD, [[Dq0, Dq1], [Dq2, Dq3, Dq4], []]⟩ [ruleD0, ruleD1, ruleD2, ruleD3] = ⟨wsD, [[Dq0, Dq1], [Dq2, Dq3, Dq4], []]⟩
    calc List.foldl (predictStep Dq4) ⟨wsD, [[Dq0, Dq1], [Dq2, Dq3, Dq4], []]⟩ [ruleD0, ruleD1, ruleD2, ruleD3] = List.foldl (predictStep Dq4) ⟨wsD, [[Dq0, Dq1], [Dq2, Dq3, Dq4], []]⟩ [ruleD1, ruleD2, ruleD3] := rfl
      _ = List.foldl (predictStep Dq4) ⟨wsD, [[Dq0, Dq1], [Dq2, Dq3, Dq4], []]⟩ [ruleD2, ruleD3] := rfl
      _ = List.foldl (predictStep Dq4) ⟨wsD, [[Dq0, Dq1], [Dq2, Dq3, Dq4], []]⟩ [ruleD3] := rfl
      _ = ⟨wsD, [[Dq0, Dq1], [Dq2, Dq3, Dq4], []]⟩ := rfl
  have posD1s2 : EarleyAlgorithm.scan grammarEmptyLhs Dq4 ⟨wsD, [[Dq0, Dq1], [Dq2, Dq3, Dq4], []]⟩ = ⟨wsD, [[Dq0, Dq1], [Dq2, Dq3, Dq4], [Dq5]]⟩ := by
    show List.foldl (scanStep Dq4) ⟨wsD, [[Dq0, Dq1], [Dq2, Dq3, Dq4], []]⟩ [ruleD0, ruleD1, ruleD2, ruleD3] = ⟨wsD, [[Dq0, Dq1], [Dq2, Dq3, Dq4], [Dq5]]⟩
    calc List.foldl (scanStep Dq4) ⟨wsD, [[Dq0, Dq1], [Dq2, Dq3, Dq4], []]⟩ [ruleD0, ruleD1, ruleD2, ruleD3] = List.foldl (scanStep Dq4) ⟨wsD, [[Dq0, Dq1], [Dq2, Dq3, Dq4], []]⟩ [ruleD1, ruleD2, ruleD3] := rfl
      _ = List.foldl (scanStep Dq4) ⟨wsD, [[Dq0, Dq1], [Dq2, Dq3, Dq4], []]⟩ [ruleD2, ruleD3] := rfl
      _ = List.foldl (scanStep Dq4) ⟨wsD, [[Dq0, Dq1], [Dq2, Dq3, Dq4], []]⟩ [ruleD3] := rfl
      _ = ⟨wsD, [[Dq0, Dq1], [Dq2, Dq3, Dq4], [Dq5]]⟩ := rfl
  have posD1h2 : processState grammarEmptyLhs 197 ⟨wsD, [[Dq0, Dq1], [Dq2, Dq3, Dq4], []]⟩ Dq4 = some ⟨wsD, [[Dq0, Dq1], [Dq2, Dq3, Dq4], [Dq5]]⟩ := by
    show some (EarleyAlgorithm.scan grammarEmptyLhs Dq4 (EarleyAlgorithm.predict grammarEmptyLhs Dq4 ⟨wsD, [[Dq0, Dq1], [Dq2, Dq3, Dq4], []]⟩)) = some ⟨wsD, [[Dq0, Dq1], [Dq2, Dq3, Dq4], [Dq5]]⟩
    rw [posD1p2, posD1s2]
  calc agendaLoop grammarEmptyLhs (199 + 1) ⟨wsD, [[Dq0, Dq1], [Dq2], []]⟩ 1 0 = agendaLoop grammarEmptyLhs 199 ⟨wsD, [[Dq0, Dq1], [Dq2, Dq3], []]⟩ 1 1 := agendaLoop_succ_eq 199 (by decide) posD1h0
    _ = agendaLoop grammarEmptyLhs 198 ⟨wsD, [[Dq0, Dq1], [Dq2, Dq3, Dq4], []]⟩ 1 2 := agendaLoop_succ_eq 198 (by decide) posD1h1
    _ = agendaLoop grammarEmptyLhs 197 ⟨wsD, [[Dq0, Dq1], [Dq2, Dq3, Dq4], [Dq5]]⟩ 1 3 := agendaLoop_succ_eq 197 (by decide) posD1h2
    _ = some ⟨wsD, [[Dq0, Dq1], [Dq2, Dq3, Dq4], [Dq5]]⟩ := agendaLoop_done (by decide)

set_option maxHeartbeats 4000000 in
theorem posD2 : agendaLoop grammarEmptyLhs 200 ⟨wsD, [[Dq0, Dq1], [Dq2, Dq3, Dq4], [Dq5]]⟩ 2 0 = some ⟨wsD, [[Dq0, Dq1], [Dq2, Dq3, Dq4], [Dq5, Dq6, Dq7, Dq8, Dq9, Dq10, Dq11]]⟩ := by
  have posD2h0 : processState grammarEmptyLhs 199 ⟨wsD, [[Dq0, Dq1], [Dq2, Dq3, Dq4], [Dq5]]⟩ Dq5 = some ⟨wsD, [[Dq0, Dq1], [Dq2, Dq3, Dq4], [Dq5, Dq6]]⟩ := by
    show completeLoop Dq5 199 ⟨wsD, [[Dq0, Dq1], [Dq2, Dq3, Dq4], [Dq5]]⟩ 0 = some ⟨wsD, [[Dq0, Dq1], [Dq2, Dq3, Dq4], [Dq5, Dq6]]⟩
    calc completeLoop Dq5 (198 + 1) ⟨wsD, [[Dq0, Dq1], [Dq2, Dq3, Dq4], [Dq5]]⟩ 0 = completeLoop Dq5 198 ⟨wsD, [[Dq0, Dq1], [Dq2, Dq3, Dq4], [Dq5]]⟩ 1 := completeLoop_succ_eq 198 (by decide) rfl
      _ = completeLoop Dq5 197 ⟨wsD, [[Dq0, Dq1], [Dq2, Dq3, Dq4], [Dq5]]⟩ 2 := completeLoop_succ_eq 197 (by decide) rfl
      _ = completeLoop Dq5 196 ⟨wsD, [[Dq0, Dq1], [Dq2, Dq3, Dq4], [Dq5, Dq6]]⟩ 3 := completeLoop_succ_eq 196 (by decide) rfl
      _ = some ⟨wsD, [[Dq0, Dq1], [Dq2, Dq3, Dq4], [Dq5, Dq6]]⟩ := completeLoop_done (by decide)
  have posD2h1 : processState grammarEmptyLhs 198 ⟨wsD, [[Dq0, Dq1], [Dq2, Dq3, Dq4], [Dq5, Dq6]]⟩ Dq6 = some ⟨wsD, [[Dq0, Dq1], [Dq2, Dq3, Dq4], [Dq5, Dq6, Dq7, Dq8]]⟩ := by
    show completeLoop Dq6 198 ⟨wsD, [[Dq0, Dq1], [Dq2, Dq3, Dq4], [Dq5, Dq6]]⟩ 0 = some ⟨wsD, [[Dq0, Dq1], [Dq2, Dq3, Dq4], [Dq5, Dq6, Dq7, Dq8]]⟩
    calc completeLoop Dq6 (197 + 1) ⟨wsD, [[Dq0, Dq1], [Dq2, Dq3, Dq4], [Dq5, Dq6]]⟩ 0 = completeLoop Dq6 197 ⟨wsD, [[Dq0, Dq1], [Dq2, Dq3, Dq4], [Dq5, Dq6, Dq7]]⟩ 1 := completeLoop_succ_eq 197 (by decide) rfl
      _ = completeLoop Dq6 196 ⟨wsD, [[Dq0, Dq1], [Dq2, Dq3, Dq4], [Dq5, Dq6, Dq7, Dq8]]⟩ 2 := completeLoop_succ_eq 196 (by decide) rfl
      _ = completeLoop Dq6 195 ⟨wsD, [[Dq0, Dq1], [Dq2, Dq3, Dq4], [Dq5, Dq6, Dq7, Dq8]]⟩ 3 := completeLoop_succ_eq 195 (by decide) rfl
      _ = some ⟨wsD, [[Dq0, Dq1], [Dq2, Dq3, Dq4], [Dq5, Dq6, Dq7, Dq8]]⟩ := completeLoop_done (by decide)
  have posD2h2 : processState grammarEmptyLhs 197 ⟨wsD, [[Dq0, Dq1], [Dq2, Dq3, Dq4], [Dq5, Dq6, Dq7, Dq8]]⟩ Dq7 = some ⟨wsD, [[Dq0, Dq1], [Dq2, Dq3, Dq4], [Dq5, Dq6, Dq7, Dq8, Dq9]]⟩ := by
    show completeLoop Dq7 197 ⟨wsD, [[Dq0, Dq1], [Dq2, Dq3, Dq4], [Dq5, Dq6, Dq7, Dq8]]⟩ 0 = some ⟨wsD, [[Dq0, Dq1], [Dq2, Dq3, Dq4], [Dq5, Dq6, Dq7, Dq8, Dq9]]⟩
    calc completeLoop Dq7 (196 + 1) ⟨wsD, [[Dq0, Dq1], [Dq2, Dq3, Dq4], [Dq5, Dq6, Dq7, Dq8]]⟩ 0 = completeLoop Dq7 196 ⟨wsD, [[Dq0, Dq1], [Dq2, Dq3, Dq4], [Dq5, Dq6, Dq7, Dq8]]⟩ 1 := completeLoop_succ_eq 196 (by decide) rfl
      _ = completeLoop Dq7 195 ⟨wsD, [[Dq0, Dq1], [Dq2, Dq3, Dq4], [Dq5, Dq6, Dq7, Dq8, Dq9]]⟩ 2 := completeLoop_succ_eq 195 (by decide) rfl
      _ = some ⟨wsD, [[Dq0, Dq1], [Dq2, Dq3, Dq4], [Dq5, Dq6, Dq7, Dq8, Dq9]]⟩ := completeLoop_done (by decide)
  have posD2h3 : processState grammarEmptyLhs 196 ⟨wsD, [[Dq0, Dq1], [Dq2, Dq3, Dq4], [Dq5, Dq6, Dq7, Dq8, Dq9]]⟩ Dq8 = some ⟨wsD, [[Dq0, Dq1], [Dq2, Dq3, Dq4], [Dq5, Dq6, Dq7, Dq8, Dq9, Dq10]]⟩ := by
    show completeLoop Dq8 196 ⟨wsD, [[Dq0, Dq1], [Dq2, Dq3, Dq4], [Dq5, Dq6, Dq7, Dq8, Dq9]]⟩ 0 = some ⟨wsD, [[Dq0, Dq1], [Dq2, Dq3, Dq4], [Dq5, Dq6, Dq7, Dq8, Dq9, Dq10]]⟩
    calc completeLoop Dq8 (195 + 1) ⟨wsD, [[Dq0, Dq1], [Dq2, Dq3, Dq4], [Dq5, Dq6, Dq7, Dq8, Dq9]]⟩ 0 = completeLoop Dq8 195 ⟨wsD, [[Dq0, Dq1], [Dq2, Dq3, Dq4], [Dq5, Dq6, Dq7, Dq8, Dq9, Dq10]]⟩ 1 := completeLoop_succ_eq 195 (by decide) rfl
      _ = completeLoop Dq8 194 ⟨wsD, [[Dq0, Dq1], [Dq2, Dq3, Dq4], [Dq5, Dq6, Dq7, Dq8, Dq9, Dq10]]⟩ 2 := completeLoop_succ_eq 194 (by decide) rfl
      _ = some ⟨wsD, [[Dq0, Dq1], [Dq2, Dq3, Dq4], [Dq5, Dq6, Dq7, Dq8, Dq9, Dq10]]⟩ := completeLoop_done (by decide)
  have posD2p4 : EarleyAlgorithm.predict grammarEmptyLhs Dq9 ⟨wsD, [[Dq0, Dq1], [Dq2, Dq3, Dq4], [Dq5, Dq6, Dq7, Dq8, Dq9, Dq10]]⟩ = ⟨wsD, [[Dq0, Dq1], [Dq2, Dq3, Dq4], [Dq5, Dq6, Dq7, Dq8, Dq9, Dq10, Dq11]]⟩ := by
    show List.foldl (predictStep Dq9) ⟨wsD, [[Dq0, Dq1], [Dq2, Dq3, Dq4], [Dq5, Dq6, Dq7, Dq8, Dq9, Dq10]]⟩ [ruleD0, ruleD1, ruleD2, ruleD3] = ⟨wsD, [[Dq0, Dq1], [Dq2, Dq3, Dq4], [Dq5, Dq6, Dq7, Dq8, Dq9, Dq10, Dq11]]⟩
    calc List.foldl (predictStep Dq9) ⟨wsD, [[Dq0, Dq1], [Dq2, Dq3, Dq4], [Dq5, Dq6, Dq7, Dq8, Dq9, Dq10]]⟩ [ruleD0, ruleD1, ruleD2, ruleD3] = List.foldl (predictStep Dq9) ⟨wsD, [[Dq0, Dq1], [Dq2, Dq3, Dq4], [Dq5, Dq6, Dq7, Dq8, Dq9, Dq10]]⟩ [ruleD1, ruleD2, ruleD3] := rfl
      _ = List.foldl (predictStep Dq9) ⟨wsD, [[Dq0, Dq1], [Dq2, Dq3, Dq4], [Dq5, Dq6, Dq7, Dq8, Dq9, Dq10]]⟩ [ruleD2, ruleD3] := rfl
      _ = List.foldl (predictStep Dq9) ⟨wsD, [[Dq0, Dq1], [Dq2, Dq3, Dq4], [Dq5, Dq6, Dq7, Dq8, Dq9, Dq10, Dq11]]⟩ [ruleD3] := rfl
      _ = ⟨wsD, [[Dq0, Dq1], [Dq2, Dq3, Dq4], [Dq5, Dq6, Dq7, Dq8, Dq9, Dq10, Dq11]]⟩ := rfl
  have posD2s4 : EarleyAlgorithm.scan grammarEmptyLhs Dq9 ⟨wsD, [[Dq0, Dq1], [Dq2, Dq3, Dq4], [Dq5, Dq6, Dq7, Dq8, Dq9, Dq10, Dq11]]⟩ = ⟨wsD, [[Dq0, Dq1], [Dq2, Dq3, Dq4], [Dq5, Dq6, Dq7, Dq8, Dq9, Dq10, Dq11]]⟩ := by
    show List.foldl (scanStep Dq9) ⟨wsD, [[Dq0, Dq1], [Dq2, Dq3, Dq4], [Dq5, Dq6, Dq7, Dq8, Dq9, Dq10, Dq11]]⟩ [ruleD0, ruleD1, ruleD2, ruleD3] = ⟨wsD, [[Dq0, Dq1], [Dq2, Dq3, Dq4], [Dq5, Dq6, Dq7, Dq8, Dq9, Dq10, Dq11]]⟩
    calc List.foldl (scanStep Dq9) ⟨wsD, [[Dq0, Dq1], [Dq2, Dq3, Dq4], [Dq5, Dq6, Dq7, Dq8, Dq9, Dq10, Dq11]]⟩ [ruleD0, ruleD1, ruleD2, ruleD3] = List.foldl (scanStep Dq9) ⟨wsD, [[Dq0, Dq1], [Dq2, Dq3, Dq4], [Dq5, Dq6, Dq7, Dq8, Dq9, Dq10, Dq11]]⟩ [ruleD1, ruleD2, ruleD3] := rfl
      _ = List.foldl (scanStep Dq9) ⟨wsD, [[Dq0, Dq1], [Dq2, Dq3, Dq4], [Dq5, Dq6, Dq7, Dq8, Dq9, Dq10, Dq11]]⟩ [ruleD2, ruleD3] := rfl
      _ = List.foldl (scanStep Dq9) ⟨wsD, [[Dq0, Dq1], [Dq2, Dq3, Dq4], [Dq5, Dq6, Dq7, Dq8, Dq9, Dq10, Dq11]]⟩ [ruleD3] := rfl
      _ = ⟨wsD, [[Dq0, Dq1], [Dq2, Dq3, Dq4], [Dq5, Dq6, Dq7, Dq8, Dq9, Dq10, Dq11]]⟩ := rfl
  have posD2h4 : processState grammarEmptyLhs 195 ⟨wsD, [[Dq0, Dq1], [Dq2, Dq3, Dq4], [Dq5, Dq6, Dq7, Dq8, Dq9, Dq10]]⟩ Dq9 = some ⟨wsD, [[Dq0, Dq1], [Dq2, Dq3, Dq4], [Dq5, Dq6, Dq7, Dq8, Dq9, Dq10, Dq11]]⟩ := by
    show some (EarleyAlgorithm.scan grammarEmptyLhs Dq9 (EarleyAlgorithm.predict grammarEmptyLhs Dq9 ⟨wsD, [[Dq0, Dq1], [Dq2, Dq3, Dq4], [Dq5, Dq6, Dq7, Dq8, Dq9, Dq10]]⟩)) = some ⟨wsD, [[Dq0, Dq1], [Dq2, Dq3, Dq4], [Dq5, Dq6, Dq7, Dq8, Dq9, Dq10, Dq11]]⟩
    rw [posD2p4, posD2s4]
  have posD2h5 : processState grammarEmptyLhs 194 ⟨wsD, [[Dq0, Dq1], [Dq2, Dq3, Dq4], [Dq5, Dq6, Dq7, Dq8, Dq9, Dq10, Dq11]]⟩ Dq10 = some ⟨wsD, [[Dq0, Dq1], [Dq2, Dq3, Dq4], [Dq5, Dq6, Dq7, Dq8, Dq9, Dq10, Dq11]]⟩ := by
    show completeLoop Dq10 194 ⟨wsD, [[Dq0, Dq1], [Dq2, Dq3, Dq4], [Dq5, Dq6, Dq7, Dq8, Dq9, Dq10, Dq11]]⟩ 0 = some ⟨wsD, [[Dq0, Dq1], [Dq2, Dq3, Dq4], [Dq5, Dq6, Dq7, Dq8, Dq9, Dq10, Dq11]]⟩
    calc completeLoop Dq10 (193 + 1) ⟨wsD, [[Dq0, Dq1], [Dq2, Dq3, Dq4], [Dq5, Dq6, Dq7, Dq8, Dq9, Dq10, Dq11]]⟩ 0 = completeLoop Dq10 193 ⟨wsD, [[Dq0, Dq1], [Dq2, Dq3, Dq4], [Dq5, Dq6, Dq7, Dq8, Dq9, Dq10, Dq11]]⟩ 1 := completeLoop_succ_eq 193 (by decide) rfl
      _ = completeLoop Dq10 192 ⟨wsD, [[Dq0, Dq1], [Dq2, Dq3, Dq4], [Dq5, Dq6, Dq7, Dq8, Dq9, Dq10, Dq11]]⟩ 2 := completeLoop_succ_eq 192 (by decide) rfl
      _ = some ⟨wsD, [[Dq0, Dq1], [Dq2, Dq3, Dq4], [Dq5, Dq6, Dq7, Dq8, Dq9, Dq10, Dq11]]⟩ := completeLoop_done (by decide)
  have posD2p6 : EarleyAlgorithm.predict grammarEmptyLhs Dq11 ⟨wsD, [[Dq0, Dq1], [Dq2, Dq3, Dq4], [Dq5, Dq6, Dq7, Dq8, Dq9, Dq10, Dq11]]⟩ = ⟨wsD, [[Dq0, Dq1], [Dq2, Dq3, Dq4], [Dq5, Dq6, Dq7, Dq8, Dq9, Dq10, Dq11]]⟩ := by
    show List.foldl (predictStep Dq11) ⟨wsD, [[Dq0, Dq1], [Dq2, Dq3, Dq4], [Dq5, Dq6, Dq7, Dq8, Dq9, Dq10, Dq11]]⟩ [ruleD0, ruleD1, ruleD2, ruleD3] = ⟨wsD, [[Dq0, Dq1], [Dq2, Dq3, Dq4], [Dq5, Dq6, Dq7, Dq8, Dq9, Dq10, Dq11]]⟩
    calc List.foldl (predictStep Dq11) ⟨wsD, [[Dq0, Dq1], [Dq2, Dq3, Dq4], [Dq5, Dq6, Dq7, Dq8, Dq9, Dq10, Dq11]]⟩ [ruleD0, ruleD1, ruleD2, ruleD3] = List.foldl (predictStep Dq11) ⟨wsD, [[Dq0, Dq1], [Dq2, Dq3, Dq4], [Dq5, Dq6, Dq7, Dq8, Dq9, Dq10, Dq11]]⟩ [ruleD1, ruleD2, ruleD3] := rfl
      _ = List.foldl (predictStep Dq11) ⟨wsD, [[Dq0, Dq1], [Dq2, Dq3, Dq4], [Dq5, Dq6, Dq7, Dq8, Dq9, Dq10, Dq11]]⟩ [ruleD2, ruleD3] := rfl
      _ = List.foldl (predictStep Dq11) ⟨wsD, [[Dq0, Dq1], [Dq2, Dq3, Dq4], [Dq5, Dq6, Dq7, Dq8, Dq9, Dq10, Dq11]]⟩ [ruleD3] := rfl
      _ = ⟨wsD, [[Dq0, Dq1], [Dq2, Dq3, Dq4], [Dq5, Dq6, Dq7, Dq8, Dq9, Dq10, Dq11]]⟩ := rfl
  have posD2s6 : EarleyAlgorithm.scan grammarEmptyLhs Dq11 ⟨wsD, [[Dq0, Dq1], [Dq2, Dq3, Dq4], [Dq5, Dq6, Dq7, Dq8, Dq9, Dq10, Dq11]]⟩ = ⟨wsD, [[Dq0, Dq1], [Dq2, Dq3, Dq4], [Dq5, Dq6, Dq7, Dq8, Dq9, Dq10, Dq11]]⟩ := by
    show List.foldl (scanStep Dq11) ⟨wsD, [[Dq0, Dq1], [Dq2, Dq3, Dq4], [Dq5, Dq6, Dq7, Dq8, Dq9, Dq10, Dq11]]⟩ [ruleD0, ruleD1, ruleD2, ruleD3] = ⟨wsD, [[Dq0, Dq1], [Dq2, Dq3, Dq4], [Dq5, Dq6, Dq7, Dq8, Dq9, Dq10, Dq11]]⟩
    calc List.foldl (scanStep Dq11) ⟨wsD, [[Dq0, Dq1], [Dq2, Dq3, Dq4], [Dq5, Dq6, Dq7, Dq8, Dq9, Dq10, Dq11]]⟩ [ruleD0, ruleD1, ruleD2, ruleD3] = List.foldl (scanStep Dq11) ⟨wsD, [[Dq0, Dq1], [Dq2, Dq3, Dq4], [Dq5, Dq6, Dq7, Dq8, Dq9, Dq10, Dq11]]⟩ [ruleD1, ruleD2, ruleD3] := rfl
      _ = List.foldl (scanStep Dq11) ⟨wsD, [[Dq0, Dq1], [Dq2, Dq3, Dq4], [Dq5, Dq6, Dq7, Dq8, Dq9, Dq10, Dq11]]⟩ [ruleD2, ruleD3] := rfl
      _ = List.foldl (scanStep Dq11) ⟨wsD, [[Dq0, Dq1], [Dq2, Dq3, Dq4], [Dq5, Dq6, Dq7, Dq8, Dq9, Dq10, Dq11]]⟩ [ruleD3] := rfl
      _ = ⟨wsD, [[Dq0, Dq1], [Dq2, Dq3, Dq4], [Dq5, Dq6, Dq7, Dq8, Dq9, Dq10, Dq11]]⟩ := rfl
  have posD2h6 : processState grammarEmptyLhs 193 ⟨wsD, [[Dq0, Dq1], [Dq2, Dq3, Dq4], [Dq5, Dq6, Dq7, Dq8, Dq9, Dq10, Dq11]]⟩ Dq11 = some ⟨wsD, [[Dq0, Dq1], [Dq2, Dq3, Dq4], [Dq5, Dq6, Dq7, Dq8, Dq9, Dq10, Dq11]]⟩ := by
    show some (EarleyAlgorithm.scan grammarEmptyLhs Dq11 (EarleyAlgorithm.predict grammarEmptyLhs Dq11 ⟨wsD, [[Dq0, Dq1], [Dq2, Dq3, Dq4], [Dq5, Dq6, Dq7, Dq8, Dq9, Dq10, Dq11]]⟩)) = some ⟨wsD, [[Dq0, Dq1], [Dq2, Dq3, Dq4], [Dq5, Dq6, Dq7, Dq8, Dq9, Dq10, Dq11]]⟩
    rw [posD2p6, posD2s6]
  calc agendaLoop grammarEmptyLhs (199 + 1) ⟨wsD, [[Dq0, Dq1], [Dq2, Dq3, Dq4], [Dq5]]⟩ 2 0 = agendaLoop grammarEmptyLhs 199 ⟨wsD, [[Dq0, Dq1], [Dq2, Dq3, Dq4], [Dq5, Dq6]]⟩ 2 1 := agendaLoop_succ_eq 199 (by decide) posD2h0
    _ = agendaLoop grammarEmptyLhs 198 ⟨wsD, [[Dq0, Dq1], [Dq2, Dq3, Dq4], [Dq5, Dq6, Dq7, Dq8]]⟩ 2 2 := agendaLoop_succ_eq 198 (by decide) posD2h1
    _ = agendaLoop grammarEmptyLhs 197 ⟨wsD, [[Dq0, Dq1], [Dq2, Dq3, Dq4], [Dq5, Dq6, Dq7, Dq8, Dq9]]⟩ 2 3 := agendaLoop_succ_eq 197 (by decide) posD2h2
    _ = agendaLoop grammarEmptyLhs 196 ⟨wsD, [[Dq0, Dq1], [Dq2, Dq3, Dq4], [Dq5, Dq6, Dq7, Dq8, Dq9, Dq10]]⟩ 2 4 := agendaLoop_succ_eq 196 (by decide) posD2h3
    _ = agendaLoop grammarEmptyLhs 195 ⟨wsD, [[Dq0, Dq1], [Dq2, Dq3, Dq4], [Dq5, Dq6, Dq7, Dq8, Dq9, Dq10, Dq11]]⟩ 2 5 := agendaLoop_succ_eq 195 (by decide) posD2h4
    _ = agendaLoop grammarEmptyLhs 194 ⟨wsD, [[Dq0, Dq1], [Dq2, Dq3, Dq4], [Dq5, Dq6, Dq7, Dq8, Dq9, Dq10, Dq11]]⟩ 2 6 := agendaLoop_succ_eq 194 (by decide) posD2h5
    _ = agendaLoop grammarEmptyLhs 193 ⟨wsD, [[Dq0, Dq1], [Dq2, Dq3, Dq4], [Dq5, Dq6, Dq7, Dq8, Dq9, Dq10, Dq11]]⟩ 2 7 := agendaLoop_succ_eq 193 (by decide) posD2h6
    _ = some ⟨wsD, [[Dq0, Dq1], [Dq2, Dq3, Dq4], [Dq5, Dq6, Dq7, Dq8, Dq9, Dq10, Dq11]]⟩ := agendaLoop_done (by decide)

set_option maxHeartbeats 4000000 in
theorem chartD : parseChart grammarEmptyLhs 200 wsD = some ⟨wsD, [[Dq0, Dq1], [Dq2, Dq3, Dq4], [Dq5, Dq6, Dq7, Dq8, Dq9, Dq10, Dq11]]⟩ := by
  show posLoop grammarEmptyLhs 200 [0, 1, 2] ⟨wsD, [[Dq0], [], []]⟩ = some ⟨wsD, [[Dq0, Dq1], [Dq2, Dq3, Dq4], [Dq5, Dq6, Dq7, Dq8, Dq9, Dq10, Dq11]]⟩
  exact posLoop_cons_eq posD0 (posLoop_cons_eq posD1 (posLoop_cons_eq posD2 (posLoop_nil)))

set_option maxHeartbeats 4000000 in
theorem parseRunD : parse grammarEmptyLhs 200 wsD = some (.ok [.node "S" [.node "A" [.str "a"], .node "" [.node "B" [.str "b"]]]]) := by
  rw [EarleyAlgorithm.parse, chartD]
  rfl
def wsE : List String := []
def Eq0 : State := .mk ⟨"_GAMMA", ["S"], false⟩ 0 0 0 []
set_option maxHeartbeats 4000000 in
theorem posE0 : agendaLoop grammarNothing 200 ⟨wsE, [[Eq0]]⟩ 0 0 = some ⟨wsE, [[Eq0]]⟩ := by
  have posE0p0 : EarleyAlgorithm.predict grammarNothing Eq0 ⟨wsE, [[Eq0]]⟩ = ⟨wsE, [[Eq0]]⟩ := by
    show List.foldl (predictStep Eq0) ⟨wsE, [[Eq0]]⟩ [ruleE0] = ⟨wsE, [[Eq0]]⟩
    exact rfl
  have posE0s0 : EarleyAlgorithm.scan grammarNothing Eq0 ⟨wsE, [[Eq0]]⟩ = ⟨wsE, [[Eq0]]⟩ := by
    show List.foldl (scanStep Eq0) ⟨wsE, [[Eq0]]⟩ [ruleE0] = ⟨wsE, [[Eq0]]⟩
    exact rfl
  have posE0h0 : processState grammarNothing 199 ⟨wsE, [[Eq0]]⟩ Eq0 = some ⟨wsE, [[Eq0]]⟩ := by
    show some (EarleyAlgorithm.scan grammarNothing Eq0 (EarleyAlgorithm.predict grammarNothing Eq0 ⟨wsE, [[Eq0]]⟩)) = some ⟨wsE, [[Eq0]]⟩
    rw [posE0p0, posE0s0]
  calc agendaLoop grammarNothing (199 + 1) ⟨wsE, [[Eq0]]⟩ 0 0 = agendaLoop grammarNothing 199 ⟨wsE, [[Eq0]]⟩ 0 1 := agendaLoop_succ_eq 199 (by decide) posE0h0
    _ = some ⟨wsE, [[Eq0]]⟩ := agendaLoop_done (by decide)

set_option maxHeartbeats 4000000 in
theorem chartE : parseChart grammarNothing 200 wsE = some ⟨wsE, [[Eq0]]⟩ := by
  show posLoop grammarNothing 200 [0] ⟨wsE, [[Eq0]]⟩ = some ⟨wsE, [[Eq0]]⟩
  exact posLoop_cons_eq posE0 (posLoop_nil)

set_option maxHeartbeats 4000000 in
theorem parseRunE : parse grammarNothing 200 wsE = some (.ok []) := by
  rw [EarleyAlgorithm.parse, chartE]
  rfl

/-! Model of regex-capable rules (`Regex` in `src/grammar.py`). Only the
scan-applicability check needs this richer rhs type: the engine's
`_is_applicable_preterminal` calls `''.join(rule.rhs)`, and Python's
`str.join` raises `TypeError` on the first element that is not a `str`
(a `Regex` object is not). -/

/-- A rhs element of a `Rule`: a literal string, or a `Regex` object
modelled by its match predicate. -/
inductive RTerm where
  | str (s : String)
  | regex (accepts : String → Bool)

/-- `Rule` with regex-capable rhs elements. -/
structure RRule where
  lhs : String
  rhs : List RTerm
  preterminal : Bool

/-- `''.join(rhs)`: concatenates the literal elements, raising `TypeError`
(modelled as `.error ()`) at the first non-`str` element. -/
def joinRhs : List RTerm → Except Unit String
  | [] => .ok ""
  | .str s :: ts => (joinRhs ts).map (fun r => s ++ r)
  | .regex _ :: _ => .error ()

/-- A dotted-rule state over `RRule`, with the fields the scan step reads. -/
structure RState where
  rule : RRule
  span_start : Nat
  span_stop : Nat
  dot_position : Nat

def RState.incomplete (s : RState) : Bool :=
  s.dot_position < s.rule.rhs.length

def RState.next_category (s : RState) : RTerm :=
  if s.incomplete then s.rule.rhs.getD s.dot_position (.str "") else .str ""

/-- Python `==` between a plain string and a rhs element: `str.__eq__`
falls through to `Regex.__eq__`, which matches the pattern against the
string. -/
def rtermEqStr (l : String) : RTerm → Bool
  | .str s => l == s
  | .regex m => m l

/-- `_is_applicable_preterminal` over regex-capable rules, with Python's
left-to-right evaluation: `rule.preterminal` first, then
`rule.lhs == state.next_category`, and only then `''.join(rule.rhs)`
(which can raise) compared against the token. -/
def isApplicablePreterminalR (r : RRule) (st : RState) (sentence : List String) :
    Except Unit Bool :=
  if st.span_stop ≥ sentence.length then .ok false
  else if r.preterminal && rtermEqStr r.lhs st.next_category then
    (joinRhs r.rhs).map (fun j => j == sentence.getD st.span_stop "")
  else .ok false

/-- An executable match predicate for the pattern `[a-z]+` of Scenario C. -/
def lowercasePat (s : String) : Bool :=
  s.length > 0 && s.toList.all (fun c => 'a' ≤ c && c ≤ 'z')

/-- Scenario C's grammar rule `S -> ⟨pattern '[a-z]+'⟩`, preterminal. -/
def regexRule : RRule := ⟨"S", [.regex lowercasePat], true⟩

/-- The seeded augmenting state `_GAMMA -> . S, [0,0]`, the state whose scan
step considers `regexRule` first on the input `["hello"]`. -/
def seedStateR : RState := ⟨⟨"_GAMMA", [.str "S"], false⟩, 0, 0, 0⟩

/-- Python list-indexing behaviour of `EarleyChart.__getitem__`: it raises
exactly when the integer index is at least the chart length or below minus
the chart length; a negative index in range silently wraps to position
`length + i`. -/
theorem chart_getItem_spec (c : EarleyChart) (i : Int) :
    ((c.getItem i = .error ()) ↔
      (i < -(c.agendas.length : Int) ∨ (c.agendas.length : Int) ≤ i)) ∧
    (-(c.agendas.length : Int) ≤ i → i < 0 →
      c.getItem i = .ok (c.agendas.getD (i + c.agendas.length).toNat [])) := by
  unfold EarleyChart.getItem
  simp only []
  split_ifs with h1 h2
  · constructor
    · constructor
      · intro h; exact absurd h (by simp)
      · intro h; omega
    · intro _ h; omega
  · constructor
    · constructor
      · intro h; exact absurd h (by simp)
      · intro h; omega
    · intro _ _; rfl
  · constructor
    · constructor
      · intro _; omega
      · intro _; rfl
    · intro h3 h4; omega

/-! Generic run invariants: any state predicate `P` that is preserved by
the predict, scan and complete step constructions holds of every state in
every chart a run of `parse` can produce, along with bookkeeping facts
(sentence and chart length are fixed, agendas are duplicate-free, and every
state sits in the agenda of its own `span_stop`). -/

theorem getD_set (l : List (List State)) (n : Nat) (v : List State) (m : Nat) :
    (l.set n v).getD m [] = if n = m ∧ n < l.length then v else l.getD m [] := by
  induction l generalizing n m with
  | nil => simp
  | cons x xs ih =>
    cases n with
    | zero =>
      cases m with
      | zero => simp
      | succ m => simp
    | succ n =>
      cases m with
      | zero => simp
      | succ m =>
        simp only [List.set, List.getD_cons_succ, ih, List.length_cons]
        have : (n = m ∧ n < xs.length) ↔ (n + 1 = m + 1 ∧ n + 1 < xs.length + 1) := by omega
        rw [if_congr this rfl rfl]

namespace EarleyChart

theorem sentence_enqueue (c : EarleyChart) (s : State) (p : Nat) :
    (c.enqueue s p).sentence = c.sentence := by
  rw [enqueue]; split <;> rfl

theorem length_enqueue (c : EarleyChart) (s : State) (p : Nat) :
    (c.enqueue s p).agendas.length = c.agendas.length := by
  rw [enqueue]; split <;> simp

theorem enqueue_of_contains {c : EarleyChart} {s : State} {p : Nat}
    (h : (c.at_ p).contains s = true) : c.enqueue s p = c := by
  rw [enqueue, if_pos h]

theorem at__enqueue_of_not_contains {c : EarleyChart} {s : State} {p : Nat}
    (h : (c.at_ p).contains s = false) (i : Nat) :
    (c.enqueue s p).at_ i =
      if p = i ∧ p < c.agendas.length then c.at_ p ++ [s] else c.at_ i := by
  rw [enqueue]
  simp only [h, Bool.false_eq_true, if_false]
  show (c.agendas.set p (c.at_ p ++ [s])).getD i [] = _
  rw [getD_set]
  rfl

theorem not_mem_of_contains_eq_false {l : List State} {s : State}
    (h : l.contains s = false) : s ∉ l := by
  intro hm
  rw [List.contains_eq_any_beq] at h
  have : l.any (s == ·) = true := List.any_eq_true.mpr ⟨s, hm, by simp⟩
  simp only [BEq.comm] at this
  rw [this] at h
  exact absurd h (by simp)

end EarleyChart

namespace EarleyAlgorithm

section Invariant

variable (ws : List String) (P : State → Prop)

/-- The chart invariant carried through a run. -/
def ChartInv (c : EarleyChart) : Prop :=
  c.sentence = ws ∧
  c.agendas.length = ws.length + 1 ∧
  (∀ i, (c.at_ i).Nodup) ∧
  (∀ i s, s ∈ c.at_ i → P s ∧ s.span_stop = i)

theorem ChartInv.enqueue_pres {c : EarleyChart} {s : State} {p : Nat}
    (hc : ChartInv ws P c) (hs : P s) (hp : s.span_stop = p) :
    ChartInv ws P (c.enqueue s p) := by
  obtain ⟨h1, h2, h3, h4⟩ := hc
  by_cases hcon : (c.at_ p).contains s
  · rw [EarleyChart.enqueue_of_contains hcon]
    exact ⟨h1, h2, h3, h4⟩
  · rw [Bool.not_eq_true] at hcon
    have hnm : s ∉ c.at_ p := EarleyChart.not_mem_of_contains_eq_false hcon
    refine ⟨?_, ?_, ?_, ?_⟩
    · rw [EarleyChart.sentence_enqueue]; exact h1
    · rw [EarleyChart.length_enqueue]; exact h2
    · intro i
      rw [EarleyChart.at__enqueue_of_not_contains hcon]
      split
      · exact List.Nodup.append (h3 p) (List.nodup_singleton s)
          (by simpa [List.disjoint_singleton] using hnm)
      · exact h3 i
    · intro i t ht
      rw [EarleyChart.at__enqueue_of_not_contains hcon] at ht
      split at ht
      next hpi =>
        rcases List.mem_append.mp ht with hm | hm
        · have := h4 p t hm
          exact ⟨this.1, by rw [this.2, hpi.1]⟩
        · rw [List.mem_singleton.mp hm]
          exact ⟨hs, by rw [hp, hpi.1]⟩
      next _ => exact h4 i t ht

end Invariant

end EarleyAlgorithm

theorem at__init (ws : List String) (i : Nat) :
    (EarleyChart.init ws).at_ i = [] := by
  rw [EarleyChart.at_, EarleyChart.init]
  rcases Nat.lt_or_ge i (ws.length + 1) with h | h
  · rw [List.getD_eq_getElem?_getD, List.getElem?_replicate, if_pos h]
    rfl
  · rw [List.getD_eq_default]
    simpa using h

namespace EarleyAlgorithm

/-- The three step obligations of a state predicate `P`: each engine step
construction yields states satisfying `P`, given `P` of the states it was
built from and the conditions the code checks. -/
structure StepClosed (ws : List String) (P : State → Prop) (g : Grammar) : Prop where
  predict : ∀ st r, P st → st.incomplete = true → r ∈ g.rules →
    r.preterminal = false → st.next_category = r.lhs →
    P (.mk r st.span_stop st.span_stop 0 [])
  scan : ∀ st r, P st → st.incomplete = true → r ∈ g.rules →
    r.preterminal = true → r.lhs = st.next_category →
    st.span_stop < ws.length → String.join r.rhs = ws.getD st.span_stop "" →
    P (.mk r st.span_stop (st.span_stop + 1) 1 [])
  complete : ∀ cand st, P cand → P st → st.incomplete = false →
    cand.next_category = st.rule.lhs → cand.span_stop = st.span_start →
    P (advance cand st)
  seed : P (seedState g)

theorem predict_inv {ws : List String} {P : State → Prop} {g : Grammar}
    (hP : StepClosed ws P g) {st : State} {c : EarleyChart}
    (hst : P st) (hinc : st.incomplete = true) (hc : ChartInv ws P c) :
    ChartInv ws P (predict g st c) := by
  have main : ∀ rs : List SRule, (∀ r ∈ rs, r ∈ g.rules) →
      ∀ c, ChartInv ws P c → ChartInv ws P (List.foldl (predictStep st) c rs) := by
    intro rs
    induction rs with
    | nil => intro _ c hc; exact hc
    | cons r rs ih =>
      intro hsub c hc
      rw [List.foldl_cons]
      apply ih (fun r' hr' => hsub r' (List.mem_cons_of_mem _ hr'))
      rw [predictStep]
      split
      next hcond =>
        simp only [Bool.and_eq_true, beq_iff_eq, Bool.not_eq_true'] at hcond
        exact ChartInv.enqueue_pres ws P hc
          (hP.predict st r hst hinc (hsub r (List.mem_cons_self r rs))
            hcond.2 hcond.1) rfl
      next => exact hc
  exact main g.rules (fun _ h => h) c hc

theorem scan_inv {ws : List String} {P : State → Prop} {g : Grammar}
    (hP : StepClosed ws P g) {st : State} {c : EarleyChart}
    (hst : P st) (hinc : st.incomplete = true) (hc : ChartInv ws P c) :
    ChartInv ws P (scan g st c) := by
  have main : ∀ rs : List SRule, (∀ r ∈ rs, r ∈ g.rules) →
      ∀ c, ChartInv ws P c → ChartInv ws P (List.foldl (scanStep st) c rs) := by
    intro rs
    induction rs with
    | nil => intro _ c hc; exact hc
    | cons r rs ih =>
      intro hsub c hc
      rw [List.foldl_cons]
      apply ih (fun r' hr' => hsub r' (List.mem_cons_of_mem _ hr'))
      rw [scanStep]
      split
      next hcond =>
        rw [isApplicablePreterminal, hc.1] at hcond
        split at hcond
        · exact absurd hcond (by simp)
        next hlt =>
          simp only [Bool.and_eq_true, beq_iff_eq] at hcond
          exact ChartInv.enqueue_pres ws P hc
            (hP.scan st r hst hinc (hsub r (List.mem_cons_self r rs))
              hcond.1.1 hcond.1.2 (by omega) hcond.2) rfl
      next => exact hc
  exact main g.rules (fun _ h => h) c hc

theorem completeLoop_inv {ws : List String} {P : State → Prop} {g : Grammar}
    (hP : StepClosed ws P g) {st : State} :
    ∀ (f : Nat) (c : EarleyChart) (k : Nat) (c' : EarleyChart),
      P st → st.incomplete = false → ChartInv ws P c →
      completeLoop st f c k = some c' → ChartInv ws P c' := by
  intro f
  induction f with
  | zero =>
    intro c k c' _ _ hc h
    by_cases hk : k < (c.at_ st.span_start).length
    · rw [completeLoop_zero hk] at h; cases h
    · rw [completeLoop_done hk] at h
      cases h; exact hc
  | succ f ih =>
    intro c k c' hst hinc hc h
    by_cases hk : k < (c.at_ st.span_start).length
    · rw [completeLoop_succ f hk] at h
      refine ih _ _ _ hst hinc ?_ h
      split
      next hcond =>
        simp only [Bool.and_eq_true, beq_iff_eq] at hcond
        have hmem := List.get_mem (c.at_ st.span_start) k hk
        have hcand := (hc.2.2.2 st.span_start _ hmem).1
        exact ChartInv.enqueue_pres ws P hc
          (hP.complete _ st hcand hst hinc hcond.1 hcond.2) rfl
      next => exact hc
    · rw [completeLoop_done hk] at h
      cases h; exact hc

theorem processState_inv {ws : List String} {P : State → Prop} {g : Grammar}
    (hP : StepClosed ws P g) {st : State} {f : Nat} {c c' : EarleyChart}
    (hst : P st) (hc : ChartInv ws P c) (h : processState g f c st = some c') :
    ChartInv ws P c' := by
  rw [processState] at h
  split at h
  next hinc =>
    cases h
    exact scan_inv hP hst hinc (predict_inv hP hst hinc hc)
  next hinc =>
    exact completeLoop_inv hP f c 0 c' hst (by simpa using hinc) hc h

theorem agendaLoop_inv {ws : List String} {P : State → Prop} {g : Grammar}
    (hP : StepClosed ws P g) {i : Nat} :
    ∀ (f : Nat) (c : EarleyChart) (j : Nat) (c' : EarleyChart),
      ChartInv ws P c → agendaLoop g f c i j = some c' → ChartInv ws P c' := by
  intro f
  induction f with
  | zero =>
    intro c j c' hc h
    by_cases hj : j < (c.at_ i).length
    · rw [agendaLoop_zero hj] at h; cases h
    · rw [agendaLoop_done hj] at h; cases h; exact hc
  | succ f ih =>
    intro c j c' hc h
    by_cases hj : j < (c.at_ i).length
    · rw [agendaLoop_succ f hj] at h
      rcases Option.bind_eq_some.mp h with ⟨c'', hstep, hrest⟩
      have hmem := List.get_mem (c.at_ i) j hj
      have hst := (hc.2.2.2 i _ hmem).1
      exact ih c'' (j + 1) c' (processState_inv hP hst hc hstep) hrest
    · rw [agendaLoop_done hj] at h; cases h; exact hc

theorem posLoop_inv {ws : List String} {P : State → Prop} {g : Grammar}
    (hP : StepClosed ws P g) :
    ∀ (l : List Nat) (f : Nat) (c : EarleyChart) (c' : EarleyChart),
      ChartInv ws P c → posLoop g f l c = some c' → ChartInv ws P c' := by
  intro l
  induction l with
  | nil =>
    intro f c c' hc h
    cases h; exact hc
  | cons i rest ih =>
    intro f c c' hc h
    rw [posLoop] at h
    rcases Option.bind_eq_some.mp h with ⟨c'', hstep, hrest⟩
    exact ih f c'' c' (agendaLoop_inv hP f c 0 c'' hc hstep) hrest

theorem parseChart_inv {ws : List String} {P : State → Prop} {g : Grammar}
    (hP : StepClosed ws P g) {f : Nat} {c' : EarleyChart}
    (h : parseChart g f ws = some c') : ChartInv ws P c' := by
  have hinit : ChartInv ws P (EarleyChart.init ws) := by
    refine ⟨rfl, by simp [EarleyChart.init], ?_, ?_⟩
    · intro i; rw [at__init]; exact List.nodup_nil
    · intro i s hs; rw [at__init] at hs; cases hs
  have hseeded : ChartInv ws P ((EarleyChart.init ws).enqueue (seedState g) 0) :=
    ChartInv.enqueue_pres ws P hinit hP.seed rfl
  exact posLoop_inv hP _ f _ c' hseeded h

end EarleyAlgorithm

/-! The concrete state invariant `WF` maintained by every run, with
conditionally-guarded strengthenings used by the individual claims. -/

/-- A well-behaved grammar: preterminal rules match exactly one rhs symbol,
and no rule reuses the empty string or the reserved `_GAMMA` as its lhs. -/
def GoodG (g : Grammar) : Prop :=
  (∀ r ∈ g.rules, r.preterminal = true → r.rhs.length = 1) ∧
  (∀ r ∈ g.rules, r.lhs ≠ "") ∧
  (∀ r ∈ g.rules, r.lhs ≠ "_GAMMA")

instance (g : Grammar) : Decidable (GoodG g) := by
  rw [GoodG]; infer_instance

/-- The spans of a backpointer list tile the interval `[a, b)`. -/
def SpanChain : Nat → Nat → List State → Prop
  | a, b, [] => a = b
  | a, b, s :: ss => s.span_start = a ∧ SpanChain s.span_stop b ss

theorem SpanChain.append_one {a m : Nat} {p : List State} {st : State}
    (h : SpanChain a m p) (hst : st.span_start = m) :
    SpanChain a st.span_stop (p ++ [st]) := by
  induction p generalizing a with
  | nil =>
    rw [SpanChain] at h
    exact ⟨by rw [hst, h], rfl⟩
  | cons s ss ih =>
    rw [SpanChain] at h
    exact ⟨h.1, ih h.2⟩

namespace EarleyAlgorithm

/-- The invariant of every state a run ever enqueues. The last three fields
are guarded strengthenings: the dot stays in range when no rule has an empty
lhs and no preterminal rule has an empty rhs; preterminal states are plain
scan results when the grammar is `GoodG`; and states labelled `_GAMMA` are
seed-descended when no grammar rule uses that label. -/
inductive WF (g : Grammar) (ws : List String) : State → Prop where
  | mk {r : SRule} {a b d : Nat} {p : List State}
      (hrule : r = gammaRule g ∨ r ∈ g.rules)
      (hab : a ≤ b) (hbn : b ≤ ws.length)
      (hpret : r.preterminal = true →
        1 ≤ d ∧ a < b ∧ p.length = d - 1 ∧ String.join r.rhs = ws.getD a "")
      (hnon : r.preterminal = false → p.length = d ∧ SpanChain a b p)
      (hchild : r.preterminal = false →
        ∀ j (hj : j < p.length) (hr : j < r.rhs.length),
          (p.get ⟨j, hj⟩).rule.lhs = r.rhs.get ⟨j, hr⟩)
      (hprevC : ∀ s ∈ p, s.incomplete = false)
      (hprevWF : ∀ s ∈ p, WF g ws s)
      (hdot : (∀ r' ∈ g.rules, r'.lhs ≠ "") →
        (∀ r' ∈ g.rules, r'.preterminal = true → r'.rhs ≠ []) →
        d ≤ r.rhs.length)
      (hstrong : GoodG g → r.preterminal = true → d = 1 ∧ b = a + 1 ∧ p = [])
      (hgamma : (∀ r' ∈ g.rules, r'.lhs ≠ "_GAMMA") → r.lhs = "_GAMMA" →
        r = gammaRule g ∧ a = 0) :
      WF g ws (.mk r a b d p)

theorem State.rule_mk (r : SRule) (a b d : Nat) (p : List State) :
    (State.mk r a b d p).rule = r := rfl

theorem State.span_start_mk (r : SRule) (a b d : Nat) (p : List State) :
    (State.mk r a b d p).span_start = a := rfl

theorem State.span_stop_mk (r : SRule) (a b d : Nat) (p : List State) :
    (State.mk r a b d p).span_stop = b := rfl

theorem State.dot_position_mk (r : SRule) (a b d : Nat) (p : List State) :
    (State.mk r a b d p).dot_position = d := rfl

theorem State.previous_states_mk (r : SRule) (a b d : Nat) (p : List State) :
    (State.mk r a b d p).previous_states = p := rfl

theorem incomplete_mk (r : SRule) (a b d : Nat) (p : List State) :
    (State.mk r a b d p).incomplete = true ↔ d < r.rhs.length := by
  rw [State.incomplete, State.rule_mk, State.dot_position_mk]
  simp

theorem incomplete_mk_false (r : SRule) (a b d : Nat) (p : List State) :
    (State.mk r a b d p).incomplete = false ↔ r.rhs.length ≤ d := by
  rw [← Bool.not_eq_true, incomplete_mk]
  omega

theorem next_category_mk (r : SRule) (a b d : Nat) (p : List State) :
    (State.mk r a b d p).next_category =
      if d < r.rhs.length then r.rhs.getD d "" else "" := by
  rw [State.next_category]
  by_cases h : d < r.rhs.length
  · rw [if_pos ((incomplete_mk r a b d p).mpr h), if_pos h]
    rfl
  · rw [if_neg (by rw [incomplete_mk]; exact h), if_neg h]

/-- The lhs of a state's rule is never the empty string when the rule is the
augmenting rule or a rule of a grammar with no empty-lhs rules. -/
theorem lhs_ne_empty {g : Grammar} {r : SRule}
    (hrule : r = gammaRule g ∨ r ∈ g.rules)
    (hne : ∀ r' ∈ g.rules, r'.lhs ≠ "") : r.lhs ≠ "" := by
  rcases hrule with h | h
  · rw [h, gammaRule]
    intro hh
    simp at hh
  · exact hne r h

theorem wf_stepClosed (g : Grammar) (ws : List String) :
    StepClosed ws (WF g ws) g := by
  constructor
  · -- predict
    intro st r hst hinc hrr hpret hnext
    rcases hst with @⟨r0, a0, b0, d0, p0, hrule, hab, hbn, hp, hn, hch, hpc, hpw, hd, hs, hg⟩
    rw [State.span_stop_mk]
    refine WF.mk (Or.inr hrr) (le_refl _) hbn ?_ ?_ ?_ ?_ ?_ ?_ ?_ ?_
    · intro h; rw [hpret] at h; cases h
    · intro _; exact ⟨rfl, rfl⟩
    · intro _ j hj; cases hj
    · intro s hs; cases hs
    · intro s hs; cases hs
    · intro _ _; exact Nat.zero_le _
    · intro _ h; rw [hpret] at h; cases h
    · intro hno hl; exact absurd hl (hno r hrr)
  · -- scan
    intro st r hst hinc hrr hpret hlhs hlt hjoin
    rcases hst with @⟨r0, a0, b0, d0, p0, hrule, hab, hbn, hp, hn, hch, hpc, hpw, hd, hs, hg⟩
    rw [State.span_stop_mk] at hlt hjoin ⊢
    refine WF.mk (Or.inr hrr) (Nat.le_succ _) (by omega) ?_ ?_ ?_ ?_ ?_ ?_ ?_ ?_
    · intro _
      exact ⟨le_refl _, Nat.lt_succ_self _, rfl, hjoin⟩
    · intro h; rw [hpret] at h; cases h
    · intro h; rw [hpret] at h; cases h
    · intro s hs; cases hs
    · intro s hs; cases hs
    · intro _ hpne
      have h1 : r.rhs ≠ [] := hpne r hrr hpret
      have h2 : 0 < r.rhs.length := List.length_pos.mpr h1
      omega
    · intro _ _; exact ⟨rfl, rfl, rfl⟩
    · intro hno hl; exact absurd hl (hno r hrr)
  · -- complete
    intro cand st hcand hst hinc hnext hstop
    have hstW := hst
    rcases hcand with @⟨r0, a0, b0, d0, p0, hrule, hab, hbn, hp, hn, hch, hpc, hpw, hd, hs, hg⟩
    rcases hst with @⟨r1, a1, b1, d1, p1, hrule1, hab1, hbn1, hp1, hn1, hch1, hpc1, hpw1, hd1, hs1, hg1⟩
    rw [next_category_mk, State.rule_mk] at hnext
    rw [State.span_stop_mk, State.span_start_mk] at hstop
    rw [incomplete_mk_false] at hinc
    rw [advance]
    rw [State.rule_mk, State.span_start_mk, State.span_stop_mk,
      State.dot_position_mk, State.previous_states_mk]
    refine WF.mk hrule (by omega) hbn1 ?_ ?_ ?_ ?_ ?_ ?_ ?_ ?_
    · intro hpret
      obtain ⟨h1, h2, h3, h4⟩ := hp hpret
      refine ⟨by omega, by omega, ?_, h4⟩
      rw [List.length_append]
      simp only [List.length_singleton]
      omega
    · intro hpret
      obtain ⟨h1, h2⟩ := hn hpret
      refine ⟨by rw [List.length_append]; simp [h1], ?_⟩
      have := SpanChain.append_one h2
        (show (State.mk r1 a1 b1 d1 p1).span_start = b0 from hstop.symm)
      rw [State.span_stop_mk] at this
      exact this
    · intro hpret j hj hr
      rw [List.length_append, List.length_singleton] at hj
      obtain ⟨hlen, _⟩ := hn hpret
      by_cases hjp : j < p0.length
      · rw [List.get_append_left]
        exact hch hpret j hjp hr
      · have hje : j = p0.length := by omega
        have hgetst : (p0 ++ [State.mk r1 a1 b1 d1 p1]).get ⟨j, by simpa using hj⟩
            = State.mk r1 a1 b1 d1 p1 := by
          subst hje
          rw [List.get_append_right] <;> simp
        rw [hgetst, State.rule_mk]
        have hd0 : d0 < r0.rhs.length := by omega
        rw [if_pos hd0] at hnext
        rw [← hnext]
        rw [List.getD_eq_getElem?_getD, List.getElem?_eq_getElem hd0]
        simp only [Option.getD_some]
        congr 1
        omega
    · intro s hsm
      rcases List.mem_append.mp hsm with h | h
      · exact hpc s h
      · rw [List.mem_singleton.mp h]
        rw [incomplete_mk_false]
        exact hinc
    · intro s hsm
      rcases List.mem_append.mp hsm with h | h
      · exact hpw s h
      · rw [List.mem_singleton.mp h]; exact hstW
    · intro hne hpne
      have hlhs : r1.lhs ≠ "" := lhs_ne_empty hrule1 hne
      have hd0 : d0 < r0.rhs.length := by
        by_contra hcon
        rw [if_neg hcon] at hnext
        exact hlhs hnext.symm
      omega
    · intro hgood hpret
      exfalso
      have hlhs : r1.lhs ≠ "" := lhs_ne_empty hrule1 hgood.2.1
      have hd0 : d0 < r0.rhs.length := by
        by_contra hcon
        rw [if_neg hcon] at hnext
        exact hlhs hnext.symm
      obtain ⟨hd1', _, _⟩ := hs hgood hpret
      have hmem : r0 ∈ g.rules := by
        rcases hrule with h | h
        · rw [h, gammaRule] at hpret; cases hpret
        · exact h
      have hlen := hgood.1 r0 hmem hpret
      omega
    · intro hno hl
      exact hg hno hl
  · -- seed
    rw [seedState]
    refine WF.mk (Or.inl rfl) (le_refl _) (Nat.zero_le _) ?_ ?_ ?_ ?_ ?_ ?_ ?_ ?_
    · intro h; rw [gammaRule] at h; cases h
    · intro _; exact ⟨rfl, rfl⟩
    · intro _ j hj; cases hj
    · intro s hs; cases hs
    · intro s hs; cases hs
    · intro _ _; rw [gammaRule]; exact Nat.zero_le _
    · intro _ h; rw [gammaRule] at h; cases h
    · intro _ _; exact ⟨rfl, rfl⟩

end EarleyAlgorithm

namespace EarleyAlgorithm

theorem parseChart_WF {g : Grammar} {ws : List String} {f : Nat}
    {c : EarleyChart} (h : parseChart g f ws = some c) :
    ChartInv ws (WF g ws) c :=
  parseChart_inv (wf_stepClosed g ws) h

/-- The unconditional parts of the per-state invariant, plus the dot bound
under its grammar-side conditions, for every state of a finished chart. -/
theorem parseChart_state_invariants {g : Grammar} {ws : List String} {f : Nat}
    {c : EarleyChart} (h : parseChart g f ws = some c) (i : Nat) (s : State)
    (hs : s ∈ c.at_ i) :
    s.span_start ≤ s.span_stop ∧ s.span_stop ≤ ws.length ∧ s.span_stop = i ∧
      ((∀ r ∈ g.rules, r.lhs ≠ "") →
        (∀ r ∈ g.rules, r.preterminal = true → r.rhs ≠ []) →
        s.dot_position ≤ s.rule.rhs.length) := by
  obtain ⟨hwf, hstop⟩ := (parseChart_WF h).2.2.2 i s hs
  rcases hwf with @⟨r0, a0, b0, d0, p0, hrule, hab, hbn, hp, hn, hch, hpc, hpw, hd, hstr, hg⟩
  rw [State.span_start_mk, State.span_stop_mk, State.dot_position_mk,
    State.rule_mk]
  rw [State.span_stop_mk] at hstop
  exact ⟨hab, hbn, hstop, hd⟩

end EarleyAlgorithm

/-! Soundness machinery: the leaves of the tree extracted from a completed
state reproduce exactly the inputSlice of input its span covers, for grammars in
`GoodG`. -/

/-- The tokens of positions `[a, b)`. -/
def inputSlice (ws : List String) (a b : Nat) : List String :=
  (ws.drop a).take (b - a)

theorem slice_self (ws : List String) (a : Nat) : inputSlice ws a a = [] := by
  rw [inputSlice, Nat.sub_self, List.take_zero]

theorem slice_split (ws : List String) {a m b : Nat} (h1 : a ≤ m) (h2 : m ≤ b) :
    inputSlice ws a b = inputSlice ws a m ++ inputSlice ws m b := by
  rw [inputSlice, inputSlice, inputSlice]
  have he : b - a = (m - a) + (b - m) := by omega
  rw [he, List.take_add, List.drop_drop]
  have h3 : a + (m - a) = m := by omega
  rw [h3]

theorem slice_full (ws : List String) : inputSlice ws 0 ws.length = ws := by
  rw [inputSlice, List.drop_zero, Nat.sub_zero, List.take_length]

theorem slice_singleton {ws : List String} {a : Nat} (h : a < ws.length) :
    inputSlice ws a (a + 1) = [ws.getD a ""] := by
  rw [inputSlice, Nat.add_sub_cancel_left, List.drop_eq_getElem_cons h, List.take_one]
  rw [List.getD_eq_getElem?_getD, List.getElem?_eq_getElem h]
  rfl

theorem PTree.leaves_str (s : String) : (PTree.str s).leaves = [s] := by
  rw [PTree.leaves]

namespace EarleyAlgorithm

theorem WF.start_le_stop {g : Grammar} {ws : List String} {s : State}
    (h : WF g ws s) : s.span_start ≤ s.span_stop := by
  rcases h with @⟨r0, a0, b0, d0, p0, _, hab, _, _, _, _, _, _, _, _, _⟩
  rw [State.span_start_mk, State.span_stop_mk]
  exact hab

theorem SpanChain.le {b : Nat} : ∀ {p : List State} {a : Nat}, SpanChain a b p →
    (∀ s ∈ p, s.span_start ≤ s.span_stop) → a ≤ b := by
  intro p
  induction p with
  | nil => intro a h _; rw [SpanChain] at h; omega
  | cons s ss ih =>
    intro a h hle
    rw [SpanChain] at h
    have h1 := hle s (List.mem_cons_self s ss)
    have h2 := ih h.2 (fun t ht => hle t (List.mem_cons_of_mem s ht))
    omega

theorem insertByStart_of_le {s t : State} {ts : List State}
    (h : s.span_start ≤ t.span_start) : insertByStart s (t :: ts) = s :: t :: ts := by
  rw [insertByStart, if_pos h]

theorem sortByStart_eq_self {b : Nat} : ∀ {p : List State} {a : Nat},
    SpanChain a b p → (∀ s ∈ p, s.span_start ≤ s.span_stop) →
    sortByStart p = p := by
  intro p
  induction p with
  | nil => intro a _ _; rfl
  | cons s ss ih =>
    intro a h hle
    rw [SpanChain] at h
    rw [sortByStart, ih h.2 (fun t ht => hle t (List.mem_cons_of_mem s ht))]
    cases ss with
    | nil => rfl
    | cons t ts =>
      apply insertByStart_of_le
      have h1 := hle s (List.mem_cons_self s (t :: ts))
      rw [SpanChain] at h
      have h2 : t.span_start = s.span_stop := h.2.1
      omega

theorem sizeOf_lt_of_mem_prev {r0 : SRule} {a0 b0 d0 : Nat} {p0 : List State}
    {t : State} (h : t ∈ p0) : sizeOf t < sizeOf (State.mk r0 a0 b0 d0 p0) := by
  have := List.sizeOf_lt_of_mem h
  simp only [State.mk.sizeOf_spec]
  omega

/-- Covering: for a `GoodG` grammar, the leaves of the tree extracted from
a completed well-formed state are exactly the input tokens of its span. -/
theorem leaves_treeFromParse {g : Grammar} {ws : List String} (hg : GoodG g) :
    ∀ s : State, WF g ws s → s.incomplete = false →
      (treeFromParse s).leaves = inputSlice ws s.span_start s.span_stop := by
  have main : ∀ (n : Nat) (s : State), sizeOf s ≤ n → WF g ws s →
      s.incomplete = false →
      (treeFromParse s).leaves = inputSlice ws s.span_start s.span_stop := by
    intro n
    induction n with
    | zero =>
      intro s hsz
      exfalso
      cases s with
      | mk r a b d p =>
        rw [State.mk.sizeOf_spec] at hsz
        omega
    | succ n ih =>
      intro s hsz hwf hinc
      rcases hwf with @⟨r0, a0, b0, d0, p0, hrule, hab, hbn, hp, hn, hch, hpc, hpw, hd, hstr, hgam⟩
      rw [incomplete_mk_false] at hinc
      rw [State.span_start_mk, State.span_stop_mk, treeFromParse_def]
      by_cases hpret : r0.preterminal = true
      · rw [if_pos hpret]
        obtain ⟨h1, h2, h3, h4⟩ := hp hpret
        obtain ⟨hd1, hb, hpnil⟩ := hstr hg hpret
        rw [PTree.leaves_node, List.flatMap_cons, List.flatMap_nil,
          PTree.leaves_str, List.append_nil, h4, hb]
        rw [slice_singleton (by omega)]
      · rw [if_neg hpret]
        rw [Bool.not_eq_true] at hpret
        obtain ⟨hlen, hchain⟩ := hn hpret
        have hchildle : ∀ t ∈ p0, t.span_start ≤ t.span_stop :=
          fun t ht => (hpw t ht).start_le_stop
        rw [sortByStart_eq_self hchain hchildle, PTree.leaves_node]
        have hrec : ∀ (q : List State), (∀ t ∈ q, t ∈ p0) → ∀ (x : Nat),
            SpanChain x b0 q →
            (q.map treeFromParse).flatMap PTree.leaves = inputSlice ws x b0 := by
          intro q
          induction q with
          | nil =>
            intro _ x hch2
            rw [SpanChain] at hch2
            rw [List.map_nil, List.flatMap_nil, hch2, slice_self]
          | cons t ts ihq =>
            intro hsub x hch2
            rw [SpanChain] at hch2
            have htmem := hsub t (List.mem_cons_self t ts)
            have htwf := hpw t htmem
            have htinc := hpc t htmem
            have htsz : sizeOf t ≤ n := by
              have := @sizeOf_lt_of_mem_prev r0 a0 b0 d0 p0 t htmem
              omega
            have hleaf := ih t htsz htwf htinc
            have htle := htwf.start_le_stop
            have hstople : t.span_stop ≤ b0 :=
              SpanChain.le hch2.2
                (fun u hu => (hpw u (hsub u (List.mem_cons_of_mem t hu))).start_le_stop)
            rw [List.map_cons, List.flatMap_cons, hleaf,
              ihq (fun u hu => hsub u (List.mem_cons_of_mem t hu)) _ hch2.2]
            rw [hch2.1] at htle ⊢
            rw [← slice_split ws htle hstople]
        exact hrec p0 (fun _ h => h) a0 hchain
  intro s hwf hinc
  exact main (sizeOf s) s (le_refl _) hwf hinc

end EarleyAlgorithm

theorem mapM_ok_mem {α β : Type} (f : α → Except Unit β) :
    ∀ (l : List α) (ys : List β), l.mapM f = .ok ys → ∀ y ∈ ys, ∃ x ∈ l, f x = .ok y := by
  intro l
  induction l with
  | nil =>
    intro ys h y hy
    simp only [List.mapM_nil, pure] at h
    cases h
    cases hy
  | cons x xs ih =>
    intro ys h y hy
    rw [List.mapM_cons] at h
    cases hfx : f x with
    | error e => rw [hfx] at h; cases h
    | ok b =>
      rw [hfx] at h
      cases hxs : xs.mapM f with
      | error e =>
        rw [hxs] at h
        cases h
      | ok bs =>
        rw [hxs] at h
        simp only [pure] at h
        cases h
        rcases List.mem_cons.mp hy with hyb | hyb
        · exact ⟨x, List.mem_cons_self x xs, by rw [hfx, hyb]⟩
        · rcases ih bs hxs y hyb with ⟨x', hx', hfx'⟩
          exact ⟨x', List.mem_cons_of_mem x hx', hfx'⟩

theorem mapM_ok_of_forall {α β : Type} (f : α → Except Unit β) :
    ∀ (l : List α), (∀ x ∈ l, ∃ y, f x = .ok y) → ∃ ys, l.mapM f = .ok ys := by
  intro l
  induction l with
  | nil => intro _; exact ⟨[], by rw [List.mapM_nil]; rfl⟩
  | cons x xs ih =>
    intro hall
    rcases hall x (List.mem_cons_self x xs) with ⟨y, hy⟩
    rcases ih (fun x' hx' => hall x' (List.mem_cons_of_mem x hx')) with ⟨ys, hys⟩
    refine ⟨y :: ys, ?_⟩
    rw [List.mapM_cons, hy, hys]
    rfl

namespace EarleyAlgorithm

theorem length_insertByStart (s : State) (l : List State) :
    (insertByStart s l).length = l.length + 1 := by
  induction l with
  | nil => rfl
  | cons t ts ih =>
    rw [insertByStart]
    split
    · simp
    · simp only [List.length_cons, ih]

theorem length_sortByStart (l : List State) :
    (sortByStart l).length = l.length := by
  induction l with
  | nil => rfl
  | cons s ss ih => rw [sortByStart, length_insertByStart, ih, List.length_cons]

theorem parse_ok_mem {g : Grammar} {ws : List String} {f : Nat}
    {ts : List PTree} (h : parse g f ws = some (.ok ts)) :
    ∃ c, parseChart g f ws = some c ∧
      ∀ t ∈ ts, ∃ p ∈ fullParses c, unwrapGamma (treeFromParse p) = .ok t := by
  rw [parse] at h
  rcases Option.map_eq_some'.mp h with ⟨c, hc, hr⟩
  exact ⟨c, hc, fun t ht => mapM_ok_mem _ _ _ hr t ht⟩

theorem fullParses_spec {g : Grammar} {ws : List String} {f : Nat}
    {c : EarleyChart} (h : parseChart g f ws = some c)
    (hno : ∀ r ∈ g.rules, r.lhs ≠ "_GAMMA") {p : State}
    (hp : p ∈ fullParses c) :
    WF g ws p ∧ p.incomplete = false ∧ p.rule = gammaRule g ∧
      p.span_start = 0 ∧ p.span_stop = ws.length := by
  have hinv := parseChart_WF h
  rw [fullParses] at hp
  rcases List.mem_filter.mp hp with ⟨hmem, hcond⟩
  simp only [Bool.and_eq_true, Bool.not_eq_true', beq_iff_eq] at hcond
  rw [hinv.2.1] at hmem
  obtain ⟨hwf, hstop⟩ := hinv.2.2.2 _ p hmem
  have hwf2 := hwf
  have hγ : p.rule = gammaRule g ∧ p.span_start = 0 := by
    rcases hwf with @⟨r0, a0, b0, d0, p0, hrule, hab, hbn, hpp, hn, hch, hpc, hpw, hd, hstr, hgam⟩
    rw [State.rule_mk, State.span_start_mk]
    rw [State.rule_mk] at hcond
    exact hgam hno hcond.2
  exact ⟨hwf2, hcond.1, hγ.1, hγ.2, by rw [hstop]; omega⟩

end EarleyAlgorithm

namespace EarleyAlgorithm

theorem treeFromParse_shape (s : State) :
    ∃ cs, treeFromParse s = .node s.rule.lhs cs := by
  cases s with
  | mk r a b d p =>
    rw [treeFromParse_def, State.rule_mk]
    by_cases h : r.preterminal = true
    · rw [if_pos h]; exact ⟨_, rfl⟩
    · rw [if_neg h]; exact ⟨_, rfl⟩

/-- A completed state carrying the augmenting rule has exactly one
backpointer: a completed state for the start symbol covering the same span
(provided no grammar rule has an empty lhs or an empty preterminal rhs,
which keeps the dot within the one-symbol augmenting rhs). -/
theorem gamma_state_structure {g : Grammar} {ws : List String} {p : State}
    (hwf : WF g ws p) (hinc : p.incomplete = false)
    (hrule : p.rule = gammaRule g)
    (hb : ∀ r' ∈ g.rules, r'.lhs ≠ "")
    (hpne : ∀ r' ∈ g.rules, r'.preterminal = true → r'.rhs ≠ []) :
    ∃ c1, p.previous_states = [c1] ∧ WF g ws c1 ∧ c1.incomplete = false ∧
      c1.span_start = p.span_start ∧ c1.span_stop = p.span_stop ∧
      c1.rule.lhs = g.distinguished_symbol := by
  rcases hwf with @⟨r0, a0, b0, d0, p0, hrule0, hab, hbn, hp, hn, hch, hpc, hpw, hd, hstr, hgam⟩
  rw [State.rule_mk] at hrule
  rw [incomplete_mk_false] at hinc
  subst hrule
  have hpretF : (gammaRule g).preterminal = false := rfl
  have hlen1 : (gammaRule g).rhs.length = 1 := rfl
  obtain ⟨hplen, hchain⟩ := hn hpretF
  have hd0 : d0 ≤ 1 := by
    have := hd hb hpne
    omega
  have hd1 : d0 = 1 := by omega
  have hp1 : p0.length = 1 := by omega
  rcases List.length_eq_one.mp hp1 with ⟨c1, hc1⟩
  subst hc1
  rw [SpanChain] at hchain
  rw [SpanChain] at hchain
  refine ⟨c1, by rw [State.previous_states_mk], hpw c1 (List.mem_singleton_self c1),
    hpc c1 (List.mem_singleton_self c1), ?_, ?_, ?_⟩
  · rw [State.span_start_mk, hchain.1]
  · rw [State.span_stop_mk, hchain.2]
  · have := hch hpretF 0 (by simp) (by rw [hlen1]; omega)
    simpa using this

/-- Amended soundness: for a `GoodG` grammar, every tree `parse` returns
has leaves that reproduce exactly the input token sequence. -/
theorem parse_sound {g : Grammar} {ws : List String} {f : Nat}
    {ts : List PTree} (hg : GoodG g) (h : parse g f ws = some (.ok ts)) :
    ∀ t ∈ ts, t.leaves = ws := by
  intro t ht
  rcases parse_ok_mem h with ⟨c, hc, hmem⟩
  rcases hmem t ht with ⟨p, hpfull, hunwrap⟩
  obtain ⟨hwf, hinc, hrule, hstart, hstop⟩ := fullParses_spec hc hg.2.2 hpfull
  have hpne : ∀ r' ∈ g.rules, r'.preterminal = true → r'.rhs ≠ [] := by
    intro r' hr' hp' hnil
    have := hg.1 r' hr' hp'
    rw [hnil] at this
    cases this
  obtain ⟨c1, hprev, hc1wf, hc1inc, hc1start, hc1stop, _⟩ :=
    gamma_state_structure hwf hinc hrule hg.2.1 hpne
  have htc1 : t = treeFromParse c1 := by
    cases p with
    | mk r0 a0 b0 d0 p0 =>
      rw [State.previous_states_mk] at hprev
      subst hprev
      rw [State.rule_mk] at hrule
      rw [treeFromParse_def, hrule] at hunwrap
      rw [if_neg (by rw [gammaRule]; simp)] at hunwrap
      rw [show sortByStart [c1] = [c1] from rfl] at hunwrap
      rw [List.map_cons, List.map_nil, unwrapGamma] at hunwrap
      cases hunwrap
      rfl
  rw [htc1, leaves_treeFromParse hg c1 hc1wf hc1inc, hc1start, hc1stop,
    hstart, hstop, slice_full]

/-- Amended no-raise: when no grammar rule reuses the `_GAMMA` label, a
finished `parse` never raises: its result is always a tree list. -/
theorem parse_no_raise {g : Grammar} {ws : List String} {f : Nat}
    {r : Except Unit (List PTree)}
    (hno : ∀ r' ∈ g.rules, r'.lhs ≠ "_GAMMA")
    (h : parse g f ws = some r) : ∃ ts, r = .ok ts := by
  rw [parse] at h
  rcases Option.map_eq_some'.mp h with ⟨c, hc, hr⟩
  have hall : ∀ p ∈ fullParses c, ∃ t, unwrapGamma (treeFromParse p) = .ok t := by
    intro p hp
    obtain ⟨hwf, hinc, hrule, _, _⟩ := fullParses_spec hc hno hp
    rcases hwf with @⟨r0, a0, b0, d0, p0, hrule0, hab, hbn, hpp, hn, hch, hpc, hpw, hd, hstr, hgam⟩
    rw [State.rule_mk] at hrule
    rw [incomplete_mk_false] at hinc
    subst hrule
    have hpretF : (gammaRule g).preterminal = false := rfl
    obtain ⟨hplen, _⟩ := hn hpretF
    have hlen1 : (gammaRule g).rhs.length = 1 := rfl
    have hplen1 : 1 ≤ p0.length := by omega
    rw [treeFromParse_def, if_neg (by rw [gammaRule]; simp)]
    cases hsort : sortByStart p0 with
    | nil =>
      exfalso
      have := length_sortByStart p0
      rw [hsort] at this
      simp at this
      omega
    | cons c1 rest =>
      rw [List.map_cons]
      exact ⟨_, rfl⟩
  rcases mapM_ok_of_forall _ _ hall with ⟨ts, hts⟩
  refine ⟨ts, ?_⟩
  rw [← hr, hts]

/-- Amended rooting: when no grammar rule reuses the `_GAMMA` label, every
returned tree is rooted at the grammar's distinguished (start) symbol. -/
theorem parse_rooted {g : Grammar} {ws : List String} {f : Nat}
    {ts : List PTree}
    (hno : ∀ r' ∈ g.rules, r'.lhs ≠ "_GAMMA")
    (hb : ∀ r' ∈ g.rules, r'.lhs ≠ "")
    (hpne : ∀ r' ∈ g.rules, r'.preterminal = true → r'.rhs ≠ [])
    (h : parse g f ws = some (.ok ts)) :
    ∀ t ∈ ts, ∃ cs, t = .node g.distinguished_symbol cs := by
  intro t ht
  rcases parse_ok_mem h with ⟨c, hc, hmem⟩
  rcases hmem t ht with ⟨p, hpfull, hunwrap⟩
  obtain ⟨hwf, hinc, hrule, hstart, hstop⟩ := fullParses_spec hc hno hpfull
  obtain ⟨c1, hprev, hc1wf, hc1inc, _, _, hc1lhs⟩ :=
    gamma_state_structure hwf hinc hrule hb hpne
  have htc1 : t = treeFromParse c1 := by
    cases p with
    | mk r0 a0 b0 d0 p0 =>
      rw [State.previous_states_mk] at hprev
      subst hprev
      rw [State.rule_mk] at hrule
      rw [treeFromParse_def, hrule] at hunwrap
      rw [if_neg (by rw [gammaRule]; simp)] at hunwrap
      rw [show sortByStart [c1] = [c1] from rfl] at hunwrap
      rw [List.map_cons, List.map_nil, unwrapGamma] at hunwrap
      cases hunwrap
      rfl
  rcases treeFromParse_shape c1 with ⟨cs, hcs⟩
  exact ⟨cs, by rw [htc1, hcs, hc1lhs]⟩

end EarleyAlgorithm

/-! Membership and `contains` agree (the `BEq` on `State` is lawful), giving
the idempotence of `enqueue` on an already-present state. -/

namespace EarleyChart

theorem mem_of_contains_eq_true {l : List State} {s : State}
    (h : l.contains s = true) : s ∈ l := by
  rw [List.contains_eq_any_beq] at h
  rcases List.any_eq_true.mp h with ⟨x, hx, hbeq⟩
  rw [eq_of_beq hbeq]
  exact hx

theorem contains_of_mem {l : List State} {s : State} (h : s ∈ l) :
    l.contains s = true := by
  by_contra hc
  rw [Bool.not_eq_true] at hc
  exact not_mem_of_contains_eq_false hc h

end EarleyChart

namespace EarleyAlgorithm

/-- On the empty input, a run that finishes returns `.ok []` whenever no
non-preterminal rule has an empty rhs: every state stays incomplete (scan
never fires with no tokens, predict seeds dot-0 states over nonempty
right-hand sides, complete never receives a completed state), so
`_full_parses` filters out everything. -/
theorem parse_empty_input {g : Grammar} {f : Nat} {r : Except Unit (List PTree)}
    (hne : ∀ rl ∈ g.rules, rl.preterminal = false → rl.rhs ≠ [])
    (h : parse g f [] = some r) : r = .ok [] := by
  rw [parse] at h
  rcases Option.map_eq_some'.mp h with ⟨c, hc, hr⟩
  have hP : StepClosed [] (fun s => s.incomplete = true) g := by
    refine ⟨?_, ?_, ?_, ?_⟩
    · intro st rl _ _ hrl hpret _
      exact (incomplete_mk _ _ _ _ _).mpr
        (List.length_pos.mpr (hne rl hrl hpret))
    · intro st rl _ _ _ _ _ hlt _
      simp at hlt
    · intro cand st _ hPst hstinc _ _
      simp [hstinc] at hPst
    · rw [seedState, incomplete_mk, gammaRule]
      simp
  have hinv := parseChart_inv hP hc
  have hfp : fullParses c = [] := by
    rw [fullParses]
    apply List.filter_eq_nil.mpr
    intro s hs
    have hPs := (hinv.2.2.2 _ s hs).1
    simp [hPs]
  rw [hfp] at hr
  rw [← hr, List.mapM_nil]
  rfl

end EarleyAlgorithm

/-! The claimed termination argument fails: on the grammar
`S -> ['']`, `'' -> []` and the empty input, every completed `'' -> []`
state advances every candidate of the live agenda at position 0 — including
already-complete states, whose `next_category` is `''` — and each advance
appends a brand-new state (its `previous_states` chain is one longer, and
`State.__eq__` compares `previous_states`), so the `_complete` loop runs
ahead of its own index forever. The states of that infinite run: -/

namespace EarleyAlgorithm

/-- The seeded state `_GAMMA -> . S, [0,0]` of the looping run. -/
def l0 : State := .mk ⟨"_GAMMA", ["S"], false⟩ 0 0 0 []

/-- The predicted state `S -> . '', [0,0]`. -/
def l1 : State := .mk ruleL0 0 0 0 []

/-- The predicted (already complete) state `'' -> ., [0,0]`. -/
def l2 : State := .mk ruleL1 0 0 0 []

/-- The rule carried by the `j`-th freshly appended state: the two lhs
labels alternate. -/
def loopRule (j : Nat) : SRule := if j % 2 = 0 then ruleL0 else ruleL1

/-- The `j`-th state appended by the runaway `_complete` loop: ever longer
`previous_states` chains of `l2`. -/
def loopState (j : Nat) : State :=
  .mk (loopRule j) 0 0 (j / 2 + 1) (List.replicate (j / 2 + 1) l2)

/-- The element of the position-0 agenda at index `k` during the runaway
loop. -/
def loopItem : Nat → State
  | 0 => l0
  | 1 => l1
  | 2 => l2
  | j + 3 => loopState j

/-- The position-0 agenda after `m` runaway appends. -/
def loopAgenda (m : Nat) : List State := (List.range (m + 3)).map loopItem

/-- The chart (empty sentence, one agenda) after `m` runaway appends. -/
def loopChart (m : Nat) : EarleyChart := ⟨[], [loopAgenda m]⟩

theorem loopAgenda_length (m : Nat) : (loopAgenda m).length = m + 3 := by
  rw [loopAgenda, List.length_map, List.length_range]

theorem loopAgenda_snoc (m : Nat) :
    loopAgenda m ++ [loopState m] = loopAgenda (m + 1) := by
  rw [loopAgenda, loopAgenda]
  conv_rhs => rw [show m + 1 + 3 = m + 3 + 1 from rfl, List.range_succ]
  rw [List.map_append, List.map_cons, List.map_nil]
  rfl

theorem loopAgenda_get (m k : Nat) (h : k < (loopAgenda m).length) :
    (loopAgenda m).get ⟨k, h⟩ = loopItem k := by
  have h2 : k < (List.map loopItem (List.range (m + 3))).length := by
    rw [List.length_map, List.length_range]
    rw [loopAgenda_length] at h
    exact h
  have hmain : (List.map loopItem (List.range (m + 3)))[k] = loopItem k := by
    rw [List.getElem_map, List.getElem_range]
  exact hmain

theorem loopState_inj {i j : Nat} (h : loopState i = loopState j) : i = j := by
  rw [loopState, loopState, State.mk.injEq] at h
  obtain ⟨hr, -, -, hd, -⟩ := h
  rw [loopRule, loopRule] at hr
  by_cases hi : i % 2 = 0 <;> by_cases hj : j % 2 = 0
  · omega
  · rw [if_pos hi, if_neg hj] at hr
    exact absurd hr (by decide)
  · rw [if_neg hi, if_pos hj] at hr
    exact absurd hr (by decide)
  · omega

theorem loopState_not_mem (m : Nat) : loopState m ∉ loopAgenda m := by
  intro hmem
  rcases List.mem_map.mp hmem with ⟨k, hk, hEq⟩
  have hk3 := List.mem_range.mp hk
  match k, hEq with
  | 0, hEq =>
    have hdot := congrArg State.dot_position hEq
    rw [show (loopItem 0).dot_position = 0 from rfl,
      show (loopState m).dot_position = m / 2 + 1 from rfl] at hdot
    omega
  | 1, hEq =>
    have hdot := congrArg State.dot_position hEq
    rw [show (loopItem 1).dot_position = 0 from rfl,
      show (loopState m).dot_position = m / 2 + 1 from rfl] at hdot
    omega
  | 2, hEq =>
    have hdot := congrArg State.dot_position hEq
    rw [show (loopItem 2).dot_position = 0 from rfl,
      show (loopState m).dot_position = m / 2 + 1 from rfl] at hdot
    omega
  | j + 3, hEq =>
    have := loopState_inj (show loopState j = loopState m from hEq)
    omega

theorem loopChart_enqueue (m : Nat) :
    (loopChart m).enqueue (loopState m) 0 = loopChart (m + 1) := by
  have hnc : ((loopChart m).at_ 0).contains (loopState m) = false := by
    cases hc : ((loopChart m).at_ 0).contains (loopState m)
    · rfl
    · exact absurd (EarleyChart.mem_of_contains_eq_true hc) (loopState_not_mem m)
  rw [EarleyChart.enqueue, if_neg (by rw [hnc]; simp)]
  rw [show (loopChart m).at_ 0 = loopAgenda m from rfl, loopAgenda_snoc]
  rfl

theorem loopState_next_category (j : Nat) : (loopState j).next_category = "" := by
  rw [loopState, next_category_mk, loopRule]
  by_cases h : j % 2 = 0
  · rw [if_pos h]
    have hlen : ¬(j / 2 + 1 < ruleL0.rhs.length) := by
      rw [ruleL0]
      show ¬(j / 2 + 1 < 1)
      omega
    rw [if_neg hlen]
  · rw [if_neg h]
    have hlen : ¬(j / 2 + 1 < ruleL1.rhs.length) := by
      rw [ruleL1]
      show ¬(j / 2 + 1 < 0)
      omega
    rw [if_neg hlen]

theorem loopState_cond (j : Nat) :
    ((loopState j).next_category == l2.rule.lhs
      && (loopState j).span_stop == l2.span_start) = true := by
  rw [loopState_next_category,
    show (loopState j).span_stop = 0 from rfl]
  rfl

theorem advance_loopState (j : Nat) :
    advance (loopState j) l2 = loopState (j + 2) := by
  have hmod : (j + 2) % 2 = j % 2 := Nat.add_mod_right j 2
  have hdiv : (j + 2) / 2 + 1 = (j / 2 + 1) + 1 := by omega
  rw [advance, loopState, loopState, State.rule_mk, State.span_start_mk,
    State.dot_position_mk, State.previous_states_mk, State.mk.injEq]
  refine ⟨?_, rfl, rfl, ?_, ?_⟩
  · rw [loopRule, loopRule, hmod]
  · omega
  · rw [hdiv, List.replicate_succ', List.replicate_succ', List.replicate_succ']

/-- The runaway `_complete` loop: starting from the chart holding agenda
`loopAgenda (k-1)` at index `k`, every fuel bound runs out. -/
theorem completeLoop_l2_none :
    ∀ (f k : Nat), completeLoop l2 f (loopChart (k - 1)) k = none := by
  intro f
  induction f with
  | zero =>
    intro k
    apply completeLoop_zero
    rw [show (loopChart (k - 1)).at_ l2.span_start = loopAgenda (k - 1) from rfl,
      loopAgenda_length]
    omega
  | succ f ih =>
    intro k
    have hk : k < ((loopChart (k - 1)).at_ l2.span_start).length := by
      rw [show (loopChart (k - 1)).at_ l2.span_start = loopAgenda (k - 1) from rfl,
        loopAgenda_length]
      omega
    rw [completeLoop_succ f hk]
    have hcand : ((loopChart (k - 1)).at_ l2.span_start).get ⟨k, hk⟩ = loopItem k :=
      loopAgenda_get (k - 1) k (by rw [loopAgenda_length]; omega)
    rw [hcand]
    have hchart : (if (loopItem k).next_category == l2.rule.lhs
          && (loopItem k).span_stop == l2.span_start
        then (loopChart (k - 1)).enqueue (advance (loopItem k) l2) l2.span_stop
        else loopChart (k - 1)) = loopChart k := by
      rcases Nat.lt_or_ge k 3 with h3 | h3
      · interval_cases k
        · rw [if_neg (by decide)]
        · rw [if_pos (by decide),
            show advance (loopItem 1) l2 = loopState 0 from rfl]
          exact loopChart_enqueue 0
        · rw [if_pos (by decide),
            show advance (loopItem 2) l2 = loopState 1 from rfl]
          exact loopChart_enqueue 1
      · obtain ⟨j, rfl⟩ : ∃ j, k = j + 3 := ⟨k - 3, by omega⟩
        rw [show loopItem (j + 3) = loopState j from rfl,
          if_pos (loopState_cond j), advance_loopState j]
        exact loopChart_enqueue (j + 2)
    rw [hchart]
    exact ih (k + 1)

/-- The inner agenda loop of the looping run never finishes. -/
theorem agendaLoop_loop_none :
    ∀ fuel : Nat,
      agendaLoop grammarLoop fuel (⟨[], [[l0]]⟩ : EarleyChart) 0 0 = none := by
  intro fuel
  match fuel with
  | 0 => rfl
  | 1 => rfl
  | 2 => rfl
  | f + 3 =>
    have h0 : processState grammarLoop (f + 2) (⟨[], [[l0]]⟩ : EarleyChart) l0
        = some ⟨[], [[l0, l1]]⟩ := rfl
    have h1 : processState grammarLoop (f + 1) (⟨[], [[l0, l1]]⟩ : EarleyChart) l1
        = some ⟨[], [[l0, l1, l2]]⟩ := rfl
    calc agendaLoop grammarLoop (f + 2 + 1) (⟨[], [[l0]]⟩ : EarleyChart) 0 0
        = agendaLoop grammarLoop (f + 2) ⟨[], [[l0, l1]]⟩ 0 1 :=
          agendaLoop_succ_eq (f + 2) (by decide) h0
      _ = agendaLoop grammarLoop (f + 1) ⟨[], [[l0, l1, l2]]⟩ 0 2 :=
          agendaLoop_succ_eq (f + 1) (by decide) h1
      _ = none := by
          rw [agendaLoop_succ f (by decide)]
          have hnone : processState grammarLoop f (⟨[], [[l0, l1, l2]]⟩ : EarleyChart)
              (((⟨[], [[l0, l1, l2]]⟩ : EarleyChart).at_ 0).get ⟨2, by decide⟩)
              = none := by
            show completeLoop l2 f (loopChart 0) 0 = none
            exact completeLoop_l2_none f 0
          rw [hnone]
          rfl

/-- `parse` on `grammarLoop` and the empty input runs out of any fuel
bound: the Python loops never terminate. -/
theorem parse_grammarLoop_none (fuel : Nat) : parse grammarLoop fuel [] = none := by
  have hchart : parseChart grammarLoop fuel [] = none := by
    rw [parseChart,
      show ((EarleyChart.init []).enqueue (seedState grammarLoop) 0)
        = (⟨[], [[l0]]⟩ : EarleyChart) from rfl,
      show List.range (List.length ([] : List String) + 1) = [0] from rfl,
      posLoop, agendaLoop_loop_none fuel]
    rfl
  rw [parse, hchart]
  rfl

end EarleyAlgorithm

/-! The ten claims. -/

/-- C1: for the Scenario-A grammar (`S→VP`, `VP→V NP`, `NP→Det Nominal`,
`Det→"that"`, `Nominal→"flight"`, `V→"Book"`, start symbol `S`), parsing
`["Book","that","flight"]` returns exactly the one-element list holding the
tree `["S",["VP",["V","Book"],["NP",["Det","that"],["Nominal","flight"]]]]`
(at every fuel bound large enough for the run to finish). -/
theorem C1_scenarioA (extra : Nat) :
    parse grammarA (200 + extra) wsA =
      some (.ok [.node "S" [.node "VP" [.node "V" [.str "Book"],
        .node "NP" [.node "Det" [.str "that"],
          .node "Nominal" [.str "flight"]]]]]) :=
  parse_mono_add parseRunA extra

/-- C2 (corrected): soundness — every returned tree's leaves reproduce the
input — holds for grammars whose preterminal rules carry exactly one rhs
symbol and no rule reuses `""` or `_GAMMA` as its lhs (`GoodG`); it fails
for arbitrary literal-string grammars (see the counterexample). -/
theorem C2_soundness {g : Grammar} {ws : List String} {fuel : Nat}
    {ts : List PTree} (hg : GoodG g) (h : parse g fuel ws = some (.ok ts)) :
    ∀ t ∈ ts, t.leaves = ws :=
  parse_sound hg h

/-- C2 witness: the Scenario-A tree's leaves are the Scenario-A tokens. -/
theorem C2_soundness_witness :
    (PTree.node "S" [.node "VP" [.node "V" [.str "Book"],
      .node "NP" [.node "Det" [.str "that"],
        .node "Nominal" [.str "flight"]]]]).leaves = wsA :=
  C2_soundness (by decide) parseRunA
    (PTree.node "S" [.node "VP" [.node "V" [.str "Book"],
      .node "NP" [.node "Det" [.str "that"], .node "Nominal" [.str "flight"]]]])
    (List.mem_singleton_self _)

/-- C2 counterexample: with the literal-string grammar `S→[Det]`,
`Det→["th","at"]` (preterminal), `at→["x"]` (preterminal) and input
`["that","x"]`, parse returns a tree whose leaves are `["that"]`, not the
input. -/
theorem C2_counterexample :
    parse grammarMulti 200 wsM =
      some (.ok [.node "S" [.node "Det" [.str "that"]]]) ∧
    (PTree.node "S" [.node "Det" [.str "that"]]).leaves ≠ wsM :=
  ⟨parseRunM, by decide⟩

/-- C3 (code bug): parse does not terminate on every grammar — on
`S→[""]`, `""→[]` with empty input, the `_complete` loop enqueues a fresh
state (ever longer `previous_states`, which `State.__eq__` compares) on
every iteration of the agenda it is scanning, so no fuel bound suffices. -/
theorem C3_nontermination (fuel : Nat) : parse grammarLoop fuel [] = none :=
  parse_grammarLoop_none fuel

/-- C4 (corrected): on the empty input, parse returns `[]` provided no
non-preterminal rule has an empty rhs; a null production such as `S→[]`
yields a full parse of the empty input (see the counterexample). -/
theorem C4_empty_input {g : Grammar} {fuel : Nat} {r : Except Unit (List PTree)}
    (hne : ∀ rl ∈ g.rules, rl.preterminal = false → rl.rhs ≠ [])
    (h : parse g fuel [] = some r) : r = .ok [] :=
  parse_empty_input hne h

/-- C4 witness: the repository's `test_empty_words` grammar on `[]`. -/
theorem C4_empty_input_witness : (Except.ok [] : Except Unit (List PTree)) = .ok [] :=
  @C4_empty_input grammarNothing 200 (.ok []) (by decide) parseRunE

/-- C4 counterexample: the null-production grammar `S→[]` parses the empty
input to the nonempty tree list `[["S"]]`. -/
theorem C4_counterexample :
    parse grammarNull 200 [] = some (.ok [PTree.node "S" []]) ∧
      ([PTree.node "S" []] : List PTree) ≠ [] :=
  ⟨parseRunN, by decide⟩

/-- C5 (code bug): on the pattern-terminal grammar `S→⟨pattern⟩`
(preterminal) and input `["hello"]`, the scan-applicability check reaches
`''.join(rule.rhs)` with a `Regex` element and raises (Python
`TypeError`), instead of matching the token and producing `["S","hello"]`. -/
theorem C5_regex_scan_raises :
    isApplicablePreterminalR regexRule seedStateR ["hello"] = .error () := rfl

/-- C6: `enqueue` is idempotent — enqueuing a state structurally equal to
one already present at that position leaves the chart (hence that agenda
and its length) unchanged — and consequently every agenda of a finished
chart is duplicate-free under structural equality. -/
theorem C6_enqueue_idempotent :
    (∀ (c : EarleyChart) (s : State) (p : Nat), s ∈ c.at_ p →
      c.enqueue s p = c) ∧
    (∀ (g : Grammar) (f : Nat) (ws : List String) (c : EarleyChart),
      parseChart g f ws = some c → ∀ i : Nat, (c.at_ i).Nodup) := by
  constructor
  · intro c s p h
    exact EarleyChart.enqueue_of_contains (EarleyChart.contains_of_mem h)
  · intro g f ws c h i
    exact (parseChart_WF h).2.2.1 i

/-- C6 witness: re-enqueuing the seeded state leaves a seeded chart
unchanged. -/
theorem C6_enqueue_idempotent_witness :
    ((EarleyChart.init []).enqueue l0 0).enqueue l0 0
      = (EarleyChart.init []).enqueue l0 0 :=
  C6_enqueue_idempotent.1 _ l0 0 (by decide)

/-- C7 (corrected): a finished parse returns a tree list (never raises)
for every grammar in which no rule reuses the reserved `_GAMMA` lhs; a
user `_GAMMA` rule can make the final `[1]` indexing raise (see the
counterexample). -/
theorem C7_no_raise {g : Grammar} {ws : List String} {fuel : Nat}
    {r : Except Unit (List PTree)}
    (hno : ∀ rl ∈ g.rules, rl.lhs ≠ "_GAMMA")
    (h : parse g fuel ws = some r) : ∃ ts, r = .ok ts :=
  parse_no_raise hno h

/-- C7 witness: Scenario A finishes with a tree list. -/
theorem C7_no_raise_witness :
    ∃ ts, (Except.ok [PTree.node "S" [.node "VP" [.node "V" [.str "Book"],
      .node "NP" [.node "Det" [.str "that"], .node "Nominal" [.str "flight"]]]]]
        : Except Unit (List PTree)) = .ok ts :=
  C7_no_raise (by decide) parseRunA

/-- C7 counterexample: the grammar `S→[A,_GAMMA]`, `A→"a"` (preterminal),
`_GAMMA→[]` on input `["a"]` makes `parse` raise (`tree[1]` on a
one-element tree list, Python `IndexError`). -/
theorem C7_counterexample :
    parse grammarGammaNull 200 ["a"] = some (.error ()) :=
  parseRunG

/-- C8 (corrected): chart access raises exactly when the integer index is
below `-(len+1)` or at least `len+1` (the chart length); a negative index
in `[-(len+1), -1]` silently wraps Python-style instead of raising. -/
theorem C8_getItem (c : EarleyChart) (i : Int) :
    ((c.getItem i = .error ()) ↔
      (i < -(c.agendas.length : Int) ∨ (c.agendas.length : Int) ≤ i)) ∧
    (-(c.agendas.length : Int) ≤ i → i < 0 →
      c.getItem i = .ok (c.agendas.getD (i + c.agendas.length).toNat [])) :=
  chart_getItem_spec c i

/-- C8 counterexample: index `-1` is outside `[0, len(tokens)]` yet
returns an agenda (the last one) instead of raising. -/
theorem C8_getItem_counterexample :
    (EarleyChart.init ["a"]).getItem (-1) = .ok [] := rfl

/-- C9 (corrected): `_tree_from_parse` does emit `[lhs]` followed by the
subtrees of `previous_states` sorted by ascending `span_start`; but the
returned trees are rooted at the start symbol only when no grammar rule
reuses `_GAMMA` or `""` as lhs and preterminal rhs are nonempty (see the
counterexample). -/
theorem C9_rooted :
    (∀ (r : SRule) (a b d : Nat) (p : List State),
      treeFromParse (.mk r a b d p) =
        if r.preterminal then .node r.lhs [.str (String.join r.rhs)]
        else .node r.lhs ((sortByStart p).map treeFromParse)) ∧
    (∀ (g : Grammar) (ws : List String) (fuel : Nat) (ts : List PTree),
      (∀ rl ∈ g.rules, rl.lhs ≠ "_GAMMA") →
      (∀ rl ∈ g.rules, rl.lhs ≠ "") →
      (∀ rl ∈ g.rules, rl.preterminal = true → rl.rhs ≠ []) →
      parse g fuel ws = some (.ok ts) →
      ∀ t ∈ ts, ∃ cs, t = .node g.distinguished_symbol cs) :=
  ⟨treeFromParse_def,
    fun _ _ _ _ h1 h2 h3 h4 => parse_rooted h1 h2 h3 h4⟩

/-- C9 witness: the Scenario-A tree is rooted at `grammarA`'s start
symbol. -/
theorem C9_rooted_witness :
    ∃ cs, (PTree.node "S" [.node "VP" [.node "V" [.str "Book"],
      .node "NP" [.node "Det" [.str "that"], .node "Nominal" [.str "flight"]]]])
        = PTree.node grammarA.distinguished_symbol cs :=
  C9_rooted.2 grammarA wsA 200 _ (by decide) (by decide) (by decide) parseRunA
    (PTree.node "S" [.node "VP" [.node "V" [.str "Book"],
      .node "NP" [.node "Det" [.str "that"], .node "Nominal" [.str "flight"]]]])
    (List.mem_singleton_self _)

/-- C9 counterexample: with the user rule `_GAMMA→[X]` the returned list
contains a tree rooted at `"X"`, not at the grammar's start symbol. -/
theorem C9_counterexample :
    parse grammarGammaRule 200 ["a", "x"] =
      some (.ok [.node "X" [.str "x"],
        .node "S" [.node "A" [.str "a"], .node "_GAMMA" [.node "X" [.str "x"]]]]) ∧
      ("X" : String) ≠ grammarGammaRule.distinguished_symbol :=
  ⟨parseRunR, by decide⟩

/-- C10 (corrected): every state of a finished chart satisfies
`span_start ≤ span_stop ≤ len(tokens)` and sits in the agenda at its
`span_stop`; the bound `dot_position ≤ len(rule.rhs)` additionally needs
that no rule's lhs is `""` and preterminal rhs are nonempty (see the
counterexample, where a dot passes the end of a rule). -/
theorem C10_state_invariants {g : Grammar} {ws : List String} {fuel : Nat}
    {c : EarleyChart} (h : parseChart g fuel ws = some c) (i : Nat) (s : State)
    (hs : s ∈ c.at_ i) :
    s.span_start ≤ s.span_stop ∧ s.span_stop ≤ ws.length ∧ s.span_stop = i ∧
      ((∀ rl ∈ g.rules, rl.lhs ≠ "") →
        (∀ rl ∈ g.rules, rl.preterminal = true → rl.rhs ≠ []) →
        s.dot_position ≤ s.rule.rhs.length) :=
  parseChart_state_invariants h i s hs

/-- C10 witness: the seeded state of the finished Scenario-A chart. -/
theorem C10_state_invariants_witness :
    Aq0.span_start ≤ Aq0.span_stop ∧ Aq0.span_stop ≤ wsA.length ∧
      Aq0.span_stop = 0 ∧
      ((∀ rl ∈ grammarA.rules, rl.lhs ≠ "") →
        (∀ rl ∈ grammarA.rules, rl.preterminal = true → rl.rhs ≠ []) →
        Aq0.dot_position ≤ Aq0.rule.rhs.length) :=
  C10_state_invariants chartA 0 Aq0 (by decide)

/-- C10 counterexample: on the grammar with the empty-lhs rule `""→[B]`,
the finished chart holds the state `Dq7` (`A→"a" .`, dot 2) whose dot is
past its one-symbol rhs. -/
theorem C10_counterexample :
    parseChart grammarEmptyLhs 200 ["a", "b"] =
      some ⟨["a", "b"], [[Dq0, Dq1], [Dq2, Dq3, Dq4],
        [Dq5, Dq6, Dq7, Dq8, Dq9, Dq10, Dq11]]⟩ ∧
      Dq7 ∈ ((⟨["a", "b"], [[Dq0, Dq1], [Dq2, Dq3, Dq4],
        [Dq5, Dq6, Dq7, Dq8, Dq9, Dq10, Dq11]]⟩ : EarleyChart).at_ 2) ∧
      Dq7.rule.rhs.length < Dq7.dot_position :=
  ⟨chartD, by decide, by decide⟩
